import Mathlib

/-!
# Konfyt: project port bookkeeping, Fluidsynth engine adapter, port creation

A shallow embedding of

* `KonfytProject` (src/src/konfytProject.cpp, konfytProject.h): the id-to-port
  maps of a project and their client lists,
* `konfytFluidsynthEngine` (src/src/konfytFluidsynthEngine.cpp): MIDI delivery,
  rendering and the registry of synth instances,
* `MainWindow::addBus`, `addAudioInPort`, `addMidiInPort`, `addMidiOutPort`
  (src/src/mainwindow.cpp).

Conventions.  C++ `int` is `Int` (ids and counters start at 0 and grow by one
per created object).  A pointer is `Option Nat`, `none` being the null pointer.
`QStringList` is `List String`, `QMap<int, V>` is `QMap V` below.  Qt signals
and backend calls a function issues are appended to a log carried in the state.
A failed `Q_ASSERT` aborts, so the function has no result (`none`); a failed
`KONFYT_ASSERT_RETURN` returns at once with the state as it is.  What the JACK
transport and libfluidsynth answer is an argument of the function that asks.
-/

namespace Konfyt

/-! ## `QMap<int, V>`: a finite map with keys kept in ascending order -/

/-- Keys of an entry list, in list order. -/
def entryKeys {V : Type} (l : List (Int × V)) : List Int := l.map Prod.fst

/-- Insert into an ascending entry list; an entry with the same key is replaced. -/
def insertEntry {V : Type} (k : Int) (v : V) : List (Int × V) → List (Int × V)
  | [] => [(k, v)]
  | e :: rest =>
    if k < e.1 then (k, v) :: e :: rest
    else if k = e.1 then (k, v) :: rest
    else e :: insertEntry k v rest

/-- Remove the entry with key `k` from an ascending entry list. -/
def removeEntry {V : Type} (k : Int) : List (Int × V) → List (Int × V)
  | [] => []
  | e :: rest => if e.1 = k then rest else e :: removeEntry k rest

/-- Look a key up in an entry list. -/
def lookupEntry {V : Type} (k : Int) : List (Int × V) → Option V
  | [] => none
  | e :: rest => if e.1 = k then some e.2 else lookupEntry k rest

/-- The map `QMap<int, V>`: entries with strictly ascending keys. -/
structure QMap (V : Type) where
  entries : List (Int × V)
  sorted : (entryKeys entries).Pairwise (fun a b => a < b)

theorem entryKeys_insertEntry_mem {V : Type} (k : Int) (v : V) (l : List (Int × V)) (x : Int) :
    x ∈ entryKeys (insertEntry k v l) ↔ x = k ∨ x ∈ entryKeys l := by
  induction l with
  | nil => simp [insertEntry, entryKeys]
  | cons e rest ih =>
    unfold insertEntry
    by_cases h1 : k < e.1
    · simp [h1, entryKeys]
    · by_cases h2 : k = e.1
      · rw [if_neg h1, if_pos h2]
        simp [entryKeys, h2]
      · rw [if_neg h1, if_neg h2]
        simp only [entryKeys, List.map_cons, List.mem_cons] at ih ⊢
        rw [ih]
        tauto

theorem insertEntry_sorted {V : Type} (k : Int) (v : V) (l : List (Int × V))
    (h : (entryKeys l).Pairwise (fun a b => a < b)) :
    (entryKeys (insertEntry k v l)).Pairwise (fun a b => a < b) := by
  induction l with
  | nil => simp [insertEntry, entryKeys]
  | cons e rest ih =>
    have hs : (e.1 :: entryKeys rest).Pairwise (fun a b => a < b) := by
      simpa [entryKeys] using h
    rw [List.pairwise_cons] at hs
    unfold insertEntry
    by_cases h1 : k < e.1
    · simp only [h1, if_true]
      show (k :: e.1 :: entryKeys rest).Pairwise (fun a b => a < b)
      refine List.pairwise_cons.2 ⟨?_, List.pairwise_cons.2 hs⟩
      intro a ha
      rcases List.mem_cons.1 ha with rfl | ha
      · exact h1
      · exact lt_trans h1 (hs.1 a ha)
    · by_cases h2 : k = e.1
      · rw [if_neg h1, if_pos h2]
        show (k :: entryKeys rest).Pairwise (fun a b => a < b)
        rw [h2]
        exact List.pairwise_cons.2 hs
      · rw [if_neg h1, if_neg h2]
        show (e.1 :: entryKeys (insertEntry k v rest)).Pairwise (fun a b => a < b)
        refine List.pairwise_cons.2 ⟨?_, ih hs.2⟩
        intro a ha
        rcases (entryKeys_insertEntry_mem k v rest a).1 ha with rfl | ha
        · omega
        · exact hs.1 a ha

theorem entryKeys_removeEntry_sublist {V : Type} (k : Int) (l : List (Int × V)) :
    (entryKeys (removeEntry k l)).Sublist (entryKeys l) := by
  induction l with
  | nil => simp [removeEntry, entryKeys]
  | cons e rest ih =>
    unfold removeEntry
    by_cases h : e.1 = k
    · simp only [h, if_true]
      exact List.sublist_cons_self _ _
    · simp only [h, if_false]
      exact List.Sublist.cons₂ _ ih

theorem removeEntry_sorted {V : Type} (k : Int) (l : List (Int × V))
    (h : (entryKeys l).Pairwise (fun a b => a < b)) :
    (entryKeys (removeEntry k l)).Pairwise (fun a b => a < b) :=
  List.Pairwise.sublist (entryKeys_removeEntry_sublist k l) h

namespace QMap

variable {V : Type}

/-- The empty map (a default-constructed `QMap`). -/
def empty : QMap V := ⟨[], List.Pairwise.nil⟩

/-- Qt `QMap::keys()`: all keys in ascending order. -/
def keys (m : QMap V) : List Int := entryKeys m.entries

/-- Qt `QMap::contains(key)`. -/
def contains (m : QMap V) (k : Int) : Bool := decide (k ∈ m.keys)

/-- Qt `QMap::count()`. -/
def count (m : QMap V) : Int := m.entries.length

/-- Lookup of a key, `none` when the key is absent. -/
def find? (m : QMap V) (k : Int) : Option V := lookupEntry k m.entries

/-- Qt `QMap::value(key)`: the stored value, or a default-constructed one. -/
def value [Inhabited V] (m : QMap V) (k : Int) : V := (m.find? k).getD default

/-- Qt `QMap::insert(key, value)`: adds the entry, replacing an entry of the same key. -/
def insert (m : QMap V) (k : Int) (v : V) : QMap V :=
  ⟨insertEntry k v m.entries, insertEntry_sorted k v m.entries m.sorted⟩

/-- Qt `QMap::remove(key)`. -/
def remove (m : QMap V) (k : Int) : QMap V :=
  ⟨removeEntry k m.entries, removeEntry_sorted k m.entries m.sorted⟩

end QMap

/-! ## Project data (konfytProject.h) -/

/-- Modelled from the spec: the zone of a `KonfytMidiFilter`; konfytMidiFilter.h is not
among the sources, the fields are those of the MidiFilter data model. -/
structure KonfytMidiZone where
  lowNote : Int := 0
  highNote : Int := 127
  transposeAdd : Int := 0
  lowVel : Int := 0
  highVel : Int := 127
  velLimitMin : Int := 0
  velLimitMax : Int := 127
  deriving DecidableEq, Repr

/-- Modelled from the spec: `KonfytMidiFilter`; konfytMidiFilter.h is not among the
sources, the fields are those of the MidiFilter data model.  A project port only
stores and copies its filter. -/
structure KonfytMidiFilter where
  zone : KonfytMidiZone := {}
  inputChannel : Int := -1
  passAllCC : Bool := true
  passCC : List Int := []
  passProgram : Bool := true
  passPitchbend : Bool := true
  outputChannel : Int := -1
  deriving DecidableEq, Repr

/-- Modelled from the spec: `KonfytMidiFilter::allPassFilter()`, the filter that
rejects and changes nothing. -/
def KonfytMidiFilter.allPassFilter : KonfytMidiFilter := {}

/-- The enum `enum portLeftRight { leftPort, rightPort }`. -/
inductive portLeftRight where
  | leftPort
  | rightPort
  deriving DecidableEq, Repr

/-- The struct `struct PrjAudioBus`. -/
structure PrjAudioBus where
  busName : String := ""
  leftJackPort : Option Nat := none
  leftGain : Rat := 1
  leftOutClients : List String := []
  rightJackPort : Option Nat := none
  rightGain : Rat := 1
  rightOutClients : List String := []
  ignoreMasterGain : Bool := false
  deriving DecidableEq, Repr

/-- The struct `struct PrjAudioInPort`. -/
structure PrjAudioInPort where
  portName : String := ""
  leftJackPort : Option Nat := none
  rightJackPort : Option Nat := none
  leftGain : Rat := 1
  rightGain : Rat := 1
  leftInClients : List String := []
  rightInClients : List String := []
  deriving DecidableEq, Repr

/-- The struct `struct PrjMidiPort`. -/
structure PrjMidiPort where
  portName : String := ""
  clients : List String := []
  jackPort : Option Nat := none
  filter : KonfytMidiFilter := KonfytMidiFilter.allPassFilter
  deriving DecidableEq, Repr

instance : Inhabited PrjAudioBus := ⟨{}⟩
instance : Inhabited PrjAudioInPort := ⟨{}⟩
instance : Inhabited PrjMidiPort := ⟨{}⟩

/-- The struct `struct KonfytTrigger`. -/
structure KonfytTrigger where
  actionText : String := ""
  type : Int := -1
  channel : Int := 0
  data1 : Int := -1
  bankMSB : Int := -1
  bankLSB : Int := -1
  deriving DecidableEq, Repr

/-- The struct `struct ExternalApp`. -/
structure ExternalApp where
  friendlyName : String := ""
  command : String := ""
  runAtStartup : Bool := false
  autoRestart : Bool := false
  deriving DecidableEq, Repr

/-- The struct `struct KonfytJackConPair` (konfytJackStructs.h). -/
structure KonfytJackConPair where
  srcPort : String := ""
  destPort : String := ""
  deriving DecidableEq, Repr

instance : Inhabited ExternalApp := ⟨{}⟩

/-- The signals of `KonfytProject`; an emitted signal is appended to the project's log. -/
inductive ProjectSignal where
  | print (msg : String)
  | projectModifiedChanged (modified : Bool)
  | midiInPortNameChanged (portId : Int)
  | midiOutPortNameChanged (portId : Int)
  | audioInPortNameChanged (portId : Int)
  | midiPickupRangeChanged (range : Int)
  | externalAppAdded (id : Int)
  | externalAppRemoved (id : Int)
  | externalAppModified (id : Int)
  deriving DecidableEq, Repr

/-- The private members of `class KonfytProject`, with their in-class initialisers,
and the log of emitted signals.  A patch is referred to by its pointer `KonfytPatch*`. -/
structure KonfytProject where
  patchList : List (Option Nat) := []
  projectDirname : String := ""
  projectName : String := "New Project"
  midiInPortMap : QMap PrjMidiPort := QMap.empty
  midiOutPortMap : QMap PrjMidiPort := QMap.empty
  audioInPortMap : QMap PrjAudioInPort := QMap.empty
  audioBusMap : QMap PrjAudioBus := QMap.empty
  externalApps : QMap ExternalApp := QMap.empty
  tempExternalAppList : List ExternalApp := []
  triggerHash : List (String × KonfytTrigger) := []
  programChangeSwitchPatches : Bool := true
  patchListNumbers : Bool := true
  patchListNotes : Bool := false
  midiPickupRange : Int := 127
  jackMidiConList : List KonfytJackConPair := []
  jackAudioConList : List KonfytJackConPair := []
  modified : Bool := false
  emitted : List ProjectSignal := []

/-- The client list of one side of a bus (`leftOutClients` or `rightOutClients`). -/
def PrjAudioBus.sideClients (b : PrjAudioBus) (leftRight : portLeftRight) : List String :=
  if leftRight = portLeftRight.leftPort then b.leftOutClients else b.rightOutClients

/-- The client list of one side of an audio input port. -/
def PrjAudioInPort.sideClients (p : PrjAudioInPort) (leftRight : portLeftRight) : List String :=
  if leftRight = portLeftRight.leftPort then p.leftInClients else p.rightInClients

/-- Qt `QStringList::removeAll(s)`: drops every occurrence of `s`. -/
def removeAll (l : List String) (s : String) : List String := l.filter (fun x => x != s)

/-- The value that a C++ `int` (32 bits, two's complement) holds for the result `x` of an
addition: `x` modulo 2^32, taken in the range from -2147483648 to 2147483647. -/
def wrapInt (x : Int) : Int := (x + 2147483648) % 4294967296 - 2147483648

namespace KonfytProject

/-- Method `KonfytProject::setModified`. -/
def setModified (p : KonfytProject) (mod : Bool) : KonfytProject :=
  { p with modified := mod, emitted := p.emitted ++ [ProjectSignal.projectModifiedChanged mod] }

/-- Method `KonfytProject::isModified`. -/
def isModified (p : KonfytProject) : Bool := p.modified

/-- Method `KonfytProject::getUniqueIdHelper`: the highest id of the list (at least -1) plus
one, as an `int`. -/
def getUniqueIdHelper (ids : List Int) : Int :=
  wrapInt (ids.foldl (fun id x => if x > id then x else id) (-1) + 1)

/-- Method `KonfytProject::audioBus_getUniqueId`. -/
def audioBus_getUniqueId (p : KonfytProject) : Int := getUniqueIdHelper p.audioBusMap.keys

/-- Method `KonfytProject::midiInPort_getUniqueId`. -/
def midiInPort_getUniqueId (p : KonfytProject) : Int := getUniqueIdHelper p.midiInPortMap.keys

/-- Method `KonfytProject::midiOutPort_getUniqueId`. -/
def midiOutPort_getUniqueId (p : KonfytProject) : Int := getUniqueIdHelper p.midiOutPortMap.keys

/-- Method `KonfytProject::audioInPort_getUniqueId`. -/
def audioInPort_getUniqueId (p : KonfytProject) : Int := getUniqueIdHelper p.audioInPortMap.keys

/-! ### Audio buses -/

/-- Method `KonfytProject::audioBus_add`: adds a bus and returns its unique id. -/
def audioBus_add (p : KonfytProject) (busName : String) : Int × KonfytProject :=
  let bus : PrjAudioBus := { busName := busName }
  let busId := p.audioBus_getUniqueId
  (busId, ({ p with audioBusMap := p.audioBusMap.insert busId bus }).setModified true)

/-- Method `KonfytProject::audioBus_remove`; a failed `KONFYT_ASSERT_RETURN` returns at once. -/
def audioBus_remove (p : KonfytProject) (busId : Int) : KonfytProject :=
  if !p.audioBusMap.contains busId then p
  else ({ p with audioBusMap := p.audioBusMap.remove busId }).setModified true

/-- Method `KonfytProject::audioBus_count`. -/
def audioBus_count (p : KonfytProject) : Int := p.audioBusMap.count

/-- Method `KonfytProject::audioBus_exists`. -/
def audioBus_exists (p : KonfytProject) (busId : Int) : Bool := p.audioBusMap.contains busId

/-- Method `KonfytProject::audioBus_getBus`. -/
def audioBus_getBus (p : KonfytProject) (busId : Int) : PrjAudioBus := p.audioBusMap.value busId

/-- Method `KonfytProject::audioBus_replace_noModify`. -/
def audioBus_replace_noModify (p : KonfytProject) (busId : Int) (newBus : PrjAudioBus) :
    KonfytProject :=
  if !p.audioBusMap.contains busId then p
  else { p with audioBusMap := p.audioBusMap.insert busId newBus }

/-- Method `KonfytProject::audioBus_replace`. -/
def audioBus_replace (p : KonfytProject) (busId : Int) (newBus : PrjAudioBus) : KonfytProject :=
  (p.audioBus_replace_noModify busId newBus).setModified true

/-- Method `KonfytProject::audioBus_addClient`. -/
def audioBus_addClient (p : KonfytProject) (busId : Int) (leftRight : portLeftRight)
    (client : String) : KonfytProject :=
  if !p.audioBusMap.contains busId then p
  else
    let b := p.audioBusMap.value busId
    let b :=
      if leftRight = portLeftRight.leftPort then
        (if !b.leftOutClients.contains client then
          { b with leftOutClients := b.leftOutClients ++ [client] } else b)
      else
        (if !b.rightOutClients.contains client then
          { b with rightOutClients := b.rightOutClients ++ [client] } else b)
    ({ p with audioBusMap := p.audioBusMap.insert busId b }).setModified true

/-- Method `KonfytProject::audioBus_removeClient`. -/
def audioBus_removeClient (p : KonfytProject) (busId : Int) (leftRight : portLeftRight)
    (client : String) : KonfytProject :=
  if !p.audioBusMap.contains busId then p
  else
    let b := p.audioBusMap.value busId
    let b :=
      if leftRight = portLeftRight.leftPort then
        { b with leftOutClients := removeAll b.leftOutClients client }
      else
        { b with rightOutClients := removeAll b.rightOutClients client }
    ({ p with audioBusMap := p.audioBusMap.insert busId b }).setModified true

/-! ### Audio input ports -/

/-- Method `KonfytProject::audioInPort_add`. -/
def audioInPort_add (p : KonfytProject) (portName : String) : Int × KonfytProject :=
  let port : PrjAudioInPort := { portName := portName }
  let portId := p.audioInPort_getUniqueId
  (portId, ({ p with audioInPortMap := p.audioInPortMap.insert portId port }).setModified true)

/-- Method `KonfytProject::audioInPort_remove`. -/
def audioInPort_remove (p : KonfytProject) (portId : Int) : KonfytProject :=
  if !p.audioInPortMap.contains portId then p
  else ({ p with audioInPortMap := p.audioInPortMap.remove portId }).setModified true

/-- Method `KonfytProject::audioInPort_count`. -/
def audioInPort_count (p : KonfytProject) : Int := p.audioInPortMap.count

/-- Method `KonfytProject::audioInPort_exists`. -/
def audioInPort_exists (p : KonfytProject) (portId : Int) : Bool :=
  p.audioInPortMap.contains portId

/-- Method `KonfytProject::audioInPort_getPort`. -/
def audioInPort_getPort (p : KonfytProject) (portId : Int) : PrjAudioInPort :=
  p.audioInPortMap.value portId

/-- Method `KonfytProject::audioInPort_addClient`. -/
def audioInPort_addClient (p : KonfytProject) (portId : Int) (leftRight : portLeftRight)
    (client : String) : KonfytProject :=
  if !p.audioInPortMap.contains portId then p
  else
    let q := p.audioInPortMap.value portId
    let q :=
      if leftRight = portLeftRight.leftPort then
        (if !q.leftInClients.contains client then
          { q with leftInClients := q.leftInClients ++ [client] } else q)
      else
        (if !q.rightInClients.contains client then
          { q with rightInClients := q.rightInClients ++ [client] } else q)
    ({ p with audioInPortMap := p.audioInPortMap.insert portId q }).setModified true

/-- Method `KonfytProject::audioInPort_removeClient`. -/
def audioInPort_removeClient (p : KonfytProject) (portId : Int) (leftRight : portLeftRight)
    (client : String) : KonfytProject :=
  if !p.audioInPortMap.contains portId then p
  else
    let q := p.audioInPortMap.value portId
    let q :=
      if leftRight = portLeftRight.leftPort then
        { q with leftInClients := removeAll q.leftInClients client }
      else
        { q with rightInClients := removeAll q.rightInClients client }
    ({ p with audioInPortMap := p.audioInPortMap.insert portId q }).setModified true

/-! ### MIDI input ports -/

/-- Method `KonfytProject::midiInPort_addPort`. -/
def midiInPort_addPort (p : KonfytProject) (portName : String) : Int × KonfytProject :=
  let port : PrjMidiPort := { portName := portName }
  let portId := p.midiInPort_getUniqueId
  (portId, ({ p with midiInPortMap := p.midiInPortMap.insert portId port }).setModified true)

/-- Method `KonfytProject::midiInPort_exists`. -/
def midiInPort_exists (p : KonfytProject) (portId : Int) : Bool := p.midiInPortMap.contains portId

/-- Method `KonfytProject::midiInPort_removePort`. -/
def midiInPort_removePort (p : KonfytProject) (portId : Int) : KonfytProject :=
  if !p.midiInPort_exists portId then p
  else ({ p with midiInPortMap := p.midiInPortMap.remove portId }).setModified true

/-- Method `KonfytProject::midiInPort_getPort`. -/
def midiInPort_getPort (p : KonfytProject) (portId : Int) : PrjMidiPort :=
  if !p.midiInPort_exists portId then {} else p.midiInPortMap.value portId

/-- Method `KonfytProject::midiInPort_count`. -/
def midiInPort_count (p : KonfytProject) : Int := p.midiInPortMap.count

/-- Method `KonfytProject::midiInPort_getClients`. -/
def midiInPort_getClients (p : KonfytProject) (portId : Int) : List String :=
  if !p.midiInPort_exists portId then [] else (p.midiInPortMap.value portId).clients

/-- Method `KonfytProject::midiInPort_addClient`. -/
def midiInPort_addClient (p : KonfytProject) (portId : Int) (client : String) : KonfytProject :=
  if !p.midiInPort_exists portId then p
  else
    let q := p.midiInPortMap.value portId
    let q := { q with clients := q.clients ++ [client] }
    ({ p with midiInPortMap := p.midiInPortMap.insert portId q }).setModified true

/-- Method `KonfytProject::midiInPort_removeClient`. -/
def midiInPort_removeClient (p : KonfytProject) (portId : Int) (client : String) :
    KonfytProject :=
  if !p.midiInPort_exists portId then p
  else
    let q := p.midiInPortMap.value portId
    let q := { q with clients := removeAll q.clients client }
    ({ p with midiInPortMap := p.midiInPortMap.insert portId q }).setModified true

/-! ### MIDI output ports -/

/-- Method `KonfytProject::midiOutPort_addPort`. -/
def midiOutPort_addPort (p : KonfytProject) (portName : String) : Int × KonfytProject :=
  let port : PrjMidiPort := { portName := portName }
  let portId := p.midiOutPort_getUniqueId
  (portId, ({ p with midiOutPortMap := p.midiOutPortMap.insert portId port }).setModified true)

/-- Method `KonfytProject::midiOutPort_removePort`. -/
def midiOutPort_removePort (p : KonfytProject) (portId : Int) : KonfytProject :=
  if !p.midiOutPortMap.contains portId then p
  else ({ p with midiOutPortMap := p.midiOutPortMap.remove portId }).setModified true

/-- Method `KonfytProject::midiOutPort_count`. -/
def midiOutPort_count (p : KonfytProject) : Int := p.midiOutPortMap.count

/-- Method `KonfytProject::midiOutPort_exists`. -/
def midiOutPort_exists (p : KonfytProject) (portId : Int) : Bool :=
  p.midiOutPortMap.contains portId

/-- Method `KonfytProject::midiOutPort_getPort`. -/
def midiOutPort_getPort (p : KonfytProject) (portId : Int) : PrjMidiPort :=
  p.midiOutPortMap.value portId

/-- Method `KonfytProject::midiOutPort_getClients`. -/
def midiOutPort_getClients (p : KonfytProject) (portId : Int) : List String :=
  (p.midiOutPortMap.value portId).clients

/-- Method `KonfytProject::midiOutPort_addClient`. -/
def midiOutPort_addClient (p : KonfytProject) (portId : Int) (client : String) : KonfytProject :=
  if !p.midiOutPortMap.contains portId then p
  else
    let q := p.midiOutPortMap.value portId
    let q := { q with clients := q.clients ++ [client] }
    ({ p with midiOutPortMap := p.midiOutPortMap.insert portId q }).setModified true

/-- Method `KonfytProject::midiOutPort_removeClient`. -/
def midiOutPort_removeClient (p : KonfytProject) (portId : Int) (client : String) :
    KonfytProject :=
  if !p.midiOutPortMap.contains portId then p
  else
    let q := p.midiOutPortMap.value portId
    let q := { q with clients := removeAll q.clients client }
    ({ p with midiOutPortMap := p.midiOutPortMap.insert portId q }).setModified true

/-- The constructor `KonfytProject::KonfytProject`: one bus "Master Bus" and one MIDI input
port "MIDI In" are added to the default-initialised members. -/
def new : KonfytProject :=
  let p : KonfytProject := {}
  let p := (p.audioBus_add "Master Bus").2
  (p.midiInPort_addPort "MIDI In").2

end KonfytProject

namespace KonfytProject

/-! ### Patches -/

/-- Method `KonfytProject::addPatch`. -/
def addPatch (p : KonfytProject) (newPatch : Option Nat) : KonfytProject :=
  ({ p with patchList := p.patchList ++ [newPatch] }).setModified true

/-- Method `KonfytProject::removePatch`: removes the patch from the project and returns the
pointer; returns the null pointer if the index is out of bounds. -/
def removePatch (p : KonfytProject) (i : Int) : Option Nat × KonfytProject :=
  if i ≥ 0 ∧ i < p.patchList.length then
    let patch := p.patchList.getD i.toNat none
    (patch, ({ p with patchList := p.patchList.eraseIdx i.toNat }).setModified true)
  else
    (none, p)

/-- Method `KonfytProject::getPatch`. -/
def getPatch (p : KonfytProject) (i : Int) : Option Nat :=
  if i ≥ 0 ∧ i < p.patchList.length then p.patchList.getD i.toNat none
  else none

/-- Method `KonfytProject::getPatchIndex`: the index of the patch (`QList::indexOf`), -1 if
the list does not hold it. -/
def getPatchIndex (p : KonfytProject) (patch : Option Nat) : Int :=
  if p.patchList.indexOf patch < p.patchList.length then p.patchList.indexOf patch else -1

/-- Method `KonfytProject::getPatchList`. -/
def getPatchList (p : KonfytProject) : List (Option Nat) := p.patchList

/-- Method `KonfytProject::getNumPatches`. -/
def getNumPatches (p : KonfytProject) : Int := p.patchList.length

/-- Method `KonfytProject::isProgramChangeSwitchPatches`. -/
def isProgramChangeSwitchPatches (p : KonfytProject) : Bool := p.programChangeSwitchPatches

/-! ### First id other than a given one -/

/-- Method `KonfytProject::audioBus_getFirstBusId`: the first bus id that is not `skipId`.
The loop runs over the keys in ascending order and stops at the first one that differs. -/
def audioBus_getFirstBusId (p : KonfytProject) (skipId : Int) : Int :=
  match p.audioBusMap.keys.find? (fun k => k != skipId) with
  | some k => k
  | none => -1

/-- Method `KonfytProject::midiInPort_getFirstPortId`: the first MIDI input port id that is
not `skipId`. -/
def midiInPort_getFirstPortId (p : KonfytProject) (skipId : Int) : Int :=
  if p.midiInPortMap.keys.length = 0 then -1
  else
    match p.midiInPortMap.keys.find? (fun k => k != skipId) with
    | some k => k
    | none => -1

/-- Method `KonfytProject::midiInPort_getPortIdWithJackId`: the first port id, in ascending
order, whose JACK port is the given one; -1 if there is none. -/
def midiInPort_getPortIdWithJackId (p : KonfytProject) (jackPort : Option Nat) : Int :=
  match p.midiInPortMap.keys.find? (fun id => (p.midiInPortMap.value id).jackPort == jackPort) with
  | some id => id
  | none => -1

/-! ### External apps -/

/-- The statement `emit print(msg)`. -/
def print (p : KonfytProject) (msg : String) : KonfytProject :=
  { p with emitted := p.emitted ++ [ProjectSignal.print msg] }

/-- Method `KonfytProject::getUniqueExternalAppId`. -/
def getUniqueExternalAppId (p : KonfytProject) : Int := getUniqueIdHelper p.externalApps.keys

/-- Method `KonfytProject::addExternalApp`. -/
def addExternalApp (p : KonfytProject) (app : ExternalApp) : Int × KonfytProject :=
  let id := p.getUniqueExternalAppId
  let p := ({ p with externalApps := p.externalApps.insert id app }).setModified true
  (id, { p with emitted := p.emitted ++ [ProjectSignal.externalAppAdded id] })

/-- Method `KonfytProject::removeExternalApp`. -/
def removeExternalApp (p : KonfytProject) (id : Int) : KonfytProject :=
  if p.externalApps.contains id then
    let p := ({ p with externalApps := p.externalApps.remove id }).setModified true
    { p with emitted := p.emitted ++ [ProjectSignal.externalAppRemoved id] }
  else
    p.print ("ERROR: removeExternalApp: INVALID ID " ++ toString id)

/-- Method `KonfytProject::clearExternalApps`: removes every id of the key list taken at the
start. -/
def clearExternalApps (p : KonfytProject) : KonfytProject :=
  p.externalApps.keys.foldl (fun q id => q.removeExternalApp id) p

/-- Method `KonfytProject::preExternalAppsRead`. -/
def preExternalAppsRead (p : KonfytProject) : KonfytProject :=
  { p with tempExternalAppList := [] }

/-- Method `KonfytProject::postExternalAppsRead`. -/
def postExternalAppsRead (p : KonfytProject) : KonfytProject :=
  p.tempExternalAppList.foldl (fun q app => (q.addExternalApp app).2) p

/-! ### Loading a project -/

/-- Method `KonfytProject::loadProject`: the returned flag and the project after the call.
`fileOpens` tells whether the file could be opened and `dirPath` is the path of its parent
directory.  `readElements` is what the loop over the XML elements of the file
(`while (r.readNextStartElement())`) does to the members; the loop contains no `return`,
so the statements after it always run. -/
def loadProject (fileOpens : Bool) (dirPath : String)
    (readElements : KonfytProject → KonfytProject) (p : KonfytProject) (filename : String) :
    Bool × KonfytProject :=
  if !fileOpens then
    (false, p.print "loadProject: Could not open file for reading.")
  else
    let p := { p with projectDirname := dirPath }
    let p := p.print ("loadProject: Loading project file " ++ filename)
    let p := p.print ("loadProject: in dir " ++ dirPath)
    let p := { p with patchList := [], midiInPortMap := QMap.empty, midiOutPortMap := QMap.empty }
    let p := p.clearExternalApps
    let p := p.preExternalAppsRead
    let p := { p with audioBusMap := QMap.empty, audioInPortMap := QMap.empty }
    let p := readElements p
    let p := p.postExternalAppsRead
    -- Check if we have at least one audio output bus. If not, create a default one.
    let p := if p.audioBus_count = 0 then (p.audioBus_add "Master Bus").2 else p
    -- Check if we have at least one Midi input port. If not, create a default one.
    let p := if p.midiInPort_count = 0 then (p.midiInPort_addPort "MIDI In").2 else p
    (true, p.setModified false)

end KonfytProject

/-! ## The Fluidsynth engine (konfytFluidsynthEngine.cpp) -/

/-- The struct `konfytSoundfontProgram` (konfytStructs.h). -/
structure konfytSoundfontProgram where
  name : String := ""
  bank : Int := 0
  program : Int := 0
  parent_soundfont : String := ""
  deriving DecidableEq, Repr

/-- The record `konfytFluidSynthData` kept per synth instance, with the members that
konfytFluidsynthEngine.cpp reads and writes. -/
structure konfytFluidSynthData where
  ID : Int := 0
  synth : Option Nat := none
  settings : Option Nat := none
  program : konfytSoundfontProgram := {}
  soundfontIDinSynth : Int := 0
  deriving DecidableEq, Repr

instance : Inhabited konfytFluidSynthData := ⟨{}⟩

/-- Modelled from the spec: `konfytMidiEvent` (konfytMidi.h is not among the sources), with
the fields of the MidiEvent data model that carry numbers. -/
structure konfytMidiEvent where
  type : Int
  channel : Int := 0
  data1 : Int := 0
  data2 : Int := 0
  bankMSB : Int := -1
  bankLSB : Int := -1
  deriving DecidableEq, Repr

/-- Modelled from the spec: event type NoteOn; konfytMidi.h is not among the sources, the
value is the MIDI status byte. -/
def MIDI_EVENT_TYPE_NOTEON : Int := 0x90
/-- Modelled from the spec: event type NoteOff (MIDI status byte). -/
def MIDI_EVENT_TYPE_NOTEOFF : Int := 0x80
/-- Modelled from the spec: event type CC (MIDI status byte). -/
def MIDI_EVENT_TYPE_CC : Int := 0xB0
/-- Modelled from the spec: event type Program (MIDI status byte). -/
def MIDI_EVENT_TYPE_PROGRAM : Int := 0xC0
/-- Modelled from the spec: event type Pitchbend (MIDI status byte). -/
def MIDI_EVENT_TYPE_PITCHBEND : Int := 0xE0
/-- Modelled from the spec: event type System (MIDI status byte). -/
def MIDI_EVENT_TYPE_SYSTEM : Int := 0xF0
/-- Modelled from the spec: CC 123, the all-notes-off controller. -/
def MIDI_CC_ALL_NOTES_OFF : Int := 123

/-- The constant `#define MIDI_CHANNEL_0 0`. -/
def MIDI_CHANNEL_0 : Int := 0

/-- A call into libfluidsynth with its arguments, as the engine issues it. -/
inductive FluidCall where
  | fluid_synth_noteon (synth : Option Nat) (chan key vel : Int)
  | fluid_synth_noteoff (synth : Option Nat) (chan key : Int)
  | fluid_synth_cc (synth : Option Nat) (chan num val : Int)
  | fluid_synth_all_sounds_off (synth : Option Nat) (chan : Int)
  | fluid_synth_pitch_bend (synth : Option Nat) (chan val : Int)
  | fluid_synth_write_float (synth : Option Nat) (len : Int)
  | new_fluid_settings
  | fluid_settings_setnum (settings : Option Nat) (name : String) (val : Rat)
  | new_fluid_synth (settings : Option Nat)
  | fluid_synth_sfload (synth : Option Nat) (filename : String) (reset_presets : Int)
  | fluid_synth_program_select (synth : Option Nat) (chan sfont_id bank_num preset_num : Int)
  | delete_fluid_synth (synth : Option Nat)
  | delete_fluid_settings (settings : Option Nat)
  deriving DecidableEq, Repr

/-- The MIDI channel argument of a backend call, for the calls that take one. -/
def FluidCall.chan? : FluidCall → Option Int
  | fluid_synth_noteon _ chan _ _ => some chan
  | fluid_synth_noteoff _ chan _ => some chan
  | fluid_synth_cc _ chan _ _ => some chan
  | fluid_synth_all_sounds_off _ chan => some chan
  | fluid_synth_pitch_bend _ chan _ => some chan
  | fluid_synth_program_select _ chan _ _ _ => some chan
  | _ => none

/-- What libfluidsynth answers when an instance is created: the new settings object, the
new synth for a settings object, and the soundfont id for a synth and a file name
(null pointers and -1 report failure). -/
structure FluidsynthCreate where
  new_fluid_settings : Option Nat
  new_fluid_synth : Option Nat → Option Nat
  fluid_synth_sfload : Option Nat → String → Int

/-- The members of `konfytFluidsynthEngine`: the registry, the id counter, the sample rate
and the mutex (`mutexLocked` tells whether some thread holds it), with the log of backend
calls issued and of `userMessage` signals emitted. -/
structure konfytFluidsynthEngine where
  synthDataMap : QMap konfytFluidSynthData := QMap.empty
  synthUniqueIDCounter : Int := 0
  samplerate : Rat := 44100
  mutexLocked : Bool := false
  calls : List FluidCall := []
  userMessages : List String := []

namespace konfytFluidsynthEngine

/-- The constructor: counter 0, sample rate 44100. -/
def new : konfytFluidsynthEngine :=
  { synthUniqueIDCounter := 0, samplerate := 44100 }

/-- The statement `emit userMessage(msg)`. -/
def userMessage (e : konfytFluidsynthEngine) (msg : String) : konfytFluidsynthEngine :=
  { e with userMessages := e.userMessages ++ [msg] }

/-- Method `konfytFluidsynthEngine::processJackMidi`.  `pitchbendValue_signed` is the accessor of
`konfytMidiEvent` of that name (konfytMidi.h is not among the sources).  The result is
`none` when `Q_ASSERT` fails. -/
def processJackMidi (pitchbendValue_signed : konfytMidiEvent → Int)
    (e : konfytFluidsynthEngine) (ID : Int) (ev : konfytMidiEvent) :
    Option konfytFluidsynthEngine :=
  -- if ( !mutex.tryLock() ) return;
  if e.mutexLocked then some e
  else
    let e := { e with mutexLocked := true }
    if !e.synthDataMap.contains ID then none
    else
      let synth := (e.synthDataMap.value ID).synth
      let e :=
        if ev.type ≠ MIDI_EVENT_TYPE_PROGRAM ∨ ev.type ≠ MIDI_EVENT_TYPE_SYSTEM then
          if ev.type = MIDI_EVENT_TYPE_NOTEON then
            { e with calls := e.calls ++
                [FluidCall.fluid_synth_noteon synth MIDI_CHANNEL_0 ev.data1 ev.data2] }
          else if ev.type = MIDI_EVENT_TYPE_NOTEOFF then
            { e with calls := e.calls ++
                [FluidCall.fluid_synth_noteoff synth MIDI_CHANNEL_0 ev.data1] }
          else if ev.type = MIDI_EVENT_TYPE_CC then
            let e := { e with calls := e.calls ++
                [FluidCall.fluid_synth_cc synth MIDI_CHANNEL_0 ev.data1 ev.data2] }
            if ev.data1 = MIDI_CC_ALL_NOTES_OFF then
              { e with calls := e.calls ++
                  [FluidCall.fluid_synth_all_sounds_off synth MIDI_CHANNEL_0] }
            else e
          else if ev.type = MIDI_EVENT_TYPE_PITCHBEND then
            { e with calls := e.calls ++
                [FluidCall.fluid_synth_pitch_bend synth MIDI_CHANNEL_0
                  (pitchbendValue_signed ev + 8192)] }
          else e
        else e
      -- mutex.unlock();
      some { e with mutexLocked := false }

/-- Method `konfytFluidsynthEngine::fluidsynthWriteFloat`.  `fluid_synth_write_float` is the
backend render function: for a synth, a length and the two buffers it gives its return
value and the buffers as it leaves them.  The result is the returned value, the left and
the right buffer and the engine after the call; `none` when `Q_ASSERT` fails. -/
def fluidsynthWriteFloat {Sample : Type}
    (fluid_synth_write_float :
      Option Nat → Int → List Sample → List Sample → Int × List Sample × List Sample)
    (e : konfytFluidsynthEngine) (ID : Int) (leftBuffer rightBuffer : List Sample) (len : Int) :
    Option (Int × List Sample × List Sample × konfytFluidsynthEngine) :=
  -- if ( !mutex.tryLock() ) return 0;
  if e.mutexLocked then some (0, leftBuffer, rightBuffer, e)
  else
    let e := { e with mutexLocked := true }
    if !e.synthDataMap.contains ID then none
    else
      let synth := (e.synthDataMap.value ID).synth
      let r := fluid_synth_write_float synth len leftBuffer rightBuffer
      let e := { e with calls := e.calls ++ [FluidCall.fluid_synth_write_float synth len] }
      -- mutex.unlock(); return ret;
      some (r.1, r.2.1, r.2.2, { e with mutexLocked := false })

/-- Method `konfytFluidsynthEngine::addSoundfontProgram`: the returned id (-1 on error) and the
engine after the call. -/
def addSoundfontProgram (lib : FluidsynthCreate) (e : konfytFluidsynthEngine)
    (p : konfytSoundfontProgram) : Int × konfytFluidsynthEngine :=
  let settings := lib.new_fluid_settings
  let e := { e with calls := e.calls ++ [FluidCall.new_fluid_settings] }
  if settings = none then
    (-1, e.userMessage "Failed to create fluidsynth settings.")
  else
    let e := { e with calls := e.calls ++
      [FluidCall.fluid_settings_setnum settings "synth.sample-rate" e.samplerate] }
    let synth := lib.new_fluid_synth settings
    let e := { e with calls := e.calls ++ [FluidCall.new_fluid_synth settings] }
    if synth = none then
      (-1, e.userMessage "Failed to create fluidsynth synthesizer.")
    else
      let sfID := lib.fluid_synth_sfload synth p.parent_soundfont
      let e := { e with calls := e.calls ++
        [FluidCall.fluid_synth_sfload synth p.parent_soundfont 0] }
      if sfID = -1 then
        (-1, e.userMessage ("Failed to load soundfont " ++ p.parent_soundfont))
      else
        let e := { e with calls := e.calls ++
          [FluidCall.fluid_synth_program_select synth 0 sfID p.bank p.program] }
        -- s.ID = synthUniqueIDCounter++;
        let s : konfytFluidSynthData :=
          { ID := e.synthUniqueIDCounter, synth := synth, settings := settings, program := p,
            soundfontIDinSynth := sfID }
        let e := { e with synthUniqueIDCounter := e.synthUniqueIDCounter + 1 }
        (s.ID, { e with synthDataMap := e.synthDataMap.insert s.ID s })

/-- Method `konfytFluidsynthEngine::removeSoundfontProgram`; `none` when `Q_ASSERT` fails.
`mutex.lock()` waits until the mutex is free, so the mutex is free after `mutex.unlock()`. -/
def removeSoundfontProgram (e : konfytFluidsynthEngine) (ID : Int) :
    Option konfytFluidsynthEngine :=
  if !e.synthDataMap.contains ID then none
  else
    let s := e.synthDataMap.value ID
    let e := { e with mutexLocked := true }
    let e := { e with synthDataMap := e.synthDataMap.remove ID }
    let e := { e with mutexLocked := false }
    some { e with calls := e.calls ++
      [FluidCall.delete_fluid_synth s.synth, FluidCall.delete_fluid_settings s.settings] }

/-- The registry invariant the constructor establishes and every operation keeps: the
counter is not negative and every registered id is below it. -/
def registryInvariant (e : konfytFluidsynthEngine) : Prop :=
  0 ≤ e.synthUniqueIDCounter ∧ ∀ k ∈ e.synthDataMap.keys, k < e.synthUniqueIDCounter

instance (e : konfytFluidsynthEngine) : Decidable e.registryInvariant := by
  unfold registryInvariant
  exact inferInstance

end konfytFluidsynthEngine

/-- One control-thread call on the registry: `addSoundfontProgram` with the answers of the
backend, or `removeSoundfontProgram`. -/
inductive RegistryCall where
  | add (lib : FluidsynthCreate) (p : konfytSoundfontProgram)
  | remove (ID : Int)

/-- Runs a sequence of registry calls and collects, in order, the ids returned by the calls
of `addSoundfontProgram` that did not return -1.  A failed `Q_ASSERT` ends the run. -/
def runRegistryCalls : List RegistryCall → konfytFluidsynthEngine →
    List Int × konfytFluidsynthEngine
  | [], e => ([], e)
  | RegistryCall.add lib p :: rest, e =>
    let r := e.addSoundfontProgram lib p
    let t := runRegistryCalls rest r.2
    (if r.1 = -1 then t.1 else r.1 :: t.1, t.2)
  | RegistryCall.remove ID :: rest, e =>
    match e.removeSoundfontProgram ID with
    | none => ([], e)
    | some e' => runRegistryCalls rest e'

/-! ## Port creation in the main window (mainwindow.cpp) -/

namespace KonfytProject

/-- Modelled from the spec: `KonfytProject::audioInPort_replace`, which
`MainWindow::addAudioInPort` calls and konfytProject.cpp does not define; it stores the
given port under an existing id and marks the project modified, as `audioBus_replace` does
for a bus. -/
def audioInPort_replace (p : KonfytProject) (portId : Int) (newPort : PrjAudioInPort) :
    KonfytProject :=
  if !p.audioInPortMap.contains portId then p
  else ({ p with audioInPortMap := p.audioInPortMap.insert portId newPort }).setModified true

/-- Modelled from the spec: `KonfytProject::midiInPort_replace`, which
`MainWindow::addMidiInPort` calls and konfytProject.cpp does not define; it stores the given
port under an existing id and marks the project modified, as `audioBus_replace` does for a
bus. -/
def midiInPort_replace (p : KonfytProject) (portId : Int) (newPort : PrjMidiPort) :
    KonfytProject :=
  if !p.midiInPortMap.contains portId then p
  else ({ p with midiInPortMap := p.midiInPortMap.insert portId newPort }).setModified true

/-- Modelled from the spec: `KonfytProject::midiOutPort_replace`, which
`MainWindow::addMidiOutPort` calls and konfytProject.cpp does not define; it stores the given
port under an existing id and marks the project modified, as `audioBus_replace` does for a
bus. -/
def midiOutPort_replace (p : KonfytProject) (portId : Int) (newPort : PrjMidiPort) :
    KonfytProject :=
  if !p.midiOutPortMap.contains portId then p
  else ({ p with midiOutPortMap := p.midiOutPortMap.insert portId newPort }).setModified true

end KonfytProject

/-- A port registered with the transport: its handle, name and direction. -/
structure KfJackPort where
  handle : Nat
  name : String
  isInput : Bool
  deriving DecidableEq, Repr

/-- The struct `KfJackMidiRoute` (konfytJackStructs.h) without its transmit ring buffer; a
port is referred to by its handle. -/
structure KfJackMidiRoute where
  active : Bool := false
  prevActive : Bool := false
  filter : KonfytMidiFilter := {}
  source : Option Nat := none
  destPort : Option Nat := none
  destFluidsynthID : Option Nat := none
  destIsJackPort : Bool := true
  deriving DecidableEq, Repr

/-- The struct `KonfytJackNoteOnRecord` (konfytJackStructs.h). -/
structure KonfytJackNoteOnRecord where
  note : Int
  jackPortNotFluidsynth : Bool
  fluidSynth : Option Nat
  port : Option Nat
  sourcePort : Option Nat
  filter : KonfytMidiFilter
  globalTranspose : Int
  deriving DecidableEq, Repr

/-- A MIDI event handed to a destination: an external port (`toJackPort`) or a synth
instance. -/
structure MidiDelivery where
  toJackPort : Bool
  port : Option Nat
  fluidSynth : Option Nat
  event : konfytMidiEvent
  deriving DecidableEq, Repr

/-- Modelled from the spec: the state of `KonfytJackEngine` (the class is not among the
sources): the registered audio and MIDI ports, the filters set on MIDI ports, the next free
handle and the log of registration requests made to the transport; the MIDI routes, the
active list of note-on records, the global transpose and the panic flag, and the log of
MIDI events delivered to destinations. -/
structure KonfytJackEngine where
  audioPorts : List KfJackPort := []
  midiPorts : List KfJackPort := []
  portFilters : List (Nat × KonfytMidiFilter) := []
  nextHandle : Nat := 1
  requests : List (String × Bool) := []
  midiRoutes : List KfJackMidiRoute := []
  noteOnList : List KonfytJackNoteOnRecord := []
  globalTranspose : Int := 0
  panicFlag : Bool := false
  delivered : List MidiDelivery := []
  deriving DecidableEq, Repr

/-- Modelled from the spec: MidiFilter evaluation `apply(filter, event)` of section 4.1
(konfytMidiFilter.h is not among the sources).  The event is rejected if its channel does
not match `inputChannel` (unless that is -1).  A NoteOn or NoteOff is rejected if the note
is outside the zone, a NoteOn also if its velocity is outside [lowVel, highVel]; the velocity
is clamped into [velLimitMin, velLimitMax], `transposeAdd` is added to the note and the
event is rejected if the result leaves [0, 127].  A CC passes if `passAllCC`, if its number
is in the allow-list, or if it is CC 123; a Program passes iff `passProgram`, a Pitchbend
iff `passPitchbend`.  `outputChannel`, if not -1, replaces the channel of every event but a
System event. -/
def KonfytMidiFilter.apply (f : KonfytMidiFilter) (ev : konfytMidiEvent) :
    Option konfytMidiEvent :=
  if f.inputChannel ≠ -1 ∧ ev.channel ≠ f.inputChannel then none
  else
    let r : Option konfytMidiEvent :=
      if ev.type = MIDI_EVENT_TYPE_NOTEON ∨ ev.type = MIDI_EVENT_TYPE_NOTEOFF then
        if ev.data1 < f.zone.lowNote ∨ ev.data1 > f.zone.highNote then none
        else if ev.type = MIDI_EVENT_TYPE_NOTEON ∧
            (ev.data2 < f.zone.lowVel ∨ ev.data2 > f.zone.highVel) then none
        else if ev.data1 + f.zone.transposeAdd < 0 ∨ ev.data1 + f.zone.transposeAdd > 127 then
          none
        else
          some { ev with
            data1 := ev.data1 + f.zone.transposeAdd,
            data2 := max f.zone.velLimitMin (min f.zone.velLimitMax ev.data2) }
      else if ev.type = MIDI_EVENT_TYPE_CC then
        if f.passAllCC ∨ ev.data1 ∈ f.passCC ∨ ev.data1 = MIDI_CC_ALL_NOTES_OFF then some ev
        else none
      else if ev.type = MIDI_EVENT_TYPE_PROGRAM then
        if f.passProgram then some ev else none
      else if ev.type = MIDI_EVENT_TYPE_PITCHBEND then
        if f.passPitchbend then some ev else none
      else some ev
    r.map (fun e =>
      if f.outputChannel ≠ -1 ∧ e.type ≠ MIDI_EVENT_TYPE_SYSTEM then
        { e with channel := f.outputChannel }
      else e)

namespace KonfytJackEngine

/-- Modelled from the spec: `KonfytJackEngine::addAudioPort(name, isInput)` registers a new
transport endpoint and returns its handle; it returns null, registering nothing, when the
transport rejects the name or the registration errors.  `transportAccepts` is the answer of
the transport for a port name. -/
def addAudioPort (transportAccepts : String → Bool) (jack : KonfytJackEngine) (name : String)
    (isInput : Bool) : Option Nat × KonfytJackEngine :=
  let jack := { jack with requests := jack.requests ++ [(name, isInput)] }
  if transportAccepts name then
    (some jack.nextHandle,
      { jack with
        audioPorts := jack.audioPorts ++ [{ handle := jack.nextHandle, name := name,
                                            isInput := isInput }],
        nextHandle := jack.nextHandle + 1 })
  else (none, jack)

/-- Modelled from the spec: `KonfytJackEngine::addMidiPort(name, isInput)`, as
`addAudioPort` for a MIDI port. -/
def addMidiPort (transportAccepts : String → Bool) (jack : KonfytJackEngine) (name : String)
    (isInput : Bool) : Option Nat × KonfytJackEngine :=
  let jack := { jack with requests := jack.requests ++ [(name, isInput)] }
  if transportAccepts name then
    (some jack.nextHandle,
      { jack with
        midiPorts := jack.midiPorts ++ [{ handle := jack.nextHandle, name := name,
                                          isInput := isInput }],
        nextHandle := jack.nextHandle + 1 })
  else (none, jack)

/-- Modelled from the spec: `KonfytJackEngine::setPortFilter(port, filter)` of the mutation
API: the filter of the MIDI port becomes the given one. -/
def setPortFilter (jack : KonfytJackEngine) (port : Option Nat) (filter : KonfytMidiFilter) :
    KonfytJackEngine :=
  match port with
  | none => jack
  | some h => { jack with portFilters := (h, filter) :: jack.portFilters.filter (fun e => e.1 != h) }

/-- Modelled from the spec: `removePort(handle)` for an audio port (called as
`KonfytJackEngine::removeAudioPort`): the port is unregistered and its handle freed. -/
def removeAudioPort (jack : KonfytJackEngine) (port : Option Nat) : KonfytJackEngine :=
  match port with
  | none => jack
  | some h => { jack with audioPorts := jack.audioPorts.filter (fun q => q.handle != h) }

/-- Hands an event to the destination of a route. -/
def deliverToRoute (jack : KonfytJackEngine) (r : KfJackMidiRoute) (ev : konfytMidiEvent) :
    KonfytJackEngine :=
  { jack with delivered := jack.delivered ++
      [{ toJackPort := r.destIsJackPort, port := r.destPort, fluidSynth := r.destFluidsynthID,
         event := ev }] }

/-- Modelled from the spec: dispatch of one event, other than a NoteOff, from a source port
through one route (section 4.5, steps 2 to 4): an active route of that source applies its
own filter and hands the result to its destination; a NoteOn gets the global transpose
added and pushes a NoteOnRecord holding the transformed note, the destination, the source,
the filter and the global transpose of that moment; while the panic flag is set no NoteOn is
dispatched. -/
def dispatchToRoute (jack : KonfytJackEngine) (sourcePort : Option Nat) (ev : konfytMidiEvent)
    (r : KfJackMidiRoute) : KonfytJackEngine :=
  if !r.active || r.source != sourcePort then jack
  else
    match r.filter.apply ev with
    | none => jack
    | some ev' =>
      if ev'.type = MIDI_EVENT_TYPE_NOTEON then
        if jack.panicFlag then jack
        else if ev'.data1 + jack.globalTranspose < 0 ∨ ev'.data1 + jack.globalTranspose > 127 then
          jack
        else
          let record : KonfytJackNoteOnRecord :=
            { note := ev'.data1 + jack.globalTranspose,
              jackPortNotFluidsynth := r.destIsJackPort,
              fluidSynth := r.destFluidsynthID, port := r.destPort, sourcePort := sourcePort,
              filter := r.filter, globalTranspose := jack.globalTranspose }
          deliverToRoute { jack with noteOnList := jack.noteOnList ++ [record] } r
            { ev' with data1 := ev'.data1 + jack.globalTranspose }
      else deliverToRoute jack r ev'

/-- The NoteOff that releases a record: the event transformed with the filter and the
global transpose stored in the record, if that gives the note of the record. -/
def releaseOf (record : KonfytJackNoteOnRecord) (sourcePort : Option Nat) (ev : konfytMidiEvent) :
    Option MidiDelivery :=
  if record.sourcePort != sourcePort then none
  else
    match record.filter.apply ev with
    | none => none
    | some ev' =>
      if ev'.data1 + record.globalTranspose = record.note then
        some { toJackPort := record.jackPortNotFluidsynth, port := record.port,
               fluidSynth := record.fluidSynth, event := { ev' with data1 := record.note } }
      else none

/-- Modelled from the spec: NoteOff dispatch (section 4.5, step 3): the matching records are
located by note, destination and source; for each the NoteOff is forwarded to the
destination of the record, transformed as the record says, and the record is removed. -/
def handleNoteoff (jack : KonfytJackEngine) (sourcePort : Option Nat) (ev : konfytMidiEvent) :
    KonfytJackEngine :=
  { jack with
    delivered := jack.delivered ++ jack.noteOnList.filterMap (fun record => releaseOf record sourcePort ev),
    noteOnList := jack.noteOnList.filter (fun record => (releaseOf record sourcePort ev).isNone) }

/-- Modelled from the spec: one event drained from a MIDI input port, after the top-level
filter of the port, is dispatched (section 4.5, steps 2 and 3): a NoteOff through the
note-on records, any other event through every route. -/
def processMidiEvent (jack : KonfytJackEngine) (sourcePort : Option Nat) (ev : konfytMidiEvent) :
    KonfytJackEngine :=
  if ev.type = MIDI_EVENT_TYPE_NOTEOFF then jack.handleNoteoff sourcePort ev
  else jack.midiRoutes.foldl (fun j r => j.dispatchToRoute sourcePort ev r) jack

/-- Modelled from the spec: `setGlobalTranspose` of the mutation API. -/
def setGlobalTranspose (jack : KonfytJackEngine) (transpose : Int) : KonfytJackEngine :=
  { jack with globalTranspose := transpose }

/-- Modelled from the spec: the filter of the route at a position of the route table is
replaced (mutation API, set filters). -/
def setRouteFilter (jack : KonfytJackEngine) (route : Nat) (filter : KonfytMidiFilter) :
    KonfytJackEngine :=
  { jack with midiRoutes := jack.midiRoutes.modify (fun r => { r with filter := filter }) route }

/-- Modelled from the spec: `panic(bool)` (section 4.5, step 4): panic mode iterates all
outstanding NoteOnRecords and active routes, synthesizing a note-off for every record and an
all-notes-off controller for every active route, then marks the panic flag, which
suppresses new NoteOn dispatch until `panic(false)` clears it. -/
def panic (jack : KonfytJackEngine) (p : Bool) : KonfytJackEngine :=
  if p then
    { jack with
      delivered := jack.delivered ++
        jack.noteOnList.map (fun record =>
          { toJackPort := record.jackPortNotFluidsynth, port := record.port,
            fluidSynth := record.fluidSynth,
            event := { type := MIDI_EVENT_TYPE_NOTEOFF, data1 := record.note } }) ++
        (jack.midiRoutes.filter (fun r => r.active)).map (fun r =>
          { toJackPort := r.destIsJackPort, port := r.destPort,
            fluidSynth := r.destFluidsynthID,
            event := { type := MIDI_EVENT_TYPE_CC, data1 := MIDI_CC_ALL_NOTES_OFF } }),
      noteOnList := [],
      panicFlag := true }
  else { jack with panicFlag := false }

/-- Modelled from the spec: `removePort(handle)` for a MIDI port (called as
`KonfytJackEngine::removeMidiPort`): the routes of the port are driven to the deactivated
state, the outstanding NoteOnRecords that reference it are flushed with a note-off to their
destination, then the port is unregistered and its handle freed. -/
def removeMidiPort (jack : KonfytJackEngine) (port : Option Nat) : KonfytJackEngine :=
  match port with
  | none => jack
  | some h =>
    { jack with
      midiRoutes := jack.midiRoutes.map (fun r =>
        if r.source == some h || r.destPort == some h then { r with active := false } else r),
      delivered := jack.delivered ++
        (jack.noteOnList.filter (fun record =>
            record.port == some h || record.sourcePort == some h)).map (fun record =>
          { toJackPort := record.jackPortNotFluidsynth, port := record.port,
            fluidSynth := record.fluidSynth,
            event := { type := MIDI_EVENT_TYPE_NOTEOFF, data1 := record.note } }),
      noteOnList := jack.noteOnList.filter (fun record =>
        !(record.port == some h || record.sourcePort == some h)),
      midiPorts := jack.midiPorts.filter (fun q => q.handle != h) }

end KonfytJackEngine

/-- The helper `n2s`: the decimal text of an integer. -/
def n2s (n : Int) : String := toString n

/-- Modelled from the spec: the type of a patch layer (soundfont program, sampler
instrument, MIDI-out passthrough, audio-in passthrough); konfytPatchLayer.h is not among the
sources. -/
inductive LayerType where
  | TypeUninitialized
  | TypeSoundfontProgram
  | TypeSfz
  | TypeMidiOut
  | TypeAudioIn
  deriving DecidableEq, Repr

/-- Modelled from the spec: a patch layer as far as the main window reads it
(konfytPatchLayer.h is not among the sources): its type and the project ids of its bus, its
MIDI input port, its audio input port and its MIDI output port. -/
structure KonfytPatchLayer where
  layerType : LayerType := LayerType.TypeUninitialized
  busIdInProject : Int := 0
  midiInPortIdInProject : Int := 0
  audioInPortIdInProject : Int := 0
  midiOutPortIdInProject : Int := 0
  deriving DecidableEq, Repr

/-- The struct `KfJackMidiRxEvent` as mainwindow.cpp uses it: the source port, the MIDI route
and the event. -/
structure KfJackMidiRxEvent where
  sourcePort : Option Nat := none
  midiRoute : Option Nat := none
  midiEvent : konfytMidiEvent
  deriving DecidableEq, Repr

/-- The declarations of konfytMidi.h that `MainWindow::handleMidiEvent` uses and that are not
among the sources: the hash of (type, channel, data1, bankMSB, bankLSB), the accessor
`program()` and the text of an event. -/
structure KonfytMidiH where
  hashMidiEventToInt : Int → Int → Int → Int → Int → Int
  program : konfytMidiEvent → Int
  toString : konfytMidiEvent → String

/-- The actions (`QAction*`) that `triggersMidiActionHash` can hold: the null pointer, the
actions of the ui that `handleMidiEvent` names, and the actions created at run time (layer
gain, solo and mute actions, patch actions). -/
inductive Action where
  | null
  | actionPanic
  | actionPanicToggle
  | actionNext_Patch
  | actionPrevious_Patch
  | actionMaster_Volume_Slider
  | actionMaster_Volume_Up
  | actionMaster_Volume_Down
  | actionProject_save
  | actionGlobal_Transpose_12_Down
  | actionGlobal_Transpose_12_Up
  | actionGlobal_Transpose_1_Down
  | actionGlobal_Transpose_1_Up
  | actionGlobal_Transpose_Zero
  | created (n : Nat)
  deriving DecidableEq, Repr

/-- The page that `ui->stackedWidget->currentWidget()` shows. -/
inductive Page where
  | PatchPage
  | connectionsPage
  | midiSendListPage
  | triggersPage
  | otherPage
  deriving DecidableEq, Repr

/-- The parent of an item of the ports/buses tree. -/
inductive TreeParent where
  | busParent
  | audioInParent
  | midiOutParent
  | midiInParent
  | otherParent
  deriving DecidableEq, Repr

/-- An item of the ports/buses tree: its parent and the id that the tree map of that parent
(`tree_busMap`, `tree_audioInMap`, `tree_midiOutMap`, `tree_midiInMap`) holds for it. -/
structure TreeItem where
  parent : TreeParent
  id : Int
  deriving DecidableEq, Repr

/-- A call from the main window to the patch engine, to a timer or to a widget; the callee
is not among the sources or only updates the GUI, so the call is recorded. -/
inductive WindowCall where
  | pengine_panic (panic : Bool)
  | pengine_sendCurrentPatchMidi
  | pengine_setLayerBus (patch : Option Nat) (layer : Nat) (bus : Int)
  | pengine_setLayerMidiInPort (patch : Option Nat) (layer : Nat) (port : Int)
  | pengine_removeLayer (patch : Option Nat) (layer : Nat)
  | loadPatchForModeAndUpdateGUI
  | trigger (action : Action)
  | startTimer (msec : Int)
  | midi_setLayerGain (layer : Int) (midiValue : Int)
  | midi_setLayerSolo (layer : Int) (midiValue : Int)
  | midi_setLayerMute (layer : Int) (midiValue : Int)
  | setMasterInTranspose (transpose : Int) (relative : Bool)
  | msgbox (text : String)
  | ui (what : String)
  deriving DecidableEq, Repr

/-- The members of `MainWindow` that the modelled functions use: the open projects and the
index of the current one, the JACK engine, the console to which `userMessage` appends, the
current patch and its index, the panic state, the last bank select, the last received
events, the page shown, the trigger table and the action lists, and the record of calls to
the patch engine and the GUI. -/
structure MainWindow where
  projectList : List KonfytProject := []
  currentProject : Int := -1
  jack : KonfytJackEngine := {}
  textBrowser : List String := []
  masterPatch : Option Nat := none
  mCurrentPatchIndex : Int := -1
  panicState : Bool := false
  lastBankSelectMSB : Int := -1
  lastBankSelectLSB : Int := -1
  midiFilter_lastChan : Int := 0
  midiFilter_lastData1 : Int := 0
  midiFilter_lastData2 : Int := 0
  console_showMidiMessages : Bool := false
  currentWidget : Page := Page.PatchPage
  midiSendEditorLastEvents : List konfytMidiEvent := []
  triggersLastEvents : List konfytMidiEvent := []
  triggersMidiActionHash : List (Int × Action) := []
  channelGainActions : List Action := []
  channelSoloActions : List Action := []
  channelMuteActions : List Action := []
  patchActions : List Action := []
  calls : List WindowCall := []

namespace MainWindow

/-- Method `MainWindow::getCurrentProject`; `none` is the null pointer. -/
def getCurrentProject (w : MainWindow) : Option KonfytProject :=
  if w.projectList.length ≠ 0 then
    if w.currentProject < 0 ∨ w.currentProject ≥ w.projectList.length then none
    else w.projectList.get? w.currentProject.toNat
  else none

/-- Writes through the pointer that `getCurrentProject` returned: the current project
becomes `prj`. -/
def storeCurrentProject (w : MainWindow) (prj : KonfytProject) : MainWindow :=
  { w with projectList := w.projectList.set w.currentProject.toNat prj }

/-- Method `MainWindow::userMessage`: appends the message to the console. -/
def userMessage (w : MainWindow) (message : String) : MainWindow :=
  { w with textBrowser := w.textBrowser ++ [message] }

/-- Method `MainWindow::addAudioBusToJack`: the left and the right port and the engine after the
two registrations. -/
def addAudioBusToJack (transportAccepts : String → Bool) (jack : KonfytJackEngine)
    (busNo : Int) : Option Nat × Option Nat × KonfytJackEngine :=
  let l := jack.addAudioPort transportAccepts ("bus_" ++ n2s busNo ++ "_L") false
  let r := l.2.addAudioPort transportAccepts ("bus_" ++ n2s busNo ++ "_R") false
  (l.1, r.1, r.2)

/-- Method `MainWindow::addAudioInPortsToJack`. -/
def addAudioInPortsToJack (transportAccepts : String → Bool) (jack : KonfytJackEngine)
    (portNo : Int) : Option Nat × Option Nat × KonfytJackEngine :=
  let l := jack.addAudioPort transportAccepts ("audio_in_" ++ n2s portNo ++ "_L") true
  let r := l.2.addAudioPort transportAccepts ("audio_in_" ++ n2s portNo ++ "_R") true
  (l.1, r.1, r.2)

/-- Method `MainWindow::addMidiOutPortToJack`. -/
def addMidiOutPortToJack (transportAccepts : String → Bool) (jack : KonfytJackEngine)
    (numberLabel : Int) : Option Nat × KonfytJackEngine :=
  jack.addMidiPort transportAccepts ("midi_out_" ++ n2s numberLabel) false

/-- Method `MainWindow::addMidiInPortToJack`. -/
def addMidiInPortToJack (transportAccepts : String → Bool) (jack : KonfytJackEngine)
    (numberLabel : Int) : Option Nat × KonfytJackEngine :=
  jack.addMidiPort transportAccepts ("midi_in_" ++ n2s numberLabel) true

/-- Method `MainWindow::addBus`: the returned bus id (-1 on error) and the window after the call. -/
def addBus (transportAccepts : String → Bool) (w : MainWindow) : Int × MainWindow :=
  match w.getCurrentProject with
  | none => (-1, w.userMessage "Select a project.")
  | some prj =>
    -- Add to project
    let busName := "AudioBus_" ++ n2s prj.audioBus_count
    let a := prj.audioBus_add busName
    let busId := a.1
    let prj := a.2
    let j := addAudioBusToJack transportAccepts w.jack busId
    let left := j.1
    let right := j.2.1
    let w := { w with jack := j.2.2 }
    if left ≠ none ∧ right ≠ none then
      let bus := prj.audioBus_getBus busId
      let bus := { bus with leftJackPort := left, rightJackPort := right }
      let prj := prj.audioBus_replace busId bus
      (busId, w.storeCurrentProject prj)
    else
      let prj := prj.audioBus_remove busId
      (-1, (w.storeCurrentProject prj).userMessage
        "ERROR: Failed to create audio bus. Failed to add Jack port(s).")

/-- Method `MainWindow::addAudioInPort`. -/
def addAudioInPort (transportAccepts : String → Bool) (w : MainWindow) : Int × MainWindow :=
  match w.getCurrentProject with
  | none => (-1, w.userMessage "Select a project.")
  | some prj =>
    let a := prj.audioInPort_add "New Audio In Port"
    let portId := a.1
    let prj := a.2
    let j := addAudioInPortsToJack transportAccepts w.jack portId
    let left := j.1
    let right := j.2.1
    let w := { w with jack := j.2.2 }
    if left ≠ none ∧ right ≠ none then
      -- Update in project
      let q := prj.audioInPort_getPort portId
      let q := { q with leftJackPort := left, rightJackPort := right }
      let prj := prj.audioInPort_replace portId q
      (portId, w.storeCurrentProject prj)
    else
      let w := w.userMessage
        "ERROR: Failed to create audio input port. Failed to add Jack port."
      let prj := prj.audioInPort_remove portId
      (-1, w.storeCurrentProject prj)

/-- Method `MainWindow::addMidiInPort`. -/
def addMidiInPort (transportAccepts : String → Bool) (w : MainWindow) : Int × MainWindow :=
  match w.getCurrentProject with
  | none => (-1, w.userMessage "Select a project.")
  | some prj =>
    let a := prj.midiInPort_addPort "New MIDI In Port"
    let prjPortId := a.1
    let prj := a.2
    let j := addMidiInPortToJack transportAccepts w.jack prjPortId
    let port := j.1
    let w := { w with jack := j.2 }
    if port ≠ none then
      let q := prj.midiInPort_getPort prjPortId
      let q := { q with jackPort := port }
      let prj := prj.midiInPort_replace prjPortId q
      -- Update filter in Jack
      let w := { w with jack := w.jack.setPortFilter port q.filter }
      (prjPortId, w.storeCurrentProject prj)
    else
      -- Could not create Jack port. Remove port from project again.
      let w := w.userMessage
        "ERROR: Could not add MIDI input port. Failed to create JACK port."
      let prj := prj.midiInPort_removePort prjPortId
      (-1, w.storeCurrentProject prj)

/-- Method `MainWindow::addMidiOutPort`. -/
def addMidiOutPort (transportAccepts : String → Bool) (w : MainWindow) : Int × MainWindow :=
  match w.getCurrentProject with
  | none => (-1, w.userMessage "Select a project.")
  | some prj =>
    let a := prj.midiOutPort_addPort "New MIDI Out Port"
    let prjPortId := a.1
    let prj := a.2
    let j := addMidiOutPortToJack transportAccepts w.jack prjPortId
    let port := j.1
    let w := { w with jack := j.2 }
    if port ≠ none then
      let q := prj.midiOutPort_getPort prjPortId
      let q := { q with jackPort := port }
      let prj := prj.midiOutPort_replace prjPortId q
      (prjPortId, w.storeCurrentProject prj)
    else
      -- Could not create Jack port. Remove port from project again.
      let w := w.userMessage
        "ERROR: Could not add MIDI output port. Failed to create JACK port."
      let prj := prj.midiOutPort_removePort prjPortId
      (-1, w.storeCurrentProject prj)

/-- Records a call to the patch engine, a timer or a widget. -/
def call (w : MainWindow) (c : WindowCall) : MainWindow :=
  { w with calls := w.calls ++ [c] }

/-- Records an update of the GUI. -/
def ui (w : MainWindow) (what : String) : MainWindow :=
  w.call (WindowCall.ui what)

/-- Modelled from the spec: `pengine->panic(p)`; the patch engine is not among the sources,
it passes the panic state on to `panic(bool)` of the engine. -/
def pengine_panic (w : MainWindow) (p : Bool) : MainWindow :=
  ({ w with jack := w.jack.panic p }).call (WindowCall.pengine_panic p)

/-- Method `MainWindow::triggerPanic`. -/
def triggerPanic (w : MainWindow) (panic : Bool) : MainWindow :=
  let w := { w with panicState := panic }
  let w := w.pengine_panic w.panicState
  -- Indicate panic state in GUI
  let w := w.ui "pushButton_Panic.setChecked(panicState)"
  -- Clear sustain and pitchbend indicators for all layers
  let w := w.ui "layer widgets: indicateSustain(false), indicatePitchbend(false)"
  -- Global sustain indicator
  let w := w.ui "portIndicatorHandler.clearSustain, updateGlobalSustainIndicator"
  -- Global pitchbend indicator
  w.ui "portIndicatorHandler.clearPitchbend, updateGlobalPitchbendIndicator"

/-- Method `MainWindow::on_actionPanic_triggered`: momentary panic; the timer calls
`triggerPanic(false)` when it fires. -/
def on_actionPanic_triggered (w : MainWindow) : MainWindow :=
  (w.triggerPanic true).call (WindowCall.startTimer 100)

/-- Method `MainWindow::on_actionPanicToggle_triggered`. -/
def on_actionPanicToggle_triggered (w : MainWindow) : MainWindow :=
  w.triggerPanic (!w.panicState)

/-- Method `MainWindow::setCurrentPatch`. -/
def setCurrentPatch (w : MainWindow) (patch : Option Nat) : MainWindow :=
  match w.getCurrentProject with
  | none => w
  | some prj =>
    let w := { w with masterPatch := patch }
    let w := { w with mCurrentPatchIndex := prj.getPatchIndex patch }
    let w := w.call WindowCall.loadPatchForModeAndUpdateGUI
    if patch ≠ none then
      -- Send MIDI events associated with patch layers
      w.call WindowCall.pengine_sendCurrentPatchMidi
    else w

/-- Method `MainWindow::setCurrentPatchByIndex`: set the current patch corresponding to the
specified index; if the index is -1 the last patch is selected, if it is out of bounds the
first patch. -/
def setCurrentPatchByIndex (w : MainWindow) (index : Int) : MainWindow :=
  match w.getCurrentProject with
  | none => w
  | some prj =>
    -- If index is -1, select the last patch
    let index := if index = -1 then prj.getNumPatches - 1 else index
    -- Make index zero if out of bounds
    let index := if index < 0 ∨ index ≥ prj.getNumPatches then 0 else index
    w.setCurrentPatch (prj.getPatch index)

/-- The expression `triggersMidiActionHash[key]`, Qt `QHash::operator[]` on a hash that is
not const: the action stored under the key; if the hash has no item with the key, a null
pointer is inserted under it and returned.  The result is the action and the window with
the hash as the expression leaves it. -/
def triggersMidiActionHash_index (w : MainWindow) (key : Int) : Action × MainWindow :=
  match w.triggersMidiActionHash.find? (fun e => e.1 == key) with
  | some e => (e.2, w)
  | none =>
    (Action.null,
      { w with triggersMidiActionHash := w.triggersMidiActionHash ++ [(key, Action.null)] })

/-- The part of `handleMidiEvent` that indicates the event: the global sustain and pitchbend
indicators and the console message for an event of a MIDI input port, the indicators of the
layers for an event of a route, and the global MIDI indicator with its timer. -/
def indicateMidiEvent (lib : KonfytMidiH) (w : MainWindow) (prj : KonfytProject)
    (rxEvent : KfJackMidiRxEvent) (evInclBank : konfytMidiEvent) : MainWindow :=
  -- Indicate global sustain/pitchbend based on MIDI port input
  let w :=
    if rxEvent.sourcePort ≠ none then
      let portIdInPrj := prj.midiInPort_getPortIdWithJackId rxEvent.sourcePort
      let w :=
        if portIdInPrj < 0 then w.userMessage "ERROR: NO PORT IN PROJECT MATCHING JACK PORT."
        else w
      let w := w.ui "portIndicatorHandler.jackEventReceived"
      let w := w.ui "updateGlobalSustainIndicator"
      let w := w.ui "updateGlobalPitchbendIndicator"
      -- Show in console if enabled.
      if w.console_showMidiMessages then
        let portName :=
          if portIdInPrj ≥ 0 then (prj.midiInPort_getPort portIdInPrj).portName else "UNKNOWN"
        w.userMessage ("MIDI EVENT " ++ lib.toString evInclBank ++ " from port " ++ portName)
      else w
    else w
  -- Indicate MIDI, sustain and pitchbend for layers
  let w := if rxEvent.midiRoute ≠ none then w.ui "layerIndicatorHandler.jackEventReceived" else w
  -- Global MIDI indicator "LED"
  let w := w.ui "MIDI_indicator.setChecked(true)"
  w.call (WindowCall.startTimer 500)

/-- The part of `handleMidiEvent` under "Save bank selects". -/
def saveBankSelects (w : MainWindow) (ev : konfytMidiEvent) : MainWindow :=
  if ev.type = MIDI_EVENT_TYPE_CC then
    if ev.data1 = 0 then
      -- Bank select MSB
      { w with lastBankSelectMSB := ev.data2 }
    else if ev.data1 = 32 then
      -- Bank select LSB
      { w with lastBankSelectLSB := ev.data2 }
    else
      -- Otherwise, reset bank select.
      { w with lastBankSelectMSB := -1, lastBankSelectLSB := -1 }
  else if ev.type ≠ MIDI_EVENT_TYPE_PROGRAM then
    -- Otherwise, reset bank select.
    { w with lastBankSelectMSB := -1, lastBankSelectLSB := -1 }
  else w

/-- The part of `handleMidiEvent` for the MIDI filter editor and the MIDI send list editor
page: the last channel and data bytes, and the list of the last received events, at most
15. -/
def recordLastReceived (w : MainWindow) (ev evInclBank : konfytMidiEvent) : MainWindow :=
  -- MIDI Filter Editor "last" lineEdits
  let w := { w with midiFilter_lastChan := ev.channel, midiFilter_lastData1 := ev.data1,
                    midiFilter_lastData2 := ev.data2 }
  let w := w.ui "updateMidiFilterEditorLastRx"
  -- MIDI send list editor page
  if w.currentWidget = Page.midiSendListPage then
    -- Add event to last received events list
    let w := w.ui "listWidget_midiSendList_lastReceived.addItem"
    let w := { w with midiSendEditorLastEvents := w.midiSendEditorLastEvents ++ [ev] }
    -- If event is a program and the previous messages happened to be bank MSB and LSB,
    -- then add an extra program event which includes the bank.
    let w :=
      if ev.type = MIDI_EVENT_TYPE_PROGRAM ∧ w.lastBankSelectMSB ≥ (0 : Int) ∧
          w.lastBankSelectLSB ≥ (0 : Int) then
        let w := w.ui "listWidget_midiSendList_lastReceived.addItem"
        { w with midiSendEditorLastEvents := w.midiSendEditorLastEvents ++ [evInclBank] }
      else w
    -- The list shouldn't get too crowded
    { w with midiSendEditorLastEvents :=
        w.midiSendEditorLastEvents.drop (w.midiSendEditorLastEvents.length - 15) }
  else w

/-- The part of `handleMidiEvent` for the triggers page: the event is added to the list of
the last received events, at most 15, and normal processing is skipped. -/
def recordOnTriggersPage (w : MainWindow) (ev evInclBank : konfytMidiEvent) : MainWindow :=
  -- Add event to last received events list
  let w := w.ui "listWidget_triggers_eventList.addItem"
  let w := { w with triggersLastEvents := w.triggersLastEvents ++ [ev] }
  -- If event is a program and the previous messages happened to be bank MSB and LSB,
  -- then add an extra program event which includes the bank.
  let w :=
    if ev.type = MIDI_EVENT_TYPE_PROGRAM ∧ w.lastBankSelectMSB ≥ (0 : Int) ∧
        w.lastBankSelectLSB ≥ (0 : Int) then
      let w := w.ui "listWidget_triggers_eventList.addItem"
      { w with triggersLastEvents := w.triggersLastEvents ++ [evInclBank] }
    else w
  -- The list shouldn't get too crowded
  let w := { w with triggersLastEvents :=
      w.triggersLastEvents.drop (w.triggersLastEvents.length - 15) }
  -- Make sure the last received event is selected in the gui list
  w.ui "listWidget_triggers_eventList.setCurrentRow"

/-- The part of `handleMidiEvent` under "If program change without bank select, switch patch
if checkbox is checked". -/
def switchPatchOnProgram (lib : KonfytMidiH) (w : MainWindow) (ev : konfytMidiEvent) :
    MainWindow :=
  if ev.type = MIDI_EVENT_TYPE_PROGRAM then
    if w.lastBankSelectLSB = -1 ∧ w.lastBankSelectMSB = -1 then
      match w.getCurrentProject with
      | none => w
      | some prj =>
        if prj.isProgramChangeSwitchPatches then w.setCurrentPatchByIndex (lib.program ev)
        else w
    else w
  else w

/-- The key under which `handleMidiEvent` looks the action of an event up: a Program event
is hashed with the last bank select, any other event without a bank. -/
def triggerKey (lib : KonfytMidiH) (w : MainWindow) (ev : konfytMidiEvent) : Int :=
  if ev.type = MIDI_EVENT_TYPE_PROGRAM then
    lib.hashMidiEventToInt ev.type ev.channel ev.data1 w.lastBankSelectMSB w.lastBankSelectLSB
  else lib.hashMidiEventToInt ev.type ev.channel ev.data1 (-1) (-1)

/-- The part of `handleMidiEvent` under "Perform the action". -/
def performAction (w : MainWindow) (ev : konfytMidiEvent) (action : Action)
    (buttonPass : Bool) : MainWindow :=
  if action = Action.actionPanic then
    if buttonPass then w.on_actionPanic_triggered else w
  else if action = Action.actionPanicToggle then
    if buttonPass then w.on_actionPanicToggle_triggered else w
  else if action = Action.actionNext_Patch then
    if buttonPass then w.setCurrentPatchByIndex (w.mCurrentPatchIndex + 1) else w
  else if action = Action.actionPrevious_Patch then
    if buttonPass then w.setCurrentPatchByIndex (w.mCurrentPatchIndex - 1) else w
  else if action = Action.actionMaster_Volume_Slider then
    w.ui "horizontalSlider_MasterGain: setValue, SliderMove, sliderMoved"
  else if action = Action.actionMaster_Volume_Up then
    if buttonPass then w.call (WindowCall.trigger Action.actionMaster_Volume_Up) else w
  else if action = Action.actionMaster_Volume_Down then
    if buttonPass then w.call (WindowCall.trigger Action.actionMaster_Volume_Down) else w
  else if action = Action.actionProject_save then
    if buttonPass then w.call (WindowCall.trigger Action.actionProject_save) else w
  else if w.channelGainActions.contains action then
    w.call (WindowCall.midi_setLayerGain (w.channelGainActions.indexOf action) ev.data2)
  else if w.channelSoloActions.contains action then
    w.call (WindowCall.midi_setLayerSolo (w.channelSoloActions.indexOf action) ev.data2)
  else if w.channelMuteActions.contains action then
    w.call (WindowCall.midi_setLayerMute (w.channelMuteActions.indexOf action) ev.data2)
  else if w.patchActions.contains action then
    w.setCurrentPatchByIndex (w.patchActions.indexOf action)
  else if action = Action.actionGlobal_Transpose_12_Down then
    if buttonPass then w.call (WindowCall.setMasterInTranspose (-12) true) else w
  else if action = Action.actionGlobal_Transpose_12_Up then
    if buttonPass then w.call (WindowCall.setMasterInTranspose 12 true) else w
  else if action = Action.actionGlobal_Transpose_1_Down then
    if buttonPass then w.call (WindowCall.setMasterInTranspose (-1) true) else w
  else if action = Action.actionGlobal_Transpose_1_Up then
    if buttonPass then w.call (WindowCall.setMasterInTranspose 1 true) else w
  else if action = Action.actionGlobal_Transpose_Zero then
    if buttonPass then w.call (WindowCall.setMasterInTranspose 0 false) else w
  else w

/-- Method `MainWindow::handleMidiEvent`, in the order of its parts. -/
def handleMidiEvent (lib : KonfytMidiH) (w : MainWindow) (rxEvent : KfJackMidiRxEvent) :
    MainWindow :=
  match w.getCurrentProject with
  | none => w
  | some prj =>
    let ev := rxEvent.midiEvent
    let evInclBank := { ev with bankMSB := w.lastBankSelectMSB, bankLSB := w.lastBankSelectLSB }
    let w := w.indicateMidiEvent lib prj rxEvent evInclBank
    -- Save bank selects
    let w := w.saveBankSelects ev
    let w := w.recordLastReceived ev evInclBank
    -- Triggers page events list
    if w.currentWidget = Page.triggersPage then
      -- Skip normal processing
      w.recordOnTriggersPage ev evInclBank
    else
      -- If program change without bank select, switch patch if checkbox is checked.
      let w := w.switchPatchOnProgram lib ev
      -- Hash midi event to a key
      let key := w.triggerKey lib ev
      -- Determine if event passes as button press
      let buttonPass : Bool :=
        if ev.type = MIDI_EVENT_TYPE_PROGRAM then true else decide (ev.data2 > 0)
      -- Get the appropriate action based on the key
      let r := w.triggersMidiActionHash_index key
      let action := r.1
      let w := r.2
      -- Perform the action
      w.performAction ev action buttonPass

/-- The layers that use the selected bus or port, as (patch index, layer index) pairs in
the order of the two nested loops of `on_actionRemove_BusPort_triggered`.  `layers` gives
the layers of a patch (`patch->layers()`). -/
def layersUsing (layers : Option Nat → List KonfytPatchLayer) (prj : KonfytProject)
    (item : TreeItem) (id : Int) : List (Nat × Nat) :=
  prj.getPatchList.enum.flatMap (fun ip =>
    ((layers ip.2).enum.filter (fun il =>
      let layer := il.2
      if item.parent = TreeParent.busParent then
        (layer.layerType = LayerType.TypeAudioIn ∨ layer.layerType = LayerType.TypeSfz ∨
          layer.layerType = LayerType.TypeSoundfontProgram) ∧ layer.busIdInProject = id
      else if item.parent = TreeParent.audioInParent then
        layer.layerType = LayerType.TypeAudioIn ∧ layer.audioInPortIdInProject = id
      else if item.parent = TreeParent.midiOutParent then
        layer.layerType = LayerType.TypeMidiOut ∧ layer.midiOutPortIdInProject = id
      else if item.parent = TreeParent.midiInParent then
        (layer.layerType = LayerType.TypeSfz ∨ layer.layerType = LayerType.TypeMidiOut ∨
          layer.layerType = LayerType.TypeSoundfontProgram) ∧ layer.midiInPortIdInProject = id
      else False)).map (fun il => (ip.1, il.1)))

/-- The last part of `on_actionRemove_BusPort_triggered`: remove the bus/port from JACK and
from the project. -/
def removeBusPort (w : MainWindow) (prj : KonfytProject) (item : TreeItem) (id : Int) :
    MainWindow :=
  let w :=
    if item.parent = TreeParent.busParent then
      -- Remove the bus
      let bus := prj.audioBus_getBus id
      let w := { w with jack := (w.jack.removeAudioPort bus.leftJackPort).removeAudioPort
                          bus.rightJackPort }
      let w := w.storeCurrentProject (prj.audioBus_remove id)
      w.ui "tree_busMap.remove(item)"
    else if item.parent = TreeParent.audioInParent then
      -- Remove the port
      let audioInPort := prj.audioInPort_getPort id
      let w := { w with jack := (w.jack.removeAudioPort audioInPort.leftJackPort).removeAudioPort
                          audioInPort.rightJackPort }
      let w := w.storeCurrentProject (prj.audioInPort_remove id)
      w.ui "tree_audioInMap.remove(item)"
    else if item.parent = TreeParent.midiOutParent then
      -- Remove the port
      let midiOutPort := prj.midiOutPort_getPort id
      let w := { w with jack := w.jack.removeMidiPort midiOutPort.jackPort }
      let w := w.ui "portIndicatorHandler.portRemoved"
      let w := w.storeCurrentProject (prj.midiOutPort_removePort id)
      let w := w.ui "tree_midiOutMap.remove(item)"
      -- Remove port from global indicator handler
      w.ui "portIndicatorHandler.portRemoved"
    else if item.parent = TreeParent.midiInParent then
      -- Remove the port
      let midiInPort := prj.midiInPort_getPort id
      let w := { w with jack := w.jack.removeMidiPort midiInPort.jackPort }
      let w := w.storeCurrentProject (prj.midiInPort_removePort id)
      w.ui "tree_midiInMap.remove(item)"
    else w
  let w := w.ui "delete item"
  w.ui "gui_updatePatchView"

/-- Method `MainWindow::on_actionRemove_BusPort_triggered`: remove the bus/port selected in
the connections ports/buses tree widget.  `item` is the selected tree item, `layers` gives
the layers of a patch and `msgboxYes` tells whether the user answers the message box with
Yes. -/
def on_actionRemove_BusPort_triggered (layers : Option Nat → List KonfytPatchLayer)
    (msgboxYes : Bool) (w : MainWindow) (item : TreeItem) : MainWindow :=
  match w.getCurrentProject with
  | none => w
  | some prj =>
    if item.parent = TreeParent.busParent ∧ prj.audioBus_count = 1 then
      -- Do not remove last bus
      w
    else if item.parent = TreeParent.midiInParent ∧ prj.midiInPort_count = 1 then
      -- Do not remove last MIDI in port
      w
    else
      let id : Int := if item.parent = TreeParent.otherParent then 0 else item.id
      let name : String :=
        if item.parent = TreeParent.busParent then (prj.audioBus_getBus id).busName
        else if item.parent = TreeParent.audioInParent then (prj.audioInPort_getPort id).portName
        else if item.parent = TreeParent.midiOutParent then (prj.midiOutPort_getPort id).portName
        else if item.parent = TreeParent.midiInParent then (prj.midiInPort_getPort id).portName
        else ""
      -- Check if any patch layers are using this bus/port
      let usingLayers := layersUsing layers prj item id
      if usingLayers.length ≠ 0 then
        -- Some patches have layers that use the selected bus/port. Confirm with the user.
        let selectedText := "(" ++ n2s id ++ " - " ++ name ++ ")"
        if item.parent = TreeParent.busParent then
          let busToChangeTo := prj.audioBus_getFirstBusId id
          let w := w.call (WindowCall.msgbox
            ("The selected bus " ++ selectedText ++ " is used by some patches."
              ++ " Are you sure you want to delete the bus?"
              ++ " All layers using this bus will be assigned to bus "
              ++ n2s busToChangeTo ++ " - "
              ++ (prj.audioBus_getBus busToChangeTo).busName ++ "."))
          if msgboxYes then
            -- Change the bus for all layers still using this one
            let w := usingLayers.foldl (fun w u =>
              w.call (WindowCall.pengine_setLayerBus (prj.getPatch u.1) u.2 busToChangeTo)) w
            w.removeBusPort prj item id
          else w
        else if item.parent = TreeParent.audioInParent then
          let w := w.call (WindowCall.msgbox
            ("The selected port " ++ selectedText ++ "is used by some patches."
              ++ " Are you sure you want to delete the port?"
              ++ " The port layer will be removed from the patches."))
          if msgboxYes then
            -- Remove it from all patches where it was in use
            let w := usingLayers.foldl (fun w u =>
              w.call (WindowCall.pengine_removeLayer (prj.getPatch u.1) u.2)) w
            w.removeBusPort prj item id
          else w
        else if item.parent = TreeParent.midiOutParent then
          let w := w.call (WindowCall.msgbox
            ("The selected port " ++ selectedText ++ " is used by some patches."
              ++ " Are you sure you want to delete the port?"
              ++ " The port layer will be removed from the patches."))
          if msgboxYes then
            -- Remove it from all patches where it was in use
            let w := usingLayers.foldl (fun w u =>
              w.call (WindowCall.pengine_removeLayer (prj.getPatch u.1) u.2)) w
            w.removeBusPort prj item id
          else w
        else if item.parent = TreeParent.midiInParent then
          let portToChangeTo := prj.midiInPort_getFirstPortId id
          let w := w.call (WindowCall.msgbox
            ("The selected MIDI input port " ++ selectedText ++ " is used by some patches."
              ++ " Are you sure you want to delete the port?"
              ++ " All layers using this port will be assigned to port "
              ++ n2s portToChangeTo ++ " - "
              ++ (prj.midiInPort_getPort portToChangeTo).portName ++ "."))
          if msgboxYes then
            -- Change the port for all layers still using this one
            let w := usingLayers.foldl (fun w u =>
              w.call (WindowCall.pengine_setLayerMidiInPort (prj.getPatch u.1) u.2
                portToChangeTo)) w
            w.removeBusPort prj item id
          else w
        else w.removeBusPort prj item id
      else w.removeBusPort prj item id

/-- The members that the indicating and recording parts of `handleMidiEvent` leave as they
are: the projects and the current one, the JACK engine, the current patch and its index, the
panic state, the page shown, the trigger table and the action lists. -/
def selectionState (w : MainWindow) :
    List KonfytProject × Int × KonfytJackEngine × Option Nat × Int × Bool × Page ×
      List (Int × Action) × List Action × List Action × List Action × List Action :=
  (w.projectList, w.currentProject, w.jack, w.masterPatch, w.mCurrentPatchIndex, w.panicState,
    w.currentWidget, w.triggersMidiActionHash, w.channelGainActions, w.channelSoloActions,
    w.channelMuteActions, w.patchActions)

/-- The members that `handleMidiEvent` changes under "Save bank selects" only, if at all:
the projects and the current one, the last bank select and the page shown. -/
def receiveState (w : MainWindow) : List KonfytProject × Int × Int × Int × Page :=
  (w.projectList, w.currentProject, w.lastBankSelectMSB, w.lastBankSelectLSB, w.currentWidget)

end MainWindow

/-- A main window with the freshly constructed project as the current one and no JACK
port registered. -/
def windowWithNewProject : MainWindow :=
  { projectList := [KonfytProject.new], currentProject := 0 }

/-! ## File suffixes (mainwindow.cpp) -/

/-- Qt `QString::right(n)`: the `n` rightmost characters, the entire string if `n` is not
less than its size. -/
def qRight (s : List Char) (n : Nat) : List Char := s.drop (s.length - n)

/-- Method `MainWindow::fileSuffixIs`: determine if the file suffix is as specified; the
suffix is given without a leading dot and is checked by adding a dot.  `toLower` is
`QString::toLower()` of the Qt library, which is not among the sources; a string is the list
of its characters. -/
def fileSuffixIs (toLower : List Char → List Char) (file suffix : String) : Bool :=
  -- suffix.prepend('.');
  let suffix := '.' :: suffix.toList
  let suffix := toLower suffix
  let right := toLower (qRight file.toList suffix.length)
  right == suffix

/-- Method `MainWindow::fileIsSfzOrGig`. -/
def fileIsSfzOrGig (toLower : List Char → List Char) (file : String) : Bool :=
  fileSuffixIs toLower file "sfz" || fileSuffixIs toLower file "gig"

/-- Method `MainWindow::fileIsSoundfont`. -/
def fileIsSoundfont (toLower : List Char → List Char) (file : String) : Bool :=
  fileSuffixIs toLower file "sf2" || fileSuffixIs toLower file "sf3"

/-- A project whose bus 0 lists the client "system:playback_1" twice on the left side, as
`loadProject` builds it from a file with two equal `leftClient` elements. -/
def projectWithDuplicateClient : KonfytProject :=
  KonfytProject.new.audioBus_replace_noModify 0
    { busName := "Master Bus", leftOutClients := ["system:playback_1", "system:playback_1"] }

/-- A backend on which every creation step succeeds: settings object 1, synth 2,
soundfont id 7. -/
def backendAllOk : FluidsynthCreate :=
  { new_fluid_settings := some 1, new_fluid_synth := fun _ => some 2,
    fluid_synth_sfload := fun _ _ => 7 }

/-- A backend on which the soundfont file cannot be loaded. -/
def backendLoadFails : FluidsynthCreate :=
  { new_fluid_settings := some 1, new_fluid_synth := fun _ => some 2,
    fluid_synth_sfload := fun _ _ => -1 }

/-- The engine after the constructor and one successful `addSoundfontProgram`. -/
def engineWithOneSynth : konfytFluidsynthEngine :=
  (konfytFluidsynthEngine.new.addSoundfontProgram backendAllOk
    { name := "Piano", parent_soundfont := "piano.sf2" }).2

/-- A signed pitchbend accessor that reads the two data bytes: the 14-bit value less the
centre 8192. -/
def pitchbendFromData (ev : konfytMidiEvent) : Int := ev.data2 * 128 + ev.data1 - 8192

/-- The freshly constructed project with two more buses (ids 1, 2), one more MIDI input
port (id 1) and three patches with the pointers 11, 12 and 13. -/
def projectWithThreeBuses : KonfytProject :=
  (((((KonfytProject.new.audioBus_add "AudioBus_1").2.audioBus_add "AudioBus_2").2.midiInPort_addPort
    "New MIDI In Port").2.addPatch (some 11)).addPatch (some 12)).addPatch (some 13)

/-- A main window whose current project has the patches 11, 12, 13; patch 13 (index 2) is
the current one, a CC 20 on channel 0 is the trigger of Next Patch and a CC 21 the trigger
of Previous Patch. -/
def windowWithThreePatches : MainWindow :=
  { projectList := [projectWithThreeBuses], currentProject := 0,
    masterPatch := some 13, mCurrentPatchIndex := 2,
    triggersMidiActionHash := [(20, Action.actionNext_Patch), (21, Action.actionPrevious_Patch)] }

/-- A stand-in for the declarations of konfytMidi.h: the hash of an event is its first data
byte, the program of an event is its first data byte. -/
def midiHForExamples : KonfytMidiH :=
  { hashMidiEventToInt := fun _ _ data1 _ _ => data1,
    program := fun ev => ev.data1,
    toString := fun _ => "event" }

/-- A project as `loadProject` builds it from a file that gives a bus the id 2147483647, the
largest `int`, next to the bus 0. -/
def projectWithLargestBusId : KonfytProject :=
  { KonfytProject.new with
    audioBusMap := KonfytProject.new.audioBusMap.insert 2147483647 { busName := "High" } }

/-- A project as `loadProject` builds it from a file that gives its two buses the ids
-2147483648 and 2147483647, the smallest and the largest `int`. -/
def projectWithExtremeBusIds : KonfytProject :=
  { KonfytProject.new with
    audioBusMap := (QMap.empty.insert (-2147483648) { busName := "Low" }).insert 2147483647
      { busName := "High" } }

/-- A main window with the project whose buses have the ids -2147483648 and 2147483647 as the
current one and no JACK port registered. -/
def windowWithExtremeBusIds : MainWindow :=
  { projectList := [projectWithExtremeBusIds], currentProject := 0 }

/-- The tree item of bus 0. -/
def busItemZero : TreeItem := { parent := TreeParent.busParent, id := 0 }

/-- Every patch has one SFZ layer on bus 0 and MIDI input port 0. -/
def layersOnBusZero : Option Nat → List KonfytPatchLayer :=
  fun _ => [{ layerType := LayerType.TypeSfz, busIdInProject := 0, midiInPortIdInProject := 0 }]

/-- An active MIDI route from port 1 to port 2 whose filter transposes by +2 semitones. -/
def routeTransposeTwo : KfJackMidiRoute :=
  { active := true, filter := { zone := { transposeAdd := 2 } }, source := some 1,
    destPort := some 2 }

/-- A JACK engine with one active MIDI route from port 1 to port 2 whose filter transposes
by +2 semitones. -/
def engineWithTransposeRoute : KonfytJackEngine :=
  { midiRoutes := [routeTransposeTwo] }

/-- The NoteOn of note 60 with velocity 100. -/
def noteOn60 : konfytMidiEvent := { type := MIDI_EVENT_TYPE_NOTEON, data1 := 60, data2 := 100 }

/-- The NoteOff of note 60. -/
def noteOff60 : konfytMidiEvent := { type := MIDI_EVENT_TYPE_NOTEOFF, data1 := 60 }

/-- The engine after the NoteOn of note 60 arrived on port 1: note 62 sounds on port 2. -/
def engineHoldingNote : KonfytJackEngine :=
  engineWithTransposeRoute.processMidiEvent (some 1) noteOn60

/-- A main window over the engine in which note 62 sounds on port 2. -/
def windowHoldingNote : MainWindow := { jack := engineHoldingNote }

/-- The Pitchbend event with the data bytes 0 and 64: the centre position. -/
def pitchbendCentre : konfytMidiEvent :=
  { type := MIDI_EVENT_TYPE_PITCHBEND, data1 := 0, data2 := 64 }

/-- The all-notes-off controller event. -/
def ccAllNotesOff : konfytMidiEvent :=
  { type := MIDI_EVENT_TYPE_CC, data1 := MIDI_CC_ALL_NOTES_OFF, data2 := 0 }

/-- The volume controller event (CC 7) with value 100. -/
def ccVolume : konfytMidiEvent := { type := MIDI_EVENT_TYPE_CC, data1 := 7, data2 := 100 }

/-- The bank select MSB event (CC 0) with value 5. -/
def rxBankSelectMSB : KfJackMidiRxEvent :=
  { midiEvent := { type := MIDI_EVENT_TYPE_CC, data1 := 0, data2 := 5 } }

/-- The Program event of program 1. -/
def rxProgramOne : KfJackMidiRxEvent :=
  { midiEvent := { type := MIDI_EVENT_TYPE_PROGRAM, data1 := 1 } }

/-- The NoteOn event of note 60 with velocity 100, from no port and no route. -/
def rxNoteOn : KfJackMidiRxEvent := { midiEvent := noteOn60 }

/-! ## Triggers (konfytProject.h, konfytProject.cpp) -/

/-- Qt `QHash<QString, V>::keys()` for a hash held as the list of its entries (each key
once; the order of a QHash is not specified, the list fixes one). -/
def qhashKeys {V : Type} (h : List (String × V)) : List String := h.map (fun e => e.1)

/-- Qt `QHash::value(key)`: the value stored under the key, a default-constructed value if
there is none. -/
def qhashValue {V : Type} [Inhabited V] (h : List (String × V)) (key : String) : V :=
  match h.find? (fun e => e.1 == key) with
  | some e => e.2
  | none => default

/-- Qt `QHash::remove(key)`. -/
def qhashRemove {V : Type} (h : List (String × V)) (key : String) : List (String × V) :=
  h.filter (fun e => e.1 != key)

/-- Qt `QHash::insert(key, value)`: the value of an item with that key is replaced. -/
def qhashInsert {V : Type} (h : List (String × V)) (key : String) (value : V) :
    List (String × V) :=
  qhashRemove h key ++ [(key, value)]

instance : Inhabited KonfytTrigger := ⟨{}⟩

/-- Method `KonfytTrigger::toInt`; `hashMidiEventToInt` is the function of that name of
konfytMidi.h, which is not among the sources. -/
def KonfytTrigger.toInt (hashMidiEventToInt : Int → Int → Int → Int → Int → Int)
    (t : KonfytTrigger) : Int :=
  hashMidiEventToInt t.type t.channel t.data1 t.bankMSB t.bankLSB

namespace KonfytProject

/-- Method `KonfytProject::addAndReplaceTrigger`. -/
def addAndReplaceTrigger (hashMidiEventToInt : Int → Int → Int → Int → Int → Int)
    (p : KonfytProject) (newTrigger : KonfytTrigger) : KonfytProject :=
  -- Remove any action that has the same trigger
  let trigint := newTrigger.toInt hashMidiEventToInt
  let l := qhashKeys p.triggerHash
  let triggerHash := l.foldl (fun h key =>
    if (qhashValue h key).toInt hashMidiEventToInt = trigint then qhashRemove h key else h)
    p.triggerHash
  let triggerHash := qhashInsert triggerHash newTrigger.actionText newTrigger
  ({ p with triggerHash := triggerHash }).setModified true

/-- Method `KonfytProject::removeTrigger`. -/
def removeTrigger (p : KonfytProject) (actionText : String) : KonfytProject :=
  if (qhashKeys p.triggerHash).contains actionText then
    ({ p with triggerHash := qhashRemove p.triggerHash actionText }).setModified true
  else p

/-- Method `KonfytProject::getTriggerList`. -/
def getTriggerList (p : KonfytProject) : List KonfytTrigger := p.triggerHash.map (fun e => e.2)

end KonfytProject

/-- The trigger of the action "Panic" on CC 20 of channel 0. -/
def triggerPanicOnCC20 : KonfytTrigger :=
  { actionText := "Panic", type := MIDI_EVENT_TYPE_CC, channel := 0, data1 := 20 }

/-- The trigger of the action "Next Patch" on CC 21 of channel 0. -/
def triggerNextOnCC21 : KonfytTrigger :=
  { actionText := "Next Patch", type := MIDI_EVENT_TYPE_CC, channel := 0, data1 := 21 }

/-- The trigger of the action "Previous Patch" on CC 20 of channel 0. -/
def triggerPreviousOnCC20 : KonfytTrigger :=
  { actionText := "Previous Patch", type := MIDI_EVENT_TYPE_CC, channel := 0, data1 := 20 }

/-- A new project with the triggers of "Panic" (CC 20) and "Next Patch" (CC 21). -/
def projectWithTwoTriggers : KonfytProject :=
  (KonfytProject.new.addAndReplaceTrigger midiHForExamples.hashMidiEventToInt
    triggerPanicOnCC20).addAndReplaceTrigger midiHForExamples.hashMidiEventToInt
    triggerNextOnCC21

/-- The CC 20 event with the value 0 (the button released), from no port and no route. -/
def rxControlTwentyReleased : KfJackMidiRxEvent :=
  { midiEvent := { type := MIDI_EVENT_TYPE_CC, data1 := 20, data2 := 0 } }

/-- The Program event of program 20, from no port and no route. -/
def rxProgramTwenty : KfJackMidiRxEvent :=
  { midiEvent := { type := MIDI_EVENT_TYPE_PROGRAM, data1 := 20 } }

/-! ## Facts about `QMap` -/

theorem lookupEntry_mem_keys {V : Type} (k : Int) (v : V) (l : List (Int × V))
    (h : lookupEntry k l = some v) : k ∈ entryKeys l := by
  induction l with
  | nil => simp [lookupEntry] at h
  | cons e rest ih =>
    unfold lookupEntry at h
    by_cases hk : e.1 = k
    · simp [entryKeys, hk]
    · rw [if_neg hk] at h
      have := ih h
      simp only [entryKeys, List.map_cons, List.mem_cons] at this ⊢
      exact Or.inr this

theorem lookupEntry_of_mem_keys {V : Type} (k : Int) (l : List (Int × V))
    (h : k ∈ entryKeys l) : ∃ v, lookupEntry k l = some v := by
  induction l with
  | nil => simp [entryKeys] at h
  | cons e rest ih =>
    unfold lookupEntry
    by_cases hk : e.1 = k
    · exact ⟨e.2, by rw [if_pos hk]⟩
    · rw [if_neg hk]
      apply ih
      simp only [entryKeys, List.map_cons, List.mem_cons] at h ⊢
      rcases h with h | h
      · exact absurd h.symm hk
      · exact h

theorem lookupEntry_insertEntry_self {V : Type} (k : Int) (v : V) (l : List (Int × V)) :
    lookupEntry k (insertEntry k v l) = some v := by
  induction l with
  | nil => simp [insertEntry, lookupEntry]
  | cons e rest ih =>
    unfold insertEntry
    by_cases h1 : k < e.1
    · rw [if_pos h1]; simp [lookupEntry]
    · by_cases h2 : k = e.1
      · rw [if_neg h1, if_pos h2]; simp [lookupEntry]
      · rw [if_neg h1, if_neg h2]
        unfold lookupEntry
        rw [if_neg (fun h => h2 h.symm)]
        exact ih

theorem lookupEntry_insertEntry_other {V : Type} (k k' : Int) (v : V) (l : List (Int × V))
    (hne : k' ≠ k) : lookupEntry k' (insertEntry k v l) = lookupEntry k' l := by
  induction l with
  | nil => simp [insertEntry, lookupEntry, hne.symm]
  | cons e rest ih =>
    unfold insertEntry
    by_cases h1 : k < e.1
    · rw [if_pos h1]
      conv_lhs => unfold lookupEntry
      simp [hne.symm]
    · by_cases h2 : k = e.1
      · rw [if_neg h1, if_pos h2]
        unfold lookupEntry
        have h3 : ¬ e.1 = k' := fun h => hne (h.symm.trans h2.symm)
        simp [h3, ← h2, hne.symm]
      · rw [if_neg h1, if_neg h2]
        unfold lookupEntry
        by_cases h3 : e.1 = k'
        · simp [h3]
        · simp only [h3, if_false]
          exact ih

theorem insertEntry_of_lookup {V : Type} (k : Int) (v : V) (l : List (Int × V))
    (hs : (entryKeys l).Pairwise (fun a b => a < b)) (h : lookupEntry k l = some v) :
    insertEntry k v l = l := by
  induction l with
  | nil => simp [lookupEntry] at h
  | cons e rest ih =>
    have hs2 : (e.1 :: entryKeys rest).Pairwise (fun a b => a < b) := by
      simpa [entryKeys] using hs
    rw [List.pairwise_cons] at hs2
    unfold lookupEntry at h
    unfold insertEntry
    by_cases hk : e.1 = k
    · rw [if_pos hk] at h
      have hv : e.2 = v := Option.some.inj h
      have h1 : ¬ k < e.1 := by omega
      rw [if_neg h1, if_pos hk.symm, ← hk, ← hv]
    · rw [if_neg hk] at h
      have hlt : e.1 < k := hs2.1 k (lookupEntry_mem_keys k v rest h)
      have h1 : ¬ k < e.1 := by omega
      rw [if_neg h1, if_neg (fun h2 => hk h2.symm), ih hs2.2 h]

theorem removeEntry_insertEntry_fresh {V : Type} (k : Int) (v : V) (l : List (Int × V))
    (h : k ∉ entryKeys l) : removeEntry k (insertEntry k v l) = l := by
  induction l with
  | nil => simp [insertEntry, removeEntry]
  | cons e rest ih =>
    have hk : ¬ k = e.1 := by
      intro hk; apply h; simp [entryKeys, hk]
    have hr : k ∉ entryKeys rest := by
      intro hr; apply h
      simp only [entryKeys, List.map_cons, List.mem_cons] at hr ⊢
      exact Or.inr hr
    unfold insertEntry
    by_cases h1 : k < e.1
    · rw [if_pos h1]; simp [removeEntry]
    · rw [if_neg h1, if_neg hk]
      unfold removeEntry
      rw [if_neg (fun h2 => hk h2.symm), ih hr]

theorem getUniqueIdHelper_foldl_ge (ids : List Int) (a : Int) :
    a ≤ ids.foldl (fun id x => if x > id then x else id) a ∧
    ∀ x ∈ ids, x ≤ ids.foldl (fun id x => if x > id then x else id) a := by
  induction ids generalizing a with
  | nil => simp
  | cons y rest ih =>
    simp only [List.foldl_cons, List.mem_cons]
    have h := ih (if y > a then y else a)
    refine ⟨le_trans ?_ h.1, ?_⟩
    · split <;> omega
    · intro x hx
      rcases hx with rfl | hx
      · refine le_trans ?_ h.1
        split <;> omega
      · exact h.2 x hx

namespace QMap

variable {V : Type}

theorem ext_entries {a b : QMap V} (h : a.entries = b.entries) : a = b := by
  cases a; cases b; cases h; rfl

theorem contains_iff (m : QMap V) (k : Int) : m.contains k = true ↔ k ∈ m.keys := by
  simp [contains]

theorem contains_insert_self (m : QMap V) (k : Int) (v : V) : (m.insert k v).contains k = true := by
  rw [contains_iff]
  exact (entryKeys_insertEntry_mem k v m.entries k).2 (Or.inl rfl)

theorem keys_insert_mem (m : QMap V) (k : Int) (v : V) (x : Int) :
    x ∈ (m.insert k v).keys ↔ x = k ∨ x ∈ m.keys :=
  entryKeys_insertEntry_mem k v m.entries x

theorem find?_insert_self (m : QMap V) (k : Int) (v : V) : (m.insert k v).find? k = some v :=
  lookupEntry_insertEntry_self k v m.entries

theorem find?_insert_other (m : QMap V) (k k' : Int) (v : V) (h : k' ≠ k) :
    (m.insert k v).find? k' = m.find? k' :=
  lookupEntry_insertEntry_other k k' v m.entries h

theorem value_insert_self [Inhabited V] (m : QMap V) (k : Int) (v : V) :
    (m.insert k v).value k = v := by
  simp [value, find?_insert_self]

theorem value_insert_other [Inhabited V] (m : QMap V) (k k' : Int) (v : V) (h : k' ≠ k) :
    (m.insert k v).value k' = m.value k' := by
  simp [value, find?_insert_other m k k' v h]

theorem find?_of_contains [Inhabited V] (m : QMap V) (k : Int) (h : m.contains k = true) :
    m.find? k = some (m.value k) := by
  obtain ⟨v, hv⟩ := lookupEntry_of_mem_keys k m.entries ((contains_iff m k).1 h)
  simp [value, find?, hv]

theorem insert_value_self [Inhabited V] (m : QMap V) (k : Int) (h : m.contains k = true) :
    m.insert k (m.value k) = m :=
  ext_entries (insertEntry_of_lookup k (m.value k) m.entries m.sorted (find?_of_contains m k h))

theorem insert_insert_self [Inhabited V] (m : QMap V) (k : Int) (v : V) :
    (m.insert k v).insert k v = m.insert k v := by
  have h := insert_value_self (m.insert k v) k (contains_insert_self m k v)
  rwa [value_insert_self] at h

theorem remove_insert_fresh (m : QMap V) (k : Int) (v : V) (h : m.contains k = false) :
    (m.insert k v).remove k = m := by
  apply ext_entries
  apply removeEntry_insertEntry_fresh
  intro hk
  rw [(contains_iff m k).2 hk] at h
  exact Bool.noConfusion h

end QMap

theorem getUniqueIdHelper_foldl_le (ids : List Int) (a b : Int) (ha : a ≤ b)
    (h : ∀ x ∈ ids, x ≤ b) : ids.foldl (fun id x => if x > id then x else id) a ≤ b := by
  induction ids generalizing a with
  | nil => exact ha
  | cons y rest ih =>
    rw [List.foldl_cons]
    apply ih
    · have hy : y ≤ b := h y (List.mem_cons_self y rest)
      split <;> omega
    · intro x hx
      exact h x (List.mem_cons_of_mem y hx)

theorem wrapInt_of_inRange (x : Int) (h1 : -2147483648 ≤ x) (h2 : x ≤ 2147483647) :
    wrapInt x = x := by
  unfold wrapInt
  omega

/-- Below the largest `int` the addition in `getUniqueIdHelper` does not wrap. -/
theorem getUniqueIdHelper_of_inRange (ids : List Int) (hr : ∀ x ∈ ids, x < 2147483647) :
    KonfytProject.getUniqueIdHelper ids =
      ids.foldl (fun id x => if x > id then x else id) (-1) + 1 := by
  have h := getUniqueIdHelper_foldl_ge ids (-1)
  have hle := getUniqueIdHelper_foldl_le ids (-1) 2147483646 (by omega)
    (fun x hx => by have := hr x hx; omega)
  unfold KonfytProject.getUniqueIdHelper
  exact wrapInt_of_inRange _ (by omega) (by omega)

theorem getUniqueIdHelper_fresh (ids : List Int) (hr : ∀ x ∈ ids, x < 2147483647) :
    0 ≤ KonfytProject.getUniqueIdHelper ids ∧ ∀ x ∈ ids, x < KonfytProject.getUniqueIdHelper ids := by
  have h := getUniqueIdHelper_foldl_ge ids (-1)
  rw [getUniqueIdHelper_of_inRange ids hr]
  refine ⟨by omega, ?_⟩
  intro x hx
  have := h.2 x hx
  omega

theorem getUniqueIdHelper_not_contained {V : Type} (m : QMap V)
    (hr : ∀ k ∈ m.keys, k < 2147483647) :
    m.contains (KonfytProject.getUniqueIdHelper m.keys) = false := by
  cases hc : m.contains (KonfytProject.getUniqueIdHelper m.keys) with
  | false => rfl
  | true =>
    have := (getUniqueIdHelper_fresh m.keys hr).2 _ ((QMap.contains_iff m _).1 hc)
    omega

/-! ## Client lists of project ports -/

theorem addOnce_spec (l : List String) (c : String) :
    c ∈ (if c ∈ l then l else l ++ [c]) ∧
    (if c ∈ l then l else l ++ [c]).count c = max 1 (l.count c) := by
  by_cases h : c ∈ l
  · rw [if_pos h]
    have : 1 ≤ l.count c := List.count_pos_iff.2 h
    exact ⟨h, by omega⟩
  · rw [if_neg h]
    have : l.count c = 0 := List.count_eq_zero_of_not_mem h
    refine ⟨by simp, ?_⟩
    rw [List.count_append, this]
    simp

theorem removeAll_absent (l : List String) (c : String) (h : c ∉ l) : removeAll l c = l := by
  unfold removeAll
  rw [List.filter_eq_self]
  intro x hx
  have : x ≠ c := fun hxc => h (hxc ▸ hx)
  simpa using this

theorem audioBus_addClient_map (p : KonfytProject) (id : Int) (lr : portLeftRight) (c : String)
    (h : p.audioBusMap.contains id = true) :
    (p.audioBus_addClient id lr c).audioBusMap =
      p.audioBusMap.insert id
        (if lr = portLeftRight.leftPort then
          (if !(p.audioBusMap.value id).leftOutClients.contains c then
            { p.audioBusMap.value id with
              leftOutClients := (p.audioBusMap.value id).leftOutClients ++ [c] }
           else p.audioBusMap.value id)
        else
          (if !(p.audioBusMap.value id).rightOutClients.contains c then
            { p.audioBusMap.value id with
              rightOutClients := (p.audioBusMap.value id).rightOutClients ++ [c] }
           else p.audioBusMap.value id)) := by
  simp [KonfytProject.audioBus_addClient, h, KonfytProject.setModified]

theorem audioBus_addClient_side (p : KonfytProject) (id : Int) (lr : portLeftRight) (c : String)
    (h : p.audioBusMap.contains id = true) :
    ((p.audioBus_addClient id lr c).audioBus_getBus id).sideClients lr =
      (if c ∈ (p.audioBus_getBus id).sideClients lr then (p.audioBus_getBus id).sideClients lr
       else (p.audioBus_getBus id).sideClients lr ++ [c]) := by
  unfold KonfytProject.audioBus_getBus
  rw [audioBus_addClient_map p id lr c h, QMap.value_insert_self]
  cases lr <;> by_cases hc : c ∈ (p.audioBusMap.value id).leftOutClients <;>
    by_cases hd : c ∈ (p.audioBusMap.value id).rightOutClients <;>
    simp [PrjAudioBus.sideClients, hc, hd]

theorem audioInPort_addClient_map (p : KonfytProject) (id : Int) (lr : portLeftRight)
    (c : String) (h : p.audioInPortMap.contains id = true) :
    (p.audioInPort_addClient id lr c).audioInPortMap =
      p.audioInPortMap.insert id
        (if lr = portLeftRight.leftPort then
          (if !(p.audioInPortMap.value id).leftInClients.contains c then
            { p.audioInPortMap.value id with
              leftInClients := (p.audioInPortMap.value id).leftInClients ++ [c] }
           else p.audioInPortMap.value id)
        else
          (if !(p.audioInPortMap.value id).rightInClients.contains c then
            { p.audioInPortMap.value id with
              rightInClients := (p.audioInPortMap.value id).rightInClients ++ [c] }
           else p.audioInPortMap.value id)) := by
  simp [KonfytProject.audioInPort_addClient, h, KonfytProject.setModified]

theorem audioInPort_addClient_side (p : KonfytProject) (id : Int) (lr : portLeftRight)
    (c : String) (h : p.audioInPortMap.contains id = true) :
    ((p.audioInPort_addClient id lr c).audioInPort_getPort id).sideClients lr =
      (if c ∈ (p.audioInPort_getPort id).sideClients lr
       then (p.audioInPort_getPort id).sideClients lr
       else (p.audioInPort_getPort id).sideClients lr ++ [c]) := by
  unfold KonfytProject.audioInPort_getPort
  rw [audioInPort_addClient_map p id lr c h, QMap.value_insert_self]
  cases lr <;> by_cases hc : c ∈ (p.audioInPortMap.value id).leftInClients <;>
    by_cases hd : c ∈ (p.audioInPortMap.value id).rightInClients <;>
    simp [PrjAudioInPort.sideClients, hc, hd]

theorem audioBus_addClient_contains (p : KonfytProject) (id : Int) (lr : portLeftRight)
    (c : String) (h : p.audioBusMap.contains id = true) :
    (p.audioBus_addClient id lr c).audioBusMap.contains id = true := by
  rw [audioBus_addClient_map p id lr c h]
  exact QMap.contains_insert_self _ _ _

theorem audioInPort_addClient_contains (p : KonfytProject) (id : Int) (lr : portLeftRight)
    (c : String) (h : p.audioInPortMap.contains id = true) :
    (p.audioInPort_addClient id lr c).audioInPortMap.contains id = true := by
  rw [audioInPort_addClient_map p id lr c h]
  exact QMap.contains_insert_self _ _ _

theorem audioBus_addClient_present (p : KonfytProject) (id : Int) (lr : portLeftRight)
    (c : String) (h : p.audioBusMap.contains id = true)
    (hc : c ∈ (p.audioBus_getBus id).sideClients lr) :
    (p.audioBus_addClient id lr c).audioBusMap = p.audioBusMap := by
  rw [audioBus_addClient_map p id lr c h]
  unfold KonfytProject.audioBus_getBus at hc
  have hv : (if lr = portLeftRight.leftPort then
          (if !(p.audioBusMap.value id).leftOutClients.contains c then
            { p.audioBusMap.value id with
              leftOutClients := (p.audioBusMap.value id).leftOutClients ++ [c] }
           else p.audioBusMap.value id)
        else
          (if !(p.audioBusMap.value id).rightOutClients.contains c then
            { p.audioBusMap.value id with
              rightOutClients := (p.audioBusMap.value id).rightOutClients ++ [c] }
           else p.audioBusMap.value id)) = p.audioBusMap.value id := by
    cases lr <;> simp [PrjAudioBus.sideClients] at hc <;> simp [hc]
  rw [hv]
  exact QMap.insert_value_self _ _ h

theorem audioInPort_addClient_present (p : KonfytProject) (id : Int) (lr : portLeftRight)
    (c : String) (h : p.audioInPortMap.contains id = true)
    (hc : c ∈ (p.audioInPort_getPort id).sideClients lr) :
    (p.audioInPort_addClient id lr c).audioInPortMap = p.audioInPortMap := by
  rw [audioInPort_addClient_map p id lr c h]
  unfold KonfytProject.audioInPort_getPort at hc
  have hv : (if lr = portLeftRight.leftPort then
          (if !(p.audioInPortMap.value id).leftInClients.contains c then
            { p.audioInPortMap.value id with
              leftInClients := (p.audioInPortMap.value id).leftInClients ++ [c] }
           else p.audioInPortMap.value id)
        else
          (if !(p.audioInPortMap.value id).rightInClients.contains c then
            { p.audioInPortMap.value id with
              rightInClients := (p.audioInPortMap.value id).rightInClients ++ [c] }
           else p.audioInPortMap.value id)) = p.audioInPortMap.value id := by
    cases lr <;> simp [PrjAudioInPort.sideClients] at hc <;> simp [hc]
  rw [hv]
  exact QMap.insert_value_self _ _ h

/-- C1, as stated, fails: on a bus whose left client list already holds the client twice,
two calls of `audioBus_addClient` leave the client in the list twice, not exactly once. -/
theorem audioBus_addClient_twice_keeps_duplicates :
    projectWithDuplicateClient.audioBusMap.contains 0 = true ∧
    ((((projectWithDuplicateClient.audioBus_addClient 0 portLeftRight.leftPort
          "system:playback_1").audioBus_addClient 0 portLeftRight.leftPort
          "system:playback_1").audioBus_getBus 0).sideClients portLeftRight.leftPort).count
        "system:playback_1" = 2 := by
  decide

/-- C1 (amended): for every project, every existing audio bus id (resp. audio input port
id), either side and every client `c`, after two calls of `audioBus_addClient` (resp.
`audioInPort_addClient`) with the same arguments the port map, and so that side's client
list, equals the one after the first call; the list contains `c`, as often as before the
calls when it was present and once when it was absent, hence exactly once whenever `c`
occurred at most once before. -/
theorem audio_addClient_twice (p : KonfytProject) (id : Int) (lr : portLeftRight) (c : String) :
    (p.audioBusMap.contains id = true →
      ((p.audioBus_addClient id lr c).audioBus_addClient id lr c).audioBusMap =
        (p.audioBus_addClient id lr c).audioBusMap ∧
      (((p.audioBus_addClient id lr c).audioBus_addClient id lr c).audioBus_getBus id).sideClients lr =
        ((p.audioBus_addClient id lr c).audioBus_getBus id).sideClients lr ∧
      c ∈ (((p.audioBus_addClient id lr c).audioBus_addClient id lr c).audioBus_getBus id).sideClients lr ∧
      ((((p.audioBus_addClient id lr c).audioBus_addClient id lr c).audioBus_getBus id).sideClients
          lr).count c = max 1 (((p.audioBus_getBus id).sideClients lr).count c) ∧
      (((p.audioBus_getBus id).sideClients lr).count c ≤ 1 →
        ((((p.audioBus_addClient id lr c).audioBus_addClient id lr c).audioBus_getBus id).sideClients
          lr).count c = 1)) ∧
    (p.audioInPortMap.contains id = true →
      ((p.audioInPort_addClient id lr c).audioInPort_addClient id lr c).audioInPortMap =
        (p.audioInPort_addClient id lr c).audioInPortMap ∧
      (((p.audioInPort_addClient id lr c).audioInPort_addClient id lr c).audioInPort_getPort
          id).sideClients lr =
        ((p.audioInPort_addClient id lr c).audioInPort_getPort id).sideClients lr ∧
      c ∈ (((p.audioInPort_addClient id lr c).audioInPort_addClient id lr c).audioInPort_getPort
          id).sideClients lr ∧
      ((((p.audioInPort_addClient id lr c).audioInPort_addClient id lr c).audioInPort_getPort
          id).sideClients lr).count c = max 1 (((p.audioInPort_getPort id).sideClients lr).count c) ∧
      (((p.audioInPort_getPort id).sideClients lr).count c ≤ 1 →
        ((((p.audioInPort_addClient id lr c).audioInPort_addClient id lr c).audioInPort_getPort
          id).sideClients lr).count c = 1)) := by
  constructor
  · intro h
    have h1 := audioBus_addClient_contains p id lr c h
    have hs := audioBus_addClient_side p id lr c h
    have hmem : c ∈ ((p.audioBus_addClient id lr c).audioBus_getBus id).sideClients lr := by
      rw [hs]; exact (addOnce_spec _ c).1
    have hmap := audioBus_addClient_present (p.audioBus_addClient id lr c) id lr c h1 hmem
    have hside : (((p.audioBus_addClient id lr c).audioBus_addClient id lr c).audioBus_getBus
        id).sideClients lr = ((p.audioBus_addClient id lr c).audioBus_getBus id).sideClients lr := by
      unfold KonfytProject.audioBus_getBus
      rw [hmap]
    have hcount : ((((p.audioBus_addClient id lr c).audioBus_addClient id lr c).audioBus_getBus
        id).sideClients lr).count c = max 1 (((p.audioBus_getBus id).sideClients lr).count c) := by
      rw [hside, hs]; exact (addOnce_spec _ c).2
    refine ⟨hmap, hside, hside ▸ hmem, hcount, ?_⟩
    intro hle
    rw [hcount]
    omega
  · intro h
    have h1 := audioInPort_addClient_contains p id lr c h
    have hs := audioInPort_addClient_side p id lr c h
    have hmem : c ∈ ((p.audioInPort_addClient id lr c).audioInPort_getPort id).sideClients lr := by
      rw [hs]; exact (addOnce_spec _ c).1
    have hmap := audioInPort_addClient_present (p.audioInPort_addClient id lr c) id lr c h1 hmem
    have hside : (((p.audioInPort_addClient id lr c).audioInPort_addClient id lr
        c).audioInPort_getPort id).sideClients lr =
        ((p.audioInPort_addClient id lr c).audioInPort_getPort id).sideClients lr := by
      unfold KonfytProject.audioInPort_getPort
      rw [hmap]
    have hcount : ((((p.audioInPort_addClient id lr c).audioInPort_addClient id lr
        c).audioInPort_getPort id).sideClients lr).count c =
        max 1 (((p.audioInPort_getPort id).sideClients lr).count c) := by
      rw [hside, hs]; exact (addOnce_spec _ c).2
    refine ⟨hmap, hside, hside ▸ hmem, hcount, ?_⟩
    intro hle
    rw [hcount]
    omega

/-- Witness of `audio_addClient_twice`: the freshly constructed project with one added audio
input port, client "system:playback_1" on the left side of bus 0 and of port 0. -/
theorem audio_addClient_twice_witness :
    (KonfytProject.new.audioBusMap.contains 0 = true ∧
      ((((KonfytProject.new.audioBus_addClient 0 portLeftRight.leftPort
          "system:playback_1").audioBus_addClient 0 portLeftRight.leftPort
          "system:playback_1").audioBus_getBus 0).sideClients portLeftRight.leftPort).count
        "system:playback_1" = 1) ∧
    ((KonfytProject.new.audioInPort_add "In").2.audioInPortMap.contains 0 = true ∧
      (((((KonfytProject.new.audioInPort_add "In").2.audioInPort_addClient 0 portLeftRight.leftPort
          "system:playback_1").audioInPort_addClient 0 portLeftRight.leftPort
          "system:playback_1").audioInPort_getPort 0).sideClients portLeftRight.leftPort).count
        "system:playback_1" = 1) :=
  ⟨⟨by decide,
    ((audio_addClient_twice KonfytProject.new 0 portLeftRight.leftPort
      "system:playback_1").1 (by decide)).2.2.2.2 (by decide)⟩,
   ⟨by decide,
    ((audio_addClient_twice (KonfytProject.new.audioInPort_add "In").2 0 portLeftRight.leftPort
      "system:playback_1").2 (by decide)).2.2.2.2 (by decide)⟩⟩

/-- Both `midiInPort_addClient` and `midiOutPort_addClient` append the client whether or not the
list already holds it. -/
theorem midi_addClient_appends (p : KonfytProject) (id : Int) (c : String) :
    (p.midiInPortMap.contains id = true →
      (p.midiInPort_addClient id c).midiInPort_getClients id = p.midiInPort_getClients id ++ [c]) ∧
    (p.midiOutPortMap.contains id = true →
      (p.midiOutPort_addClient id c).midiOutPort_getClients id =
        p.midiOutPort_getClients id ++ [c]) := by
  constructor
  · intro h
    simp [KonfytProject.midiInPort_addClient, KonfytProject.midiInPort_getClients,
      KonfytProject.midiInPort_exists, h, KonfytProject.setModified, QMap.value_insert_self,
      QMap.contains_insert_self]
  · intro h
    simp [KonfytProject.midiOutPort_addClient, KonfytProject.midiOutPort_getClients, h,
      KonfytProject.setModified, QMap.value_insert_self]

/-- C2 (the code at the failing input): on the freshly constructed project, two calls of
`midiInPort_addClient` for port 0 with the client "system:midi_capture_1" leave the client
list with two entries equal to the client; likewise `midiOutPort_addClient` on a newly added
MIDI output port 0. -/
theorem midi_addClient_twice_two_entries :
    ((KonfytProject.new.midiInPort_addClient 0 "system:midi_capture_1").midiInPort_addClient 0
        "system:midi_capture_1").midiInPort_getClients 0 =
      ["system:midi_capture_1", "system:midi_capture_1"] ∧
    (((KonfytProject.new.midiOutPort_addPort "Out").2.midiOutPort_addClient 0
        "system:midi_playback_1").midiOutPort_addClient 0
        "system:midi_playback_1").midiOutPort_getClients 0 =
      ["system:midi_playback_1", "system:midi_playback_1"] := by
  decide

/-- C3, as stated, fails: on a project whose modified flag is clear, removing a client that
bus 0 does not list sets the modified flag. -/
theorem removeClient_absent_sets_modified :
    (KonfytProject.new.setModified false).audioBusMap.contains 0 = true ∧
    "system:playback_1" ∉
      ((KonfytProject.new.setModified false).audioBus_getBus 0).sideClients portLeftRight.leftPort ∧
    (KonfytProject.new.setModified false).modified = false ∧
    ((KonfytProject.new.setModified false).audioBus_removeClient 0 portLeftRight.leftPort
      "system:playback_1").modified = true := by
  decide

/-- C3 (amended): for every project, every existing port/bus id and every client `c` that
is not in the addressed client list, `audioBus_removeClient`, `audioInPort_removeClient`,
`midiInPort_removeClient` and `midiOutPort_removeClient` change nothing but the modified
flag: the resulting project is the given one with the modified flag set to true (and the
`projectModifiedChanged(true)` signal emitted), so every port map and every client list is
unchanged. -/
theorem removeClient_absent_keeps_ports (p : KonfytProject) (id : Int) (lr : portLeftRight)
    (c : String) :
    (p.audioBusMap.contains id = true → c ∉ (p.audioBus_getBus id).sideClients lr →
      p.audioBus_removeClient id lr c = p.setModified true) ∧
    (p.audioInPortMap.contains id = true → c ∉ (p.audioInPort_getPort id).sideClients lr →
      p.audioInPort_removeClient id lr c = p.setModified true) ∧
    (p.midiInPortMap.contains id = true → c ∉ p.midiInPort_getClients id →
      p.midiInPort_removeClient id c = p.setModified true) ∧
    (p.midiOutPortMap.contains id = true → c ∉ p.midiOutPort_getClients id →
      p.midiOutPort_removeClient id c = p.setModified true) := by
  refine ⟨?_, ?_, ?_, ?_⟩
  · intro h hc
    unfold KonfytProject.audioBus_getBus at hc
    have hv : (if lr = portLeftRight.leftPort then
          { p.audioBusMap.value id with
            leftOutClients := removeAll (p.audioBusMap.value id).leftOutClients c }
        else
          { p.audioBusMap.value id with
            rightOutClients := removeAll (p.audioBusMap.value id).rightOutClients c }) =
        p.audioBusMap.value id := by
      cases lr <;> simp [PrjAudioBus.sideClients] at hc <;> simp [removeAll_absent _ _ hc]
    simp only [KonfytProject.audioBus_removeClient, h, hv, QMap.insert_value_self]
    rfl
  · intro h hc
    unfold KonfytProject.audioInPort_getPort at hc
    have hv : (if lr = portLeftRight.leftPort then
          { p.audioInPortMap.value id with
            leftInClients := removeAll (p.audioInPortMap.value id).leftInClients c }
        else
          { p.audioInPortMap.value id with
            rightInClients := removeAll (p.audioInPortMap.value id).rightInClients c }) =
        p.audioInPortMap.value id := by
      cases lr <;> simp [PrjAudioInPort.sideClients] at hc <;> simp [removeAll_absent _ _ hc]
    simp only [KonfytProject.audioInPort_removeClient, h, hv, QMap.insert_value_self]
    rfl
  · intro h hc
    simp only [KonfytProject.midiInPort_getClients, KonfytProject.midiInPort_exists, h] at hc
    have hc2 : c ∉ (p.midiInPortMap.value id).clients := by simpa using hc
    have hv : ({ p.midiInPortMap.value id with
        clients := removeAll (p.midiInPortMap.value id).clients c } : PrjMidiPort) =
        p.midiInPortMap.value id := by
      rw [removeAll_absent _ _ hc2]
    simp only [KonfytProject.midiInPort_removeClient, KonfytProject.midiInPort_exists, h, hv,
      QMap.insert_value_self]
    rfl
  · intro h hc
    simp only [KonfytProject.midiOutPort_getClients] at hc
    have hv : ({ p.midiOutPortMap.value id with
        clients := removeAll (p.midiOutPortMap.value id).clients c } : PrjMidiPort) =
        p.midiOutPortMap.value id := by
      rw [removeAll_absent _ _ hc]
    simp only [KonfytProject.midiOutPort_removeClient, h, hv, QMap.insert_value_self]
    rfl

/-- Witness of `removeClient_absent_keeps_ports`: the freshly constructed project with one
added audio input port and one added MIDI output port, all with empty client lists. -/
theorem removeClient_absent_keeps_ports_witness :
    ((KonfytProject.new.audioInPort_add "In").2.midiOutPort_addPort "Out").2.audioBus_removeClient 0
        portLeftRight.leftPort "system:playback_1" =
      ((KonfytProject.new.audioInPort_add "In").2.midiOutPort_addPort "Out").2.setModified true ∧
    ((KonfytProject.new.audioInPort_add "In").2.midiOutPort_addPort "Out").2.audioInPort_removeClient
        0 portLeftRight.rightPort "system:capture_1" =
      ((KonfytProject.new.audioInPort_add "In").2.midiOutPort_addPort "Out").2.setModified true ∧
    ((KonfytProject.new.audioInPort_add "In").2.midiOutPort_addPort "Out").2.midiInPort_removeClient
        0 "system:midi_capture_1" =
      ((KonfytProject.new.audioInPort_add "In").2.midiOutPort_addPort "Out").2.setModified true ∧
    ((KonfytProject.new.audioInPort_add "In").2.midiOutPort_addPort "Out").2.midiOutPort_removeClient
        0 "system:midi_playback_1" =
      ((KonfytProject.new.audioInPort_add "In").2.midiOutPort_addPort "Out").2.setModified true :=
  ⟨(removeClient_absent_keeps_ports _ 0 portLeftRight.leftPort "system:playback_1").1
      (by decide) (by decide),
   (removeClient_absent_keeps_ports _ 0 portLeftRight.rightPort "system:capture_1").2.1
      (by decide) (by decide),
   (removeClient_absent_keeps_ports _ 0 portLeftRight.leftPort "system:midi_capture_1").2.2.1
      (by decide) (by decide),
   (removeClient_absent_keeps_ports _ 0 portLeftRight.leftPort "system:midi_playback_1").2.2.2
      (by decide) (by decide)⟩

/-! ## The Fluidsynth engine -/

open konfytFluidsynthEngine

/-- With the mutex free and the id registered, `processJackMidi` returns, and all it does is
issue the backend calls listed here. -/
theorem processJackMidi_of_free (pb : konfytMidiEvent → Int)
    (e : konfytFluidsynthEngine) (ID : Int) (ev : konfytMidiEvent)
    (hfree : e.mutexLocked = false) (hreg : e.synthDataMap.contains ID = true) :
    e.processJackMidi pb ID ev = some { e with calls := e.calls ++
      (if ev.type = MIDI_EVENT_TYPE_NOTEON then
        [FluidCall.fluid_synth_noteon (e.synthDataMap.value ID).synth 0 ev.data1 ev.data2]
      else if ev.type = MIDI_EVENT_TYPE_NOTEOFF then
        [FluidCall.fluid_synth_noteoff (e.synthDataMap.value ID).synth 0 ev.data1]
      else if ev.type = MIDI_EVENT_TYPE_CC then
        (if ev.data1 = MIDI_CC_ALL_NOTES_OFF then
          [FluidCall.fluid_synth_cc (e.synthDataMap.value ID).synth 0 ev.data1 ev.data2,
           FluidCall.fluid_synth_all_sounds_off (e.synthDataMap.value ID).synth 0]
         else [FluidCall.fluid_synth_cc (e.synthDataMap.value ID).synth 0 ev.data1 ev.data2])
      else if ev.type = MIDI_EVENT_TYPE_PITCHBEND then
        [FluidCall.fluid_synth_pitch_bend (e.synthDataMap.value ID).synth 0 (pb ev + 8192)]
      else []) } := by
  have hP : ev.type ≠ MIDI_EVENT_TYPE_PROGRAM ∨ ev.type ≠ MIDI_EVENT_TYPE_SYSTEM := by
    by_cases h : ev.type = MIDI_EVENT_TYPE_PROGRAM
    · right; rw [h]; decide
    · left; exact h
  obtain ⟨m, cnt, sr, lk, calls, msgs⟩ := e
  simp only at hfree hreg
  subst hfree
  simp only [processJackMidi, hreg, MIDI_CHANNEL_0, Bool.false_eq_true, if_false, Bool.not_true,
    if_pos hP]
  split_ifs <;> simp

/-- C4: for every registered synth id and every MIDI event, when the engine mutex is free,
`processJackMidi` returns and every backend call it issues carries channel 0; an event that
differs from the given one only in its channel field (the accessor `pitchbendValue_signed`
not reading the channel) leads to the same backend calls and the same engine state. -/
theorem processJackMidi_channel_zero (pb : konfytMidiEvent → Int)
    (e : konfytFluidsynthEngine) (ID : Int) (ev : konfytMidiEvent)
    (hfree : e.mutexLocked = false) (hreg : e.synthDataMap.contains ID = true) :
    ∃ e' issued, e.processJackMidi pb ID ev = some e' ∧ e'.calls = e.calls ++ issued ∧
      (∀ c ∈ issued, c.chan? = some 0) ∧
      (∀ ch : Int, pb { ev with channel := ch } = pb ev →
         e.processJackMidi pb ID { ev with channel := ch } = some e') := by
  refine ⟨_, _, processJackMidi_of_free pb e ID ev hfree hreg, rfl, ?_, ?_⟩
  · intro c hc
    split_ifs at hc <;> simp at hc <;> rcases hc with rfl | rfl <;> rfl
  · intro ch hpb
    rw [processJackMidi_of_free pb e ID _ hfree hreg, hpb]

/-- C5: for every MIDI event and synth id, if the engine mutex is held when
`processJackMidi` is called, the call returns with the engine exactly as it was: no backend
call is issued, the mutex is still held and the registry is unchanged. -/
theorem processJackMidi_locked_drops (pb : konfytMidiEvent → Int)
    (e : konfytFluidsynthEngine) (ID : Int) (ev : konfytMidiEvent)
    (hheld : e.mutexLocked = true) :
    e.processJackMidi pb ID ev = some e ∧
    ∀ e', e.processJackMidi pb ID ev = some e' →
      e'.calls = e.calls ∧ e'.mutexLocked = true ∧ e'.synthDataMap = e.synthDataMap ∧
      e'.synthUniqueIDCounter = e.synthUniqueIDCounter := by
  have h : e.processJackMidi pb ID ev = some e := by simp [processJackMidi, hheld]
  refine ⟨h, ?_⟩
  intro e' he
  rw [h] at he
  cases he
  exact ⟨rfl, hheld, rfl, rfl⟩

/-- C6: for every synth id, buffers and length, if the engine mutex is held when
`fluidsynthWriteFloat` is called, the call returns 0 with both buffers and the engine (its
mutex and its log of backend calls) as they were; if the mutex is free and the id is
registered, it returns the value of the one backend render call for the registered synth,
the length and the two buffers, and the mutex is free again. -/
theorem fluidsynthWriteFloat_contract {Sample : Type}
    (render : Option Nat → Int → List Sample → List Sample → Int × List Sample × List Sample)
    (e : konfytFluidsynthEngine) (ID : Int) (left right : List Sample) (len : Int) :
    (e.mutexLocked = true →
      e.fluidsynthWriteFloat render ID left right len = some (0, left, right, e)) ∧
    (e.mutexLocked = false → e.synthDataMap.contains ID = true →
      ∃ e', e.fluidsynthWriteFloat render ID left right len =
          some ((render (e.synthDataMap.value ID).synth len left right).1,
            (render (e.synthDataMap.value ID).synth len left right).2.1,
            (render (e.synthDataMap.value ID).synth len left right).2.2, e') ∧
        e'.calls = e.calls ++
          [FluidCall.fluid_synth_write_float (e.synthDataMap.value ID).synth len] ∧
        e'.mutexLocked = false ∧ e'.synthDataMap = e.synthDataMap) := by
  constructor
  · intro hheld
    simp [fluidsynthWriteFloat, hheld]
  · intro hfree hreg
    refine ⟨{ e with
        calls := e.calls ++
          [FluidCall.fluid_synth_write_float (e.synthDataMap.value ID).synth len],
        mutexLocked := false }, ?_, rfl, rfl, rfl⟩
    simp only [fluidsynthWriteFloat, hfree, hreg]
    rfl

/-- Witness of `processJackMidi_channel_zero`: the all-notes-off controller received on
channel 5 by the engine with one synth. -/
theorem processJackMidi_channel_zero_witness :
    engineWithOneSynth.mutexLocked = false ∧ engineWithOneSynth.synthDataMap.contains 0 = true ∧
    ∃ e' issued,
      engineWithOneSynth.processJackMidi pitchbendFromData 0
          { type := MIDI_EVENT_TYPE_CC, channel := 5, data1 := 123, data2 := 0 } = some e' ∧
      e'.calls = engineWithOneSynth.calls ++ issued ∧
      (∀ c ∈ issued, c.chan? = some 0) ∧
      (∀ ch : Int,
        pitchbendFromData
            { ({ type := MIDI_EVENT_TYPE_CC, channel := 5, data1 := 123, data2 := 0 } :
                konfytMidiEvent) with channel := ch } =
          pitchbendFromData { type := MIDI_EVENT_TYPE_CC, channel := 5, data1 := 123, data2 := 0 } →
        engineWithOneSynth.processJackMidi pitchbendFromData 0
            { ({ type := MIDI_EVENT_TYPE_CC, channel := 5, data1 := 123, data2 := 0 } :
                konfytMidiEvent) with channel := ch } = some e') :=
  ⟨by decide, by decide,
    processJackMidi_channel_zero pitchbendFromData engineWithOneSynth 0
      { type := MIDI_EVENT_TYPE_CC, channel := 5, data1 := 123, data2 := 0 }
      (by decide) (by decide)⟩

/-- Witness of `processJackMidi_locked_drops`: a note-on for the engine with one synth while
the mutex is held. -/
theorem processJackMidi_locked_drops_witness :
    ({ engineWithOneSynth with mutexLocked := true } : konfytFluidsynthEngine).mutexLocked = true ∧
    ({ engineWithOneSynth with mutexLocked := true } : konfytFluidsynthEngine).processJackMidi
        pitchbendFromData 0 { type := MIDI_EVENT_TYPE_NOTEON, data1 := 60, data2 := 100 } =
      some { engineWithOneSynth with mutexLocked := true } :=
  ⟨by decide,
    (processJackMidi_locked_drops pitchbendFromData { engineWithOneSynth with mutexLocked := true }
      0 { type := MIDI_EVENT_TYPE_NOTEON, data1 := 60, data2 := 100 } (by decide)).1⟩

/-- Witness of `fluidsynthWriteFloat_contract`: two buffers of two samples and a backend
that fills them with 1 and 2 and returns -1: with the mutex held the call returns 0 and
leaves the buffers, with the mutex free it returns the backend's -1 and buffers. -/
theorem fluidsynthWriteFloat_contract_witness :
    (({ engineWithOneSynth with mutexLocked := true } : konfytFluidsynthEngine).mutexLocked = true ∧
      ({ engineWithOneSynth with mutexLocked := true } : konfytFluidsynthEngine).fluidsynthWriteFloat
          (fun _ _ (_ _ : List Int) => (-1, [1, 1], [2, 2])) 0 [0, 0] [0, 0] 2 =
        some (0, [0, 0], [0, 0], { engineWithOneSynth with mutexLocked := true })) ∧
    (engineWithOneSynth.mutexLocked = false ∧ engineWithOneSynth.synthDataMap.contains 0 = true ∧
      ∃ e', engineWithOneSynth.fluidsynthWriteFloat
            (fun _ _ (_ _ : List Int) => (-1, [1, 1], [2, 2])) 0 [0, 0] [0, 0] 2 =
          some (-1, [1, 1], [2, 2], e') ∧
        e'.calls = engineWithOneSynth.calls ++
          [FluidCall.fluid_synth_write_float (engineWithOneSynth.synthDataMap.value 0).synth 2] ∧
        e'.mutexLocked = false ∧ e'.synthDataMap = engineWithOneSynth.synthDataMap) :=
  ⟨⟨by decide,
    (fluidsynthWriteFloat_contract (fun _ _ (_ _ : List Int) => (-1, [1, 1], [2, 2]))
      { engineWithOneSynth with mutexLocked := true } 0 [0, 0] [0, 0] 2).1 (by decide)⟩,
   ⟨by decide, by decide,
    (fluidsynthWriteFloat_contract (fun _ _ (_ _ : List Int) => (-1, [1, 1], [2, 2]))
      engineWithOneSynth 0 [0, 0] [0, 0] 2).2 (by decide) (by decide)⟩⟩

/-- C7: for every soundfont program `p`, if settings creation, synth creation or soundfont
loading fails, `addSoundfontProgram` returns -1, emits one user message and leaves the
registry `synthDataMap` and the unique-id counter as they were. -/
theorem addSoundfontProgram_failure (lib : FluidsynthCreate) (e : konfytFluidsynthEngine)
    (p : konfytSoundfontProgram)
    (hfail : lib.new_fluid_settings = none ∨
      lib.new_fluid_synth lib.new_fluid_settings = none ∨
      lib.fluid_synth_sfload (lib.new_fluid_synth lib.new_fluid_settings) p.parent_soundfont
        = -1) :
    (e.addSoundfontProgram lib p).1 = -1 ∧
    (∃ msg, (e.addSoundfontProgram lib p).2.userMessages = e.userMessages ++ [msg]) ∧
    (e.addSoundfontProgram lib p).2.synthDataMap = e.synthDataMap ∧
    (e.addSoundfontProgram lib p).2.synthUniqueIDCounter = e.synthUniqueIDCounter := by
  unfold addSoundfontProgram
  by_cases h1 : lib.new_fluid_settings = none
  · simp [h1, userMessage]
  · by_cases h2 : lib.new_fluid_synth lib.new_fluid_settings = none
    · simp [h1, h2, userMessage]
    · have h3 : lib.fluid_synth_sfload (lib.new_fluid_synth lib.new_fluid_settings)
          p.parent_soundfont = -1 := by
        rcases hfail with h | h | h
        · exact absurd h h1
        · exact absurd h h2
        · exact h
      simp [h1, h2, h3, userMessage]

/-- Witness of `addSoundfontProgram_failure`: the soundfont of the second program cannot be
loaded. -/
theorem addSoundfontProgram_failure_witness :
    (engineWithOneSynth.addSoundfontProgram backendLoadFails
        { name := "Organ", parent_soundfont := "missing.sf2" }).1 = -1 ∧
    (∃ msg, (engineWithOneSynth.addSoundfontProgram backendLoadFails
        { name := "Organ", parent_soundfont := "missing.sf2" }).2.userMessages =
      engineWithOneSynth.userMessages ++ [msg]) ∧
    (engineWithOneSynth.addSoundfontProgram backendLoadFails
        { name := "Organ", parent_soundfont := "missing.sf2" }).2.synthDataMap =
      engineWithOneSynth.synthDataMap ∧
    (engineWithOneSynth.addSoundfontProgram backendLoadFails
        { name := "Organ", parent_soundfont := "missing.sf2" }).2.synthUniqueIDCounter =
      engineWithOneSynth.synthUniqueIDCounter :=
  addSoundfontProgram_failure backendLoadFails engineWithOneSynth
    { name := "Organ", parent_soundfont := "missing.sf2" } (Or.inr (Or.inr (by decide)))

theorem insertEntry_length_fresh {V : Type} (k : Int) (v : V) (l : List (Int × V))
    (h : k ∉ entryKeys l) : (insertEntry k v l).length = l.length + 1 := by
  induction l with
  | nil => simp [insertEntry]
  | cons e rest ih =>
    have hk : ¬ k = e.1 := by
      intro hk; apply h; simp [entryKeys, hk]
    have hr : k ∉ entryKeys rest := by
      intro hr; apply h
      simp only [entryKeys, List.map_cons, List.mem_cons] at hr ⊢
      exact Or.inr hr
    unfold insertEntry
    by_cases h1 : k < e.1
    · rw [if_pos h1]; simp
    · rw [if_neg h1, if_neg hk]
      simp [ih hr]

theorem QMap.count_insert_fresh {V : Type} (m : QMap V) (k : Int) (v : V)
    (h : m.contains k = false) : (m.insert k v).count = m.count + 1 := by
  have hk : k ∉ entryKeys m.entries := by
    intro hk
    rw [(QMap.contains_iff m k).2 hk] at h
    exact Bool.noConfusion h
  simp [QMap.count, QMap.insert, insertEntry_length_fresh k v m.entries hk]

theorem QMap.keys_remove_mem {V : Type} (m : QMap V) (k x : Int) (h : x ∈ (m.remove k).keys) :
    x ∈ m.keys :=
  (entryKeys_removeEntry_sublist k m.entries).subset h

/-- When every backend step succeeds, `addSoundfontProgram` returns the old counter value,
registers the new record under it and increments the counter. -/
theorem addSoundfontProgram_of_success (lib : FluidsynthCreate) (e : konfytFluidsynthEngine)
    (p : konfytSoundfontProgram)
    (h1 : lib.new_fluid_settings ≠ none)
    (h2 : lib.new_fluid_synth lib.new_fluid_settings ≠ none)
    (h3 : lib.fluid_synth_sfload (lib.new_fluid_synth lib.new_fluid_settings) p.parent_soundfont
      ≠ -1) :
    (e.addSoundfontProgram lib p).1 = e.synthUniqueIDCounter ∧
    (e.addSoundfontProgram lib p).2.synthDataMap =
      e.synthDataMap.insert e.synthUniqueIDCounter
        { ID := e.synthUniqueIDCounter, synth := lib.new_fluid_synth lib.new_fluid_settings,
          settings := lib.new_fluid_settings, program := p,
          soundfontIDinSynth :=
            lib.fluid_synth_sfload (lib.new_fluid_synth lib.new_fluid_settings)
              p.parent_soundfont } ∧
    (e.addSoundfontProgram lib p).2.synthUniqueIDCounter = e.synthUniqueIDCounter + 1 := by
  unfold addSoundfontProgram
  simp [h1, h2, h3]

theorem registryInvariant_new : konfytFluidsynthEngine.new.registryInvariant := by
  simp [registryInvariant, konfytFluidsynthEngine.new, QMap.keys, QMap.empty, entryKeys]

theorem registryInvariant_not_contains (e : konfytFluidsynthEngine) (hinv : e.registryInvariant)
    (k : Int) (hk : e.synthUniqueIDCounter ≤ k) : e.synthDataMap.contains k = false := by
  cases hc : e.synthDataMap.contains k with
  | false => rfl
  | true =>
    have := hinv.2 k ((QMap.contains_iff _ _).1 hc)
    omega

/-- A failed `addSoundfontProgram` returns -1 and keeps the registry and the counter. -/
theorem addSoundfontProgram_failure_state (lib : FluidsynthCreate) (e : konfytFluidsynthEngine)
    (p : konfytSoundfontProgram)
    (hfail : lib.new_fluid_settings = none ∨
      lib.new_fluid_synth lib.new_fluid_settings = none ∨
      lib.fluid_synth_sfload (lib.new_fluid_synth lib.new_fluid_settings) p.parent_soundfont
        = -1) :
    (e.addSoundfontProgram lib p).1 = -1 ∧
    (e.addSoundfontProgram lib p).2.synthDataMap = e.synthDataMap ∧
    (e.addSoundfontProgram lib p).2.synthUniqueIDCounter = e.synthUniqueIDCounter := by
  unfold addSoundfontProgram
  rcases hfail with h | h | h
  · simp [h, userMessage]
  · by_cases h1 : lib.new_fluid_settings = none
    · simp [h1, userMessage]
    · simp [h1, h, userMessage]
  · by_cases h1 : lib.new_fluid_settings = none
    · simp [h1, userMessage]
    · by_cases h2 : lib.new_fluid_synth lib.new_fluid_settings = none
      · simp [h1, h2, userMessage]
      · simp [h1, h2, h, userMessage]

/-- What one call of `addSoundfontProgram` does to the invariant and the counter. -/
theorem addSoundfontProgram_step (lib : FluidsynthCreate) (e : konfytFluidsynthEngine)
    (p : konfytSoundfontProgram) (hinv : e.registryInvariant) :
    (e.addSoundfontProgram lib p).2.registryInvariant ∧
    (((e.addSoundfontProgram lib p).1 = -1 ∧
        (e.addSoundfontProgram lib p).2.synthUniqueIDCounter = e.synthUniqueIDCounter) ∨
     ((e.addSoundfontProgram lib p).1 = e.synthUniqueIDCounter ∧
        (e.addSoundfontProgram lib p).2.synthUniqueIDCounter = e.synthUniqueIDCounter + 1)) := by
  by_cases hfail : lib.new_fluid_settings = none ∨
      lib.new_fluid_synth lib.new_fluid_settings = none ∨
      lib.fluid_synth_sfload (lib.new_fluid_synth lib.new_fluid_settings) p.parent_soundfont
        = -1
  · obtain ⟨hr, hm, hc⟩ := addSoundfontProgram_failure_state lib e p hfail
    refine ⟨?_, Or.inl ⟨hr, hc⟩⟩
    unfold registryInvariant
    rw [hm, hc]
    exact hinv
  · simp only [not_or] at hfail
    obtain ⟨hr, hm, hc⟩ := addSoundfontProgram_of_success lib e p hfail.1 hfail.2.1 hfail.2.2
    refine ⟨?_, Or.inr ⟨hr, hc⟩⟩
    unfold registryInvariant
    rw [hm, hc]
    refine ⟨by have := hinv.1; omega, ?_⟩
    intro k hk
    rcases (QMap.keys_insert_mem _ _ _ k).1 hk with rfl | hk
    · omega
    · have := hinv.2 k hk
      omega

/-- What `removeSoundfontProgram` does to the invariant and the counter. -/
theorem removeSoundfontProgram_step (e e' : konfytFluidsynthEngine) (ID : Int)
    (hinv : e.registryInvariant) (h : e.removeSoundfontProgram ID = some e') :
    e'.registryInvariant ∧ e'.synthUniqueIDCounter = e.synthUniqueIDCounter ∧
    e'.synthDataMap = e.synthDataMap.remove ID := by
  unfold removeSoundfontProgram at h
  by_cases hc : e.synthDataMap.contains ID = true
  · simp only [hc, Bool.not_true, Bool.false_eq_true, if_false, Option.some.injEq] at h
    subst h
    refine ⟨⟨hinv.1, ?_⟩, rfl, rfl⟩
    intro k hk
    exact hinv.2 k (QMap.keys_remove_mem _ ID k hk)
  · simp [hc] at h

theorem runRegistryCalls_increasing (calls : List RegistryCall) :
    ∀ e : konfytFluidsynthEngine, e.registryInvariant →
      (runRegistryCalls calls e).1.Pairwise (fun a b => a < b) ∧
      ∀ id ∈ (runRegistryCalls calls e).1, e.synthUniqueIDCounter ≤ id := by
  induction calls with
  | nil =>
    intro e _
    simp [runRegistryCalls]
  | cons c rest ih =>
    intro e hinv
    cases c with
    | add lib p =>
      obtain ⟨hinv', hstep⟩ := addSoundfontProgram_step lib e p hinv
      obtain ⟨hpw, hge⟩ := ih _ hinv'
      simp only [runRegistryCalls]
      rcases hstep with ⟨hr, hc⟩ | ⟨hr, hc⟩
      · rw [if_pos hr]
        refine ⟨hpw, ?_⟩
        intro id hid
        have := hge id hid
        omega
      · have hne : ¬ (e.addSoundfontProgram lib p).1 = -1 := by
          have := hinv.1
          omega
        rw [if_neg hne]
        refine ⟨List.pairwise_cons.2 ⟨?_, hpw⟩, ?_⟩
        · intro id hid
          have := hge id hid
          omega
        · intro id hid
          rcases List.mem_cons.1 hid with rfl | hid
          · omega
          · have := hge id hid
            omega
    | remove ID =>
      simp only [runRegistryCalls]
      cases hrem : e.removeSoundfontProgram ID with
      | none => simp
      | some e' =>
        obtain ⟨hinv', hc, -⟩ := removeSoundfontProgram_step e e' ID hinv hrem
        obtain ⟨hpw, hge⟩ := ih _ hinv'
        refine ⟨hpw, ?_⟩
        intro id hid
        have := hge id hid
        omega

/-- C8: for every engine state that satisfies the registry invariant (the constructor
establishes it, every operation keeps it) and every program `p` for which all backend steps
succeed, `addSoundfontProgram` returns an id that was not a key of the registry, after the
call the registry has one entry more, the entry under the returned id holds `p`, and the
lookup of every other key is unchanged; in every sequence of `addSoundfontProgram` and
`removeSoundfontProgram` calls the ids returned by the successful additions are strictly
increasing and none of them was a key before the sequence, so no id is used twice. -/
theorem addSoundfontProgram_fresh_id (e : konfytFluidsynthEngine) (hinv : e.registryInvariant) :
    (∀ (lib : FluidsynthCreate) (p : konfytSoundfontProgram),
      lib.new_fluid_settings ≠ none →
      lib.new_fluid_synth lib.new_fluid_settings ≠ none →
      lib.fluid_synth_sfload (lib.new_fluid_synth lib.new_fluid_settings) p.parent_soundfont
        ≠ -1 →
      (e.addSoundfontProgram lib p).1 ≠ -1 ∧
      e.synthDataMap.contains (e.addSoundfontProgram lib p).1 = false ∧
      (e.addSoundfontProgram lib p).2.synthDataMap.contains (e.addSoundfontProgram lib p).1
        = true ∧
      ((e.addSoundfontProgram lib p).2.synthDataMap.value
        (e.addSoundfontProgram lib p).1).program = p ∧
      (e.addSoundfontProgram lib p).2.synthDataMap.count = e.synthDataMap.count + 1 ∧
      (∀ k, k ≠ (e.addSoundfontProgram lib p).1 →
        (e.addSoundfontProgram lib p).2.synthDataMap.find? k = e.synthDataMap.find? k) ∧
      (e.addSoundfontProgram lib p).2.registryInvariant) ∧
    (∀ calls : List RegistryCall,
      (runRegistryCalls calls e).1.Pairwise (fun a b => a < b) ∧
      ∀ id ∈ (runRegistryCalls calls e).1, e.synthDataMap.contains id = false) := by
  constructor
  · intro lib p h1 h2 h3
    obtain ⟨hr, hm, -⟩ := addSoundfontProgram_of_success lib e p h1 h2 h3
    have hfresh := registryInvariant_not_contains e hinv e.synthUniqueIDCounter (le_refl _)
    rw [hr, hm]
    refine ⟨?_, hfresh, QMap.contains_insert_self _ _ _, ?_, QMap.count_insert_fresh _ _ _ hfresh,
      ?_, ?_⟩
    · have := hinv.1
      omega
    · rw [QMap.value_insert_self]
    · intro k hk
      exact QMap.find?_insert_other _ _ _ _ hk
    · exact (addSoundfontProgram_step lib e p hinv).1
  · intro calls
    obtain ⟨hpw, hge⟩ := runRegistryCalls_increasing calls e hinv
    exact ⟨hpw, fun id hid => registryInvariant_not_contains e hinv id (hge id hid)⟩

/-- Witness of `addSoundfontProgram_fresh_id`: on the engine with one synth (id 0), a
successful addition, and the sequence add, remove 1, failed add, add, remove 0, add, whose
successful additions return 1, 2 and 3. -/
theorem addSoundfontProgram_fresh_id_witness :
    engineWithOneSynth.registryInvariant ∧
    ((engineWithOneSynth.addSoundfontProgram backendAllOk
        { name := "Organ", parent_soundfont := "organ.sf2" }).1 ≠ -1 ∧
      engineWithOneSynth.synthDataMap.contains
        (engineWithOneSynth.addSoundfontProgram backendAllOk
          { name := "Organ", parent_soundfont := "organ.sf2" }).1 = false) ∧
    (runRegistryCalls
        [RegistryCall.add backendAllOk { name := "Organ", parent_soundfont := "organ.sf2" },
         RegistryCall.remove 1,
         RegistryCall.add backendLoadFails { name := "Bass", parent_soundfont := "missing.sf2" },
         RegistryCall.add backendAllOk { name := "Bass", parent_soundfont := "bass.sf2" },
         RegistryCall.remove 0,
         RegistryCall.add backendAllOk { name := "Pad", parent_soundfont := "pad.sf2" }]
        engineWithOneSynth).1 = [1, 2, 3] ∧
    (runRegistryCalls
        [RegistryCall.add backendAllOk { name := "Organ", parent_soundfont := "organ.sf2" },
         RegistryCall.remove 1,
         RegistryCall.add backendLoadFails { name := "Bass", parent_soundfont := "missing.sf2" },
         RegistryCall.add backendAllOk { name := "Bass", parent_soundfont := "bass.sf2" },
         RegistryCall.remove 0,
         RegistryCall.add backendAllOk { name := "Pad", parent_soundfont := "pad.sf2" }]
        engineWithOneSynth).1.Pairwise (fun a b => a < b) :=
  ⟨by decide,
   ⟨((addSoundfontProgram_fresh_id engineWithOneSynth (by decide)).1 backendAllOk
        { name := "Organ", parent_soundfont := "organ.sf2" }
        (by decide) (by decide) (by decide)).1,
    ((addSoundfontProgram_fresh_id engineWithOneSynth (by decide)).1 backendAllOk
        { name := "Organ", parent_soundfont := "organ.sf2" }
        (by decide) (by decide) (by decide)).2.1⟩,
   by decide,
   ((addSoundfontProgram_fresh_id engineWithOneSynth (by decide)).2 _).1⟩

/-! ## Port creation in the main window -/

open MainWindow

theorem getCurrentProject_congr (w w' : MainWindow) (h1 : w'.projectList = w.projectList)
    (h2 : w'.currentProject = w.currentProject) :
    w'.getCurrentProject = w.getCurrentProject := by
  unfold getCurrentProject
  rw [h1, h2]

theorem getCurrentProject_storeCurrentProject (w : MainWindow) (prj prj' : KonfytProject)
    (h : w.getCurrentProject = some prj) :
    (w.storeCurrentProject prj').getCurrentProject = some prj' := by
  unfold getCurrentProject at h ⊢
  unfold storeCurrentProject
  simp only [List.length_set]
  by_cases h0 : w.projectList.length ≠ 0
  · rw [if_pos h0] at h ⊢
    by_cases h1 : w.currentProject < 0 ∨ w.currentProject ≥ w.projectList.length
    · rw [if_pos h1] at h; exact Option.noConfusion h
    · rw [if_neg h1] at h ⊢
      simp only [not_or, not_lt, ge_iff_le, not_le] at h1
      have hlt : w.currentProject.toNat < w.projectList.length := by omega
      simp [List.get?_eq_getElem?, List.getElem?_set, hlt]
  · rw [if_neg h0] at h; exact Option.noConfusion h

theorem audioBus_add_remove (prj : KonfytProject) (name : String)
    (hr : ∀ k ∈ prj.audioBusMap.keys, k < 2147483647) :
    ((prj.audioBus_add name).2.audioBus_remove (prj.audioBus_add name).1).audioBusMap =
      prj.audioBusMap := by
  simp [KonfytProject.audioBus_add, KonfytProject.audioBus_remove, KonfytProject.setModified,
    QMap.contains_insert_self, KonfytProject.audioBus_getUniqueId,
    QMap.remove_insert_fresh _ _ _ (getUniqueIdHelper_not_contained prj.audioBusMap hr)]

theorem audioInPort_add_remove (prj : KonfytProject) (name : String)
    (hr : ∀ k ∈ prj.audioInPortMap.keys, k < 2147483647) :
    ((prj.audioInPort_add name).2.audioInPort_remove (prj.audioInPort_add name).1).audioInPortMap
      = prj.audioInPortMap := by
  simp [KonfytProject.audioInPort_add, KonfytProject.audioInPort_remove,
    KonfytProject.setModified, QMap.contains_insert_self, KonfytProject.audioInPort_getUniqueId,
    QMap.remove_insert_fresh _ _ _ (getUniqueIdHelper_not_contained prj.audioInPortMap hr)]

theorem midiInPort_add_remove (prj : KonfytProject) (name : String)
    (hr : ∀ k ∈ prj.midiInPortMap.keys, k < 2147483647) :
    ((prj.midiInPort_addPort name).2.midiInPort_removePort
        (prj.midiInPort_addPort name).1).midiInPortMap = prj.midiInPortMap := by
  simp [KonfytProject.midiInPort_addPort, KonfytProject.midiInPort_removePort,
    KonfytProject.midiInPort_exists,
    KonfytProject.setModified, QMap.contains_insert_self, KonfytProject.midiInPort_getUniqueId,
    QMap.remove_insert_fresh _ _ _ (getUniqueIdHelper_not_contained prj.midiInPortMap hr)]

theorem midiOutPort_add_remove (prj : KonfytProject) (name : String)
    (hr : ∀ k ∈ prj.midiOutPortMap.keys, k < 2147483647) :
    ((prj.midiOutPort_addPort name).2.midiOutPort_removePort
        (prj.midiOutPort_addPort name).1).midiOutPortMap = prj.midiOutPortMap := by
  simp [KonfytProject.midiOutPort_addPort, KonfytProject.midiOutPort_removePort,
    KonfytProject.setModified, QMap.contains_insert_self, KonfytProject.midiOutPort_getUniqueId,
    QMap.remove_insert_fresh _ _ _ (getUniqueIdHelper_not_contained prj.midiOutPortMap hr)]

/-- The result of `addBus` when the left or the right registration returns null. -/
theorem addBus_of_null (t : String → Bool) (w : MainWindow) (prj : KonfytProject)
    (hprj : w.getCurrentProject = some prj)
    (hnull : (addAudioBusToJack t w.jack prj.audioBus_getUniqueId).1 = none ∨
      (addAudioBusToJack t w.jack prj.audioBus_getUniqueId).2.1 = none) :
    addBus t w = (-1,
      (({ w with jack := (addAudioBusToJack t w.jack prj.audioBus_getUniqueId).2.2 } :
          MainWindow).storeCurrentProject
        ((prj.audioBus_add ("AudioBus_" ++ n2s prj.audioBus_count)).2.audioBus_remove
          (prj.audioBus_add ("AudioBus_" ++ n2s prj.audioBus_count)).1)).userMessage
        "ERROR: Failed to create audio bus. Failed to add Jack port(s).") := by
  have hcond : ¬ ((addAudioBusToJack t w.jack
        (prj.audioBus_add ("AudioBus_" ++ n2s prj.audioBus_count)).1).1 ≠ none ∧
      (addAudioBusToJack t w.jack
        (prj.audioBus_add ("AudioBus_" ++ n2s prj.audioBus_count)).1).2.1 ≠ none) := by
    rintro ⟨h1, h2⟩
    rcases hnull with h | h
    · exact h1 h
    · exact h2 h
  simp only [addBus, hprj]
  rw [if_neg hcond]
  rfl

/-- The result of `addAudioInPort` when the left or the right registration returns null. -/
theorem addAudioInPort_of_null (t : String → Bool) (w : MainWindow) (prj : KonfytProject)
    (hprj : w.getCurrentProject = some prj)
    (hnull : (addAudioInPortsToJack t w.jack prj.audioInPort_getUniqueId).1 = none ∨
      (addAudioInPortsToJack t w.jack prj.audioInPort_getUniqueId).2.1 = none) :
    addAudioInPort t w = (-1,
      (({ w with jack := (addAudioInPortsToJack t w.jack prj.audioInPort_getUniqueId).2.2 } :
          MainWindow).userMessage
          "ERROR: Failed to create audio input port. Failed to add Jack port.").storeCurrentProject
        ((prj.audioInPort_add "New Audio In Port").2.audioInPort_remove
          (prj.audioInPort_add "New Audio In Port").1)) := by
  have hcond : ¬ ((addAudioInPortsToJack t w.jack
        (prj.audioInPort_add "New Audio In Port").1).1 ≠ none ∧
      (addAudioInPortsToJack t w.jack
        (prj.audioInPort_add "New Audio In Port").1).2.1 ≠ none) := by
    rintro ⟨h1, h2⟩
    rcases hnull with h | h
    · exact h1 h
    · exact h2 h
  simp only [addAudioInPort, hprj]
  rw [if_neg hcond]
  rfl

/-- The result of `addMidiInPort` when the registration returns null. -/
theorem addMidiInPort_of_null (t : String → Bool) (w : MainWindow) (prj : KonfytProject)
    (hprj : w.getCurrentProject = some prj)
    (hnull : (addMidiInPortToJack t w.jack prj.midiInPort_getUniqueId).1 = none) :
    addMidiInPort t w = (-1,
      (({ w with jack := (addMidiInPortToJack t w.jack prj.midiInPort_getUniqueId).2 } :
          MainWindow).userMessage
          "ERROR: Could not add MIDI input port. Failed to create JACK port.").storeCurrentProject
        ((prj.midiInPort_addPort "New MIDI In Port").2.midiInPort_removePort
          (prj.midiInPort_addPort "New MIDI In Port").1)) := by
  have hcond : ¬ ((addMidiInPortToJack t w.jack
        (prj.midiInPort_addPort "New MIDI In Port").1).1 ≠ none) := fun h => h hnull
  simp only [addMidiInPort, hprj]
  rw [if_neg hcond]
  rfl

/-- The result of `addMidiOutPort` when the registration returns null. -/
theorem addMidiOutPort_of_null (t : String → Bool) (w : MainWindow) (prj : KonfytProject)
    (hprj : w.getCurrentProject = some prj)
    (hnull : (addMidiOutPortToJack t w.jack prj.midiOutPort_getUniqueId).1 = none) :
    addMidiOutPort t w = (-1,
      (({ w with jack := (addMidiOutPortToJack t w.jack prj.midiOutPort_getUniqueId).2 } :
          MainWindow).userMessage
          "ERROR: Could not add MIDI output port. Failed to create JACK port.").storeCurrentProject
        ((prj.midiOutPort_addPort "New MIDI Out Port").2.midiOutPort_removePort
          (prj.midiOutPort_addPort "New MIDI Out Port").1)) := by
  have hcond : ¬ ((addMidiOutPortToJack t w.jack
        (prj.midiOutPort_addPort "New MIDI Out Port").1).1 ≠ none) := fun h => h hnull
  simp only [addMidiOutPort, hprj]
  rw [if_neg hcond]
  rfl

theorem addAudioPort_requests (t : String → Bool) (jack : KonfytJackEngine) (name : String)
    (isInput : Bool) :
    (jack.addAudioPort t name isInput).2.requests = jack.requests ++ [(name, isInput)] := by
  unfold KonfytJackEngine.addAudioPort
  split_ifs <;> rfl

theorem addMidiPort_requests (t : String → Bool) (jack : KonfytJackEngine) (name : String)
    (isInput : Bool) :
    (jack.addMidiPort t name isInput).2.requests = jack.requests ++ [(name, isInput)] := by
  unfold KonfytJackEngine.addMidiPort
  split_ifs <;> rfl

/-- For each of `addBus`, `addAudioInPort`, `addMidiInPort` and `addMidiOutPort` with a
current project whose ids in the map concerned are all below the largest `int`: if the JACK
port registration it performs returns null (for the stereo cases, the left or the right
one), the function returns -1, appends one user message, has made one registration request
per port (no retry), and the corresponding id-to-port map of the current project equals the
map before the call. -/
theorem addPort_registration_null_of_inRange (t : String → Bool) (w : MainWindow)
    (prj : KonfytProject) (hprj : w.getCurrentProject = some prj) :
    ((∀ k ∈ prj.audioBusMap.keys, k < 2147483647) →
      ((addAudioBusToJack t w.jack prj.audioBus_getUniqueId).1 = none ∨
        (addAudioBusToJack t w.jack prj.audioBus_getUniqueId).2.1 = none) →
      (addBus t w).1 = -1 ∧
      (addBus t w).2.textBrowser = w.textBrowser ++
        ["ERROR: Failed to create audio bus. Failed to add Jack port(s)."] ∧
      (addBus t w).2.jack.requests = w.jack.requests ++
        [("bus_" ++ n2s prj.audioBus_getUniqueId ++ "_L", false),
         ("bus_" ++ n2s prj.audioBus_getUniqueId ++ "_R", false)] ∧
      ∃ prj', (addBus t w).2.getCurrentProject = some prj' ∧
        prj'.audioBusMap = prj.audioBusMap) ∧
    ((∀ k ∈ prj.audioInPortMap.keys, k < 2147483647) →
      ((addAudioInPortsToJack t w.jack prj.audioInPort_getUniqueId).1 = none ∨
        (addAudioInPortsToJack t w.jack prj.audioInPort_getUniqueId).2.1 = none) →
      (addAudioInPort t w).1 = -1 ∧
      (addAudioInPort t w).2.textBrowser = w.textBrowser ++
        ["ERROR: Failed to create audio input port. Failed to add Jack port."] ∧
      (addAudioInPort t w).2.jack.requests = w.jack.requests ++
        [("audio_in_" ++ n2s prj.audioInPort_getUniqueId ++ "_L", true),
         ("audio_in_" ++ n2s prj.audioInPort_getUniqueId ++ "_R", true)] ∧
      ∃ prj', (addAudioInPort t w).2.getCurrentProject = some prj' ∧
        prj'.audioInPortMap = prj.audioInPortMap) ∧
    ((∀ k ∈ prj.midiInPortMap.keys, k < 2147483647) →
      (addMidiInPortToJack t w.jack prj.midiInPort_getUniqueId).1 = none →
      (addMidiInPort t w).1 = -1 ∧
      (addMidiInPort t w).2.textBrowser = w.textBrowser ++
        ["ERROR: Could not add MIDI input port. Failed to create JACK port."] ∧
      (addMidiInPort t w).2.jack.requests = w.jack.requests ++
        [("midi_in_" ++ n2s prj.midiInPort_getUniqueId, true)] ∧
      ∃ prj', (addMidiInPort t w).2.getCurrentProject = some prj' ∧
        prj'.midiInPortMap = prj.midiInPortMap) ∧
    ((∀ k ∈ prj.midiOutPortMap.keys, k < 2147483647) →
      (addMidiOutPortToJack t w.jack prj.midiOutPort_getUniqueId).1 = none →
      (addMidiOutPort t w).1 = -1 ∧
      (addMidiOutPort t w).2.textBrowser = w.textBrowser ++
        ["ERROR: Could not add MIDI output port. Failed to create JACK port."] ∧
      (addMidiOutPort t w).2.jack.requests = w.jack.requests ++
        [("midi_out_" ++ n2s prj.midiOutPort_getUniqueId, false)] ∧
      ∃ prj', (addMidiOutPort t w).2.getCurrentProject = some prj' ∧
        prj'.midiOutPortMap = prj.midiOutPortMap) := by
  refine ⟨?_, ?_, ?_, ?_⟩
  · intro hr hnull
    rw [addBus_of_null t w prj hprj hnull]
    refine ⟨rfl, rfl, ?_,
      (prj.audioBus_add ("AudioBus_" ++ n2s prj.audioBus_count)).2.audioBus_remove
        (prj.audioBus_add ("AudioBus_" ++ n2s prj.audioBus_count)).1, ?_,
      audioBus_add_remove prj _ hr⟩
    · show (addAudioBusToJack t w.jack prj.audioBus_getUniqueId).2.2.requests = _
      simp only [addAudioBusToJack, addAudioPort_requests, List.append_assoc]
      rfl
    · rw [getCurrentProject_congr _ _ rfl rfl]
      exact getCurrentProject_storeCurrentProject _ prj _
        ((getCurrentProject_congr w _ rfl rfl).trans hprj)
  · intro hr hnull
    rw [addAudioInPort_of_null t w prj hprj hnull]
    refine ⟨rfl, rfl, ?_,
      (prj.audioInPort_add "New Audio In Port").2.audioInPort_remove
        (prj.audioInPort_add "New Audio In Port").1, ?_,
      audioInPort_add_remove prj _ hr⟩
    · show (addAudioInPortsToJack t w.jack prj.audioInPort_getUniqueId).2.2.requests = _
      simp only [addAudioInPortsToJack, addAudioPort_requests, List.append_assoc]
      rfl
    · exact getCurrentProject_storeCurrentProject _ prj _
        ((getCurrentProject_congr w _ rfl rfl).trans hprj)
  · intro hr hnull
    rw [addMidiInPort_of_null t w prj hprj hnull]
    refine ⟨rfl, rfl, ?_,
      (prj.midiInPort_addPort "New MIDI In Port").2.midiInPort_removePort
        (prj.midiInPort_addPort "New MIDI In Port").1, ?_,
      midiInPort_add_remove prj _ hr⟩
    · show (addMidiInPortToJack t w.jack prj.midiInPort_getUniqueId).2.requests = _
      simp only [addMidiInPortToJack, addMidiPort_requests]
    · exact getCurrentProject_storeCurrentProject _ prj _
        ((getCurrentProject_congr w _ rfl rfl).trans hprj)
  · intro hr hnull
    rw [addMidiOutPort_of_null t w prj hprj hnull]
    refine ⟨rfl, rfl, ?_,
      (prj.midiOutPort_addPort "New MIDI Out Port").2.midiOutPort_removePort
        (prj.midiOutPort_addPort "New MIDI Out Port").1, ?_,
      midiOutPort_add_remove prj _ hr⟩
    · show (addMidiOutPortToJack t w.jack prj.midiOutPort_getUniqueId).2.requests = _
      simp only [addMidiOutPortToJack, addMidiPort_requests]
    · exact getCurrentProject_storeCurrentProject _ prj _
        ((getCurrentProject_congr w _ rfl rfl).trans hprj)

/-- Claim C9 (the code at the failing input): the current project has the buses -2147483648
and 2147483647 and the transport rejects every port name.  `addBus` takes the id
-2147483648 for the new bus, the highest id plus one as an `int`, so the new bus replaces
the bus stored under that id; the registration returns null, `addBus` returns -1, and the
removal of the new bus leaves the bus map with the key 2147483647 only: the map is not
equal to the map before the call. -/
theorem addBus_null_wrapped_id_loses_bus :
    windowWithExtremeBusIds.getCurrentProject = some projectWithExtremeBusIds ∧
    projectWithExtremeBusIds.audioBusMap.keys = [-2147483648, 2147483647] ∧
    projectWithExtremeBusIds.audioBus_getUniqueId = -2147483648 ∧
    (addAudioBusToJack (fun _ => false) windowWithExtremeBusIds.jack
      projectWithExtremeBusIds.audioBus_getUniqueId).1 = none ∧
    (addBus (fun _ => false) windowWithExtremeBusIds).1 = -1 ∧
    (addBus (fun _ => false) windowWithExtremeBusIds).2.getCurrentProject.map
      (fun q => q.audioBusMap.keys) = some [2147483647] :=
  ⟨rfl, by decide, by decide, by decide, by decide, by decide⟩

/-- C10 (the code at the failing input): with the freshly constructed project current and a
transport that accepts the left port name and rejects the right one, `addBus` returns -1
and the left port "bus_1_L" stays registered in the engine, in which no audio port was
registered before; likewise `addAudioInPort` leaves "audio_in_0_L" registered. -/
theorem addBus_null_keeps_registered_port :
    windowWithNewProject.jack.audioPorts = [] ∧
    (addBus (fun n => n == "bus_1_L") windowWithNewProject).1 = -1 ∧
    (addBus (fun n => n == "bus_1_L") windowWithNewProject).2.jack.audioPorts =
      [{ handle := 1, name := "bus_1_L", isInput := false }] ∧
    (addAudioInPort (fun n => n == "audio_in_0_L") windowWithNewProject).1 = -1 ∧
    (addAudioInPort (fun n => n == "audio_in_0_L") windowWithNewProject).2.jack.audioPorts =
      [{ handle := 1, name := "audio_in_0_L", isInput := true }] := by
  decide

/-! ## Project invariants, patches and ids -/

theorem insertEntry_append_of_lt {V : Type} (k : Int) (v : V) (l : List (Int × V))
    (h : ∀ x ∈ entryKeys l, x < k) : insertEntry k v l = l ++ [(k, v)] := by
  induction l with
  | nil => simp [insertEntry]
  | cons e rest ih =>
    have he : e.1 < k := h e.1 (by simp [entryKeys])
    have hr : ∀ x ∈ entryKeys rest, x < k := by
      intro x hx
      apply h
      simp only [entryKeys, List.map_cons, List.mem_cons] at hx ⊢
      exact Or.inr hx
    unfold insertEntry
    have h1 : ¬ k < e.1 := by omega
    have h2 : ¬ k = e.1 := by omega
    rw [if_neg h1, if_neg h2, ih hr]
    rfl

theorem QMap.insert_entries_of_lt {V : Type} (m : QMap V) (k : Int) (v : V)
    (h : ∀ x ∈ m.keys, x < k) : (m.insert k v).entries = m.entries ++ [(k, v)] :=
  insertEntry_append_of_lt k v m.entries h

theorem QMap.count_pos_of_ne_zero {V : Type} (m : QMap V) (h : m.count ≠ 0) : 1 ≤ m.count := by
  unfold QMap.count at h ⊢
  omega

theorem find?_sorted_min (l : List Int) (skip r : Int)
    (hs : l.Pairwise (fun a b => a < b))
    (h : l.find? (fun k => k != skip) = some r) :
    r ∈ l ∧ r ≠ skip ∧ ∀ k ∈ l, k ≠ skip → r ≤ k := by
  induction l with
  | nil => simp at h
  | cons a rest ih =>
    rw [List.pairwise_cons] at hs
    by_cases ha : a = skip
    · have h2 : rest.find? (fun k => k != skip) = some r := by
        simpa [List.find?_cons, ha] using h
      obtain ⟨hm, hne, hmin⟩ := ih hs.2 h2
      refine ⟨List.mem_cons_of_mem _ hm, hne, ?_⟩
      intro k hk hks
      rcases List.mem_cons.1 hk with rfl | hk
      · exact absurd ha hks
      · exact hmin k hk hks
    · have h2 : a = r := by
        simpa [List.find?_cons, ha] using h
      subst h2
      refine ⟨List.mem_cons_self _ _, ha, ?_⟩
      intro k hk _
      rcases List.mem_cons.1 hk with rfl | hk
      · exact le_refl _
      · exact le_of_lt (hs.1 k hk)

theorem find?_none_all_skip (l : List Int) (skip : Int)
    (h : l.find? (fun k => k != skip) = none) : ∀ k ∈ l, k = skip := by
  intro k hk
  have := List.find?_eq_none.1 h k hk
  simpa using this

/-- The first id other than `skip` in an ascending key list, as both `getFirst...Id`
functions compute it. -/
theorem firstId_spec (l : List Int) (skip : Int) (hs : l.Pairwise (fun a b => a < b)) :
    ((∃ k ∈ l, k ≠ skip) →
      (match l.find? (fun k => k != skip) with | some k => k | none => -1) ∈ l ∧
      (match l.find? (fun k => k != skip) with | some k => k | none => -1) ≠ skip ∧
      ∀ k ∈ l, k ≠ skip →
        (match l.find? (fun k => k != skip) with | some k => k | none => -1) ≤ k) ∧
    ((∀ k ∈ l, k = skip) →
      (match l.find? (fun k => k != skip) with | some k => k | none => -1) = -1) ∧
    ((match l.find? (fun k => k != skip) with | some k => k | none => -1) = skip →
      skip = -1) := by
  cases hf : l.find? (fun k => k != skip) with
  | none =>
    have hall := find?_none_all_skip l skip hf
    refine ⟨?_, fun _ => rfl, fun h => h.symm⟩
    rintro ⟨k, hk, hne⟩
    exact absurd (hall k hk) hne
  | some r =>
    obtain ⟨hm, hne, hmin⟩ := find?_sorted_min l skip r hs hf
    refine ⟨fun _ => ⟨hm, hne, hmin⟩, ?_, fun h => absurd h hne⟩
    intro hall
    exact absurd (hall r hm) hne

/-- C20: for every project and every integer `skipId`, `audioBus_getFirstBusId(skipId)` and
`midiInPort_getFirstPortId(skipId)` return the smallest key of the respective map that
differs from `skipId` when such a key exists, and -1 when the map has no key other than
`skipId`; the result equals `skipId` only if `skipId` is -1. -/
theorem getFirstId_smallest_other (p : KonfytProject) (skipId : Int) :
    (((∃ k ∈ p.audioBusMap.keys, k ≠ skipId) →
        p.audioBus_getFirstBusId skipId ∈ p.audioBusMap.keys ∧
        p.audioBus_getFirstBusId skipId ≠ skipId ∧
        ∀ k ∈ p.audioBusMap.keys, k ≠ skipId → p.audioBus_getFirstBusId skipId ≤ k) ∧
      ((∀ k ∈ p.audioBusMap.keys, k = skipId) → p.audioBus_getFirstBusId skipId = -1) ∧
      (p.audioBus_getFirstBusId skipId = skipId → skipId = -1)) ∧
    (((∃ k ∈ p.midiInPortMap.keys, k ≠ skipId) →
        p.midiInPort_getFirstPortId skipId ∈ p.midiInPortMap.keys ∧
        p.midiInPort_getFirstPortId skipId ≠ skipId ∧
        ∀ k ∈ p.midiInPortMap.keys, k ≠ skipId → p.midiInPort_getFirstPortId skipId ≤ k) ∧
      ((∀ k ∈ p.midiInPortMap.keys, k = skipId) → p.midiInPort_getFirstPortId skipId = -1) ∧
      (p.midiInPort_getFirstPortId skipId = skipId → skipId = -1)) := by
  constructor
  · exact firstId_spec p.audioBusMap.keys skipId p.audioBusMap.sorted
  · by_cases h0 : p.midiInPortMap.keys.length = 0
    · have hnil : p.midiInPortMap.keys = [] := List.length_eq_zero.1 h0
      have hr : p.midiInPort_getFirstPortId skipId = -1 := by
        unfold KonfytProject.midiInPort_getFirstPortId
        rw [if_pos h0]
      rw [hr]
      refine ⟨?_, fun _ => rfl, fun h => h.symm⟩
      rintro ⟨k, hk, -⟩
      rw [hnil] at hk
      exact absurd hk (List.not_mem_nil k)
    · have h := firstId_spec p.midiInPortMap.keys skipId p.midiInPortMap.sorted
      have hr : p.midiInPort_getFirstPortId skipId =
          (match p.midiInPortMap.keys.find? (fun k => k != skipId) with
            | some k => k | none => -1) := by
        unfold KonfytProject.midiInPort_getFirstPortId
        rw [if_neg h0]
      rw [hr]
      exact h

/-- Witness of `getFirstId_smallest_other`: with buses 0, 1, 2 and MIDI input ports 0, 1,
skipping id 0 gives 1 for both. -/
theorem getFirstId_smallest_other_witness :
    ((∃ k ∈ projectWithThreeBuses.audioBusMap.keys, k ≠ 0) ∧
      projectWithThreeBuses.audioBus_getFirstBusId 0 = 1 ∧
      projectWithThreeBuses.audioBus_getFirstBusId 0 ∈ projectWithThreeBuses.audioBusMap.keys ∧
      projectWithThreeBuses.audioBus_getFirstBusId 0 ≠ 0) ∧
    ((∃ k ∈ projectWithThreeBuses.midiInPortMap.keys, k ≠ 0) ∧
      projectWithThreeBuses.midiInPort_getFirstPortId 0 = 1 ∧
      projectWithThreeBuses.midiInPort_getFirstPortId 0 ∈
        projectWithThreeBuses.midiInPortMap.keys ∧
      projectWithThreeBuses.midiInPort_getFirstPortId 0 ≠ 0) :=
  ⟨⟨⟨1, by decide, by decide⟩, by decide,
    ((getFirstId_smallest_other projectWithThreeBuses 0).1.1 ⟨1, by decide, by decide⟩).1,
    ((getFirstId_smallest_other projectWithThreeBuses 0).1.1 ⟨1, by decide, by decide⟩).2.1⟩,
   ⟨⟨1, by decide, by decide⟩, by decide,
    ((getFirstId_smallest_other projectWithThreeBuses 0).2.1 ⟨1, by decide, by decide⟩).1,
    ((getFirstId_smallest_other projectWithThreeBuses 0).2.1 ⟨1, by decide, by decide⟩).2.1⟩⟩

/-- Claim C15, amended: for every project and each of `audioBus_add`, `midiInPort_addPort`,
`midiOutPort_addPort`, `audioInPort_add` and `addExternalApp`, if every key of the
corresponding map is below 2147483647, the largest `int`: the returned id was not a key of
that map before the call, is at least 0 and greater than every existing key; the map
afterwards is the old map followed by one entry under that id that carries the given name
(resp. app) with default fields, and the lookup of every other id is as before. -/
theorem add_returns_fresh_id (p : KonfytProject) (name : String) (app : ExternalApp) :
    ((∀ k ∈ p.audioBusMap.keys, k < 2147483647) →
      p.audioBusMap.contains (p.audioBus_add name).1 = false ∧
      0 ≤ (p.audioBus_add name).1 ∧
      (∀ k ∈ p.audioBusMap.keys, k < (p.audioBus_add name).1) ∧
      (p.audioBus_add name).2.audioBusMap.entries =
        p.audioBusMap.entries ++ [((p.audioBus_add name).1, { busName := name })] ∧
      (∀ k, k ≠ (p.audioBus_add name).1 →
        (p.audioBus_add name).2.audioBusMap.find? k = p.audioBusMap.find? k)) ∧
    ((∀ k ∈ p.midiInPortMap.keys, k < 2147483647) →
      p.midiInPortMap.contains (p.midiInPort_addPort name).1 = false ∧
      0 ≤ (p.midiInPort_addPort name).1 ∧
      (∀ k ∈ p.midiInPortMap.keys, k < (p.midiInPort_addPort name).1) ∧
      (p.midiInPort_addPort name).2.midiInPortMap.entries =
        p.midiInPortMap.entries ++ [((p.midiInPort_addPort name).1, { portName := name })] ∧
      (∀ k, k ≠ (p.midiInPort_addPort name).1 →
        (p.midiInPort_addPort name).2.midiInPortMap.find? k = p.midiInPortMap.find? k)) ∧
    ((∀ k ∈ p.midiOutPortMap.keys, k < 2147483647) →
      p.midiOutPortMap.contains (p.midiOutPort_addPort name).1 = false ∧
      0 ≤ (p.midiOutPort_addPort name).1 ∧
      (∀ k ∈ p.midiOutPortMap.keys, k < (p.midiOutPort_addPort name).1) ∧
      (p.midiOutPort_addPort name).2.midiOutPortMap.entries =
        p.midiOutPortMap.entries ++ [((p.midiOutPort_addPort name).1, { portName := name })] ∧
      (∀ k, k ≠ (p.midiOutPort_addPort name).1 →
        (p.midiOutPort_addPort name).2.midiOutPortMap.find? k = p.midiOutPortMap.find? k)) ∧
    ((∀ k ∈ p.audioInPortMap.keys, k < 2147483647) →
      p.audioInPortMap.contains (p.audioInPort_add name).1 = false ∧
      0 ≤ (p.audioInPort_add name).1 ∧
      (∀ k ∈ p.audioInPortMap.keys, k < (p.audioInPort_add name).1) ∧
      (p.audioInPort_add name).2.audioInPortMap.entries =
        p.audioInPortMap.entries ++ [((p.audioInPort_add name).1, { portName := name })] ∧
      (∀ k, k ≠ (p.audioInPort_add name).1 →
        (p.audioInPort_add name).2.audioInPortMap.find? k = p.audioInPortMap.find? k)) ∧
    ((∀ k ∈ p.externalApps.keys, k < 2147483647) →
      p.externalApps.contains (p.addExternalApp app).1 = false ∧
      0 ≤ (p.addExternalApp app).1 ∧
      (∀ k ∈ p.externalApps.keys, k < (p.addExternalApp app).1) ∧
      (p.addExternalApp app).2.externalApps.entries =
        p.externalApps.entries ++ [((p.addExternalApp app).1, app)] ∧
      (∀ k, k ≠ (p.addExternalApp app).1 →
        (p.addExternalApp app).2.externalApps.find? k = p.externalApps.find? k)) := by
  refine ⟨?_, ?_, ?_, ?_, ?_⟩
  · intro hr
    exact ⟨getUniqueIdHelper_not_contained p.audioBusMap hr,
      (getUniqueIdHelper_fresh p.audioBusMap.keys hr).1,
      (getUniqueIdHelper_fresh p.audioBusMap.keys hr).2,
      QMap.insert_entries_of_lt _ _ _ (getUniqueIdHelper_fresh p.audioBusMap.keys hr).2,
      fun k hk => QMap.find?_insert_other _ _ _ _ hk⟩
  · intro hr
    exact ⟨getUniqueIdHelper_not_contained p.midiInPortMap hr,
      (getUniqueIdHelper_fresh p.midiInPortMap.keys hr).1,
      (getUniqueIdHelper_fresh p.midiInPortMap.keys hr).2,
      QMap.insert_entries_of_lt _ _ _ (getUniqueIdHelper_fresh p.midiInPortMap.keys hr).2,
      fun k hk => QMap.find?_insert_other _ _ _ _ hk⟩
  · intro hr
    exact ⟨getUniqueIdHelper_not_contained p.midiOutPortMap hr,
      (getUniqueIdHelper_fresh p.midiOutPortMap.keys hr).1,
      (getUniqueIdHelper_fresh p.midiOutPortMap.keys hr).2,
      QMap.insert_entries_of_lt _ _ _ (getUniqueIdHelper_fresh p.midiOutPortMap.keys hr).2,
      fun k hk => QMap.find?_insert_other _ _ _ _ hk⟩
  · intro hr
    exact ⟨getUniqueIdHelper_not_contained p.audioInPortMap hr,
      (getUniqueIdHelper_fresh p.audioInPortMap.keys hr).1,
      (getUniqueIdHelper_fresh p.audioInPortMap.keys hr).2,
      QMap.insert_entries_of_lt _ _ _ (getUniqueIdHelper_fresh p.audioInPortMap.keys hr).2,
      fun k hk => QMap.find?_insert_other _ _ _ _ hk⟩
  · intro hr
    exact ⟨getUniqueIdHelper_not_contained p.externalApps hr,
      (getUniqueIdHelper_fresh p.externalApps.keys hr).1,
      (getUniqueIdHelper_fresh p.externalApps.keys hr).2,
      QMap.insert_entries_of_lt _ _ _ (getUniqueIdHelper_fresh p.externalApps.keys hr).2,
      fun k hk => QMap.find?_insert_other _ _ _ _ hk⟩

/-- Witness of `add_returns_fresh_id`: on the project with buses 0, 1, 2 the next bus gets
id 3, and bus 1 is found as before. -/
theorem add_returns_fresh_id_witness :
    (∀ k ∈ projectWithThreeBuses.audioBusMap.keys, k < 2147483647) ∧
    (projectWithThreeBuses.audioBus_add "AudioBus_3").1 = 3 ∧
    (1 : Int) ≠ (projectWithThreeBuses.audioBus_add "AudioBus_3").1 ∧
    (projectWithThreeBuses.audioBus_add "AudioBus_3").2.audioBusMap.find? 1 =
      projectWithThreeBuses.audioBusMap.find? 1 :=
  ⟨by decide, by decide, by decide,
    ((add_returns_fresh_id projectWithThreeBuses "AudioBus_3" {}).1 (by decide)).2.2.2.2 1
      (by decide)⟩

/-- The claim C15 as stated fails where the largest `int` is a key: with the buses 0 and
2147483647, `audioBus_add` returns -2147483648, the highest id plus one as an `int`; that id
was not a key, but it is below 0 and is greater than no key, and the new entry comes first
in the map, not last. -/
theorem audioBus_add_wraps_at_largest_int :
    projectWithLargestBusId.audioBusMap.keys = [0, 2147483647] ∧
    (projectWithLargestBusId.audioBus_add "AudioBus_2").1 = -2147483648 ∧
    projectWithLargestBusId.audioBusMap.contains
      (projectWithLargestBusId.audioBus_add "AudioBus_2").1 = false ∧
    ¬ (0 ≤ (projectWithLargestBusId.audioBus_add "AudioBus_2").1) ∧
    ¬ (∀ k ∈ projectWithLargestBusId.audioBusMap.keys,
        k < (projectWithLargestBusId.audioBus_add "AudioBus_2").1) ∧
    (projectWithLargestBusId.audioBus_add "AudioBus_2").2.audioBusMap.keys =
      [-2147483648, 0, 2147483647] := by
  decide

/-- C12: for every project and index `i`: `removePatch(i)` with 0 <= i < getNumPatches()
returns the patch that was at position `i`, leaves the patch list equal to the old list with
position `i` erased and sets the modified flag; for every other `i` it returns the null
pointer and leaves the project, with its patch list and modified flag, unchanged. -/
theorem removePatch_spec (p : KonfytProject) (i : Int) :
    (0 ≤ i ∧ i < p.getNumPatches →
      p.patchList.get? i.toNat = some (p.removePatch i).1 ∧
      (p.removePatch i).2.patchList = p.patchList.eraseIdx i.toNat ∧
      (p.removePatch i).2.modified = true) ∧
    (¬ (0 ≤ i ∧ i < p.getNumPatches) → p.removePatch i = (none, p)) := by
  unfold KonfytProject.getNumPatches
  constructor
  · intro h
    have hc : i ≥ 0 ∧ i < (p.patchList.length : Int) := ⟨h.1, h.2⟩
    have hlt : i.toNat < p.patchList.length := by omega
    simp only [KonfytProject.removePatch, if_pos hc]
    refine ⟨?_, rfl, rfl⟩
    simp [List.getD_eq_getElem?_getD, List.get?_eq_getElem?, List.getElem?_eq_getElem hlt]
  · intro h
    have hc : ¬ (i ≥ 0 ∧ i < (p.patchList.length : Int)) := fun hc => h ⟨hc.1, hc.2⟩
    simp only [KonfytProject.removePatch, if_neg hc]

/-- Witness of `removePatch_spec`: removing index 1 of the patches 11, 12, 13 returns 12 and
leaves 11, 13; index 3 is out of bounds. -/
theorem removePatch_spec_witness :
    ((0 : Int) ≤ 1 ∧ (1 : Int) < projectWithThreeBuses.getNumPatches) ∧
    (projectWithThreeBuses.removePatch 1).1 = some 12 ∧
    (projectWithThreeBuses.removePatch 1).2.patchList = [some 11, some 13] ∧
    (projectWithThreeBuses.removePatch 1).2.modified = true ∧
    ¬ ((0 : Int) ≤ 3 ∧ (3 : Int) < projectWithThreeBuses.getNumPatches) ∧
    projectWithThreeBuses.removePatch 3 = (none, projectWithThreeBuses) :=
  ⟨by decide, by decide, by decide,
    ((removePatch_spec projectWithThreeBuses 1).1 (by decide)).2.2, by decide,
    (removePatch_spec projectWithThreeBuses 3).2 (by decide)⟩

theorem audioBus_add_count_pos (p : KonfytProject) (name : String) :
    1 ≤ (p.audioBus_add name).2.audioBus_count := by
  have hmem : (p.audioBus_add name).1 ∈ (p.audioBus_add name).2.audioBusMap.keys :=
    (QMap.contains_iff _ _).1 (QMap.contains_insert_self _ _ _)
  have hpos : 0 < (p.audioBus_add name).2.audioBusMap.keys.length := List.length_pos_of_mem hmem
  have hlen : (p.audioBus_add name).2.audioBusMap.keys.length =
      (p.audioBus_add name).2.audioBusMap.entries.length := by simp [QMap.keys, entryKeys]
  unfold KonfytProject.audioBus_count QMap.count
  omega

theorem midiInPort_addPort_count_pos (p : KonfytProject) (name : String) :
    1 ≤ (p.midiInPort_addPort name).2.midiInPort_count := by
  have hmem : (p.midiInPort_addPort name).1 ∈ (p.midiInPort_addPort name).2.midiInPortMap.keys :=
    (QMap.contains_iff _ _).1 (QMap.contains_insert_self _ _ _)
  have hpos : 0 < (p.midiInPort_addPort name).2.midiInPortMap.keys.length :=
    List.length_pos_of_mem hmem
  have hlen : (p.midiInPort_addPort name).2.midiInPortMap.keys.length =
      (p.midiInPort_addPort name).2.midiInPortMap.entries.length := by simp [QMap.keys, entryKeys]
  unfold KonfytProject.midiInPort_count QMap.count
  omega

/-- The two checks at the end of `loadProject` leave at least one bus and one MIDI input
port, whatever the members were before. -/
theorem loadProject_tail_counts (q : KonfytProject) :
    1 ≤ ((if (if q.audioBus_count = 0 then (q.audioBus_add "Master Bus").2 else q).midiInPort_count
            = 0
          then ((if q.audioBus_count = 0 then (q.audioBus_add "Master Bus").2
                  else q).midiInPort_addPort "MIDI In").2
          else (if q.audioBus_count = 0 then (q.audioBus_add "Master Bus").2
                  else q)).setModified false).audioBus_count ∧
    1 ≤ ((if (if q.audioBus_count = 0 then (q.audioBus_add "Master Bus").2 else q).midiInPort_count
            = 0
          then ((if q.audioBus_count = 0 then (q.audioBus_add "Master Bus").2
                  else q).midiInPort_addPort "MIDI In").2
          else (if q.audioBus_count = 0 then (q.audioBus_add "Master Bus").2
                  else q)).setModified false).midiInPort_count := by
  have hb : 1 ≤ (if q.audioBus_count = 0 then (q.audioBus_add "Master Bus").2
      else q).audioBus_count := by
    by_cases h : q.audioBus_count = 0
    · rw [if_pos h]; exact audioBus_add_count_pos q _
    · rw [if_neg h]; exact QMap.count_pos_of_ne_zero _ h
  generalize (if q.audioBus_count = 0 then (q.audioBus_add "Master Bus").2 else q) = q1 at hb ⊢
  by_cases h : q1.midiInPort_count = 0
  · rw [if_pos h]
    exact ⟨hb, midiInPort_addPort_count_pos q1 _⟩
  · rw [if_neg h]
    exact ⟨hb, QMap.count_pos_of_ne_zero _ h⟩

/-- C11: a freshly constructed `KonfytProject` has exactly one bus, named "Master Bus", with
id 0 and exactly one MIDI input port, named "MIDI In", with id 0; and after every
`loadProject` call that returns true, whatever the file contained and whatever the project
was before, `audioBus_count()` and `midiInPort_count()` are at least 1. -/
theorem project_has_bus_and_midiInPort :
    KonfytProject.new.audioBusMap.entries = [(0, { busName := "Master Bus" })] ∧
    KonfytProject.new.midiInPortMap.entries = [(0, { portName := "MIDI In" })] ∧
    KonfytProject.new.audioBus_count = 1 ∧ KonfytProject.new.midiInPort_count = 1 ∧
    ∀ (fileOpens : Bool) (dirPath : String) (readElements : KonfytProject → KonfytProject)
      (p : KonfytProject) (filename : String),
      (KonfytProject.loadProject fileOpens dirPath readElements p filename).1 = true →
      1 ≤ (KonfytProject.loadProject fileOpens dirPath readElements p filename).2.audioBus_count ∧
      1 ≤ (KonfytProject.loadProject fileOpens dirPath readElements p
            filename).2.midiInPort_count := by
  refine ⟨by decide, by decide, by decide, by decide, ?_⟩
  intro fileOpens dirPath readElements p filename hret
  cases fileOpens with
  | false => simp [KonfytProject.loadProject] at hret
  | true =>
    simp only [KonfytProject.loadProject, Bool.not_true, Bool.false_eq_true, if_false]
    exact loadProject_tail_counts _

/-- Witness of `project_has_bus_and_midiInPort`: loading a file whose elements leave no bus
and no MIDI input port (the reading loop changes nothing after the maps were cleared). -/
theorem project_has_bus_and_midiInPort_witness :
    (KonfytProject.loadProject true "/home/user/gig" (fun q => q) projectWithThreeBuses
        "/home/user/gig/gig.konfytproject").1 = true ∧
    1 ≤ (KonfytProject.loadProject true "/home/user/gig" (fun q => q) projectWithThreeBuses
        "/home/user/gig/gig.konfytproject").2.audioBus_count ∧
    1 ≤ (KonfytProject.loadProject true "/home/user/gig" (fun q => q) projectWithThreeBuses
        "/home/user/gig/gig.konfytproject").2.midiInPort_count :=
  ⟨rfl,
   (project_has_bus_and_midiInPort.2.2.2.2 true "/home/user/gig" (fun q => q)
      projectWithThreeBuses "/home/user/gig/gig.konfytproject" rfl).1,
   (project_has_bus_and_midiInPort.2.2.2.2 true "/home/user/gig" (fun q => q)
      projectWithThreeBuses "/home/user/gig/gig.konfytproject" rfl).2⟩

/-! ## File suffixes -/

/-- C16, as stated, fails: with the mutex held, a note-on for the engine with one synth is
dropped and a render call returns 0, and the engine after each call equals the engine before
it in every member, so nothing has recorded the drop. -/
theorem dropped_call_leaves_no_record :
    ({ engineWithOneSynth with mutexLocked := true } : konfytFluidsynthEngine).processJackMidi
        pitchbendFromData 0 { type := MIDI_EVENT_TYPE_NOTEON, data1 := 60, data2 := 100 } =
      some { engineWithOneSynth with mutexLocked := true } ∧
    ({ engineWithOneSynth with mutexLocked := true } : konfytFluidsynthEngine).fluidsynthWriteFloat
        (fun _ _ (_ _ : List Int) => (-1, [1, 1], [2, 2])) 0 [0, 0] [0, 0] 2 =
      some (0, [0, 0], [0, 0], { engineWithOneSynth with mutexLocked := true }) := by
  constructor <;> rfl

/-- C16 (amended): when a synth-delivery or render call is dropped because the mutex is
held, the drop is silent: `processJackMidi` and `fluidsynthWriteFloat` return (the latter
with 0) and leave every member of the engine as it was, so no counter is incremented and no
log entry is written. -/
theorem dropped_call_is_silent {Sample : Type} (pb : konfytMidiEvent → Int)
    (render : Option Nat → Int → List Sample → List Sample → Int × List Sample × List Sample)
    (e : konfytFluidsynthEngine) (ID : Int) (ev : konfytMidiEvent)
    (left right : List Sample) (len : Int) (hheld : e.mutexLocked = true) :
    (∃ e', e.processJackMidi pb ID ev = some e' ∧ e' = e) ∧
    (∃ r, e.fluidsynthWriteFloat render ID left right len = some r ∧ r.1 = 0 ∧ r.2.2.2 = e) := by
  constructor
  · exact ⟨e, by simp [processJackMidi, hheld], rfl⟩
  · exact ⟨(0, left, right, e), by simp [fluidsynthWriteFloat, hheld], rfl, rfl⟩

/-- Witness of `dropped_call_is_silent`: the engine with one synth while the mutex is
held. -/
theorem dropped_call_is_silent_witness :
    ({ engineWithOneSynth with mutexLocked := true } : konfytFluidsynthEngine).mutexLocked = true ∧
    (∃ e', ({ engineWithOneSynth with mutexLocked := true } :
          konfytFluidsynthEngine).processJackMidi pitchbendFromData 0
          { type := MIDI_EVENT_TYPE_CC, data1 := 123, data2 := 0 } = some e' ∧
        e' = { engineWithOneSynth with mutexLocked := true }) ∧
    (∃ r, ({ engineWithOneSynth with mutexLocked := true } :
          konfytFluidsynthEngine).fluidsynthWriteFloat
          (fun _ _ (_ _ : List Int) => (-1, [1, 1], [2, 2])) 0 [0, 0] [0, 0] 2 = some r ∧
        r.1 = 0 ∧ r.2.2.2 = { engineWithOneSynth with mutexLocked := true }) :=
  ⟨rfl,
   (dropped_call_is_silent pitchbendFromData (fun _ _ (_ _ : List Int) => (-1, [1, 1], [2, 2]))
      { engineWithOneSynth with mutexLocked := true } 0
      { type := MIDI_EVENT_TYPE_CC, data1 := 123, data2 := 0 } [0, 0] [0, 0] 2 rfl).1,
   (dropped_call_is_silent pitchbendFromData (fun _ _ (_ _ : List Int) => (-1, [1, 1], [2, 2]))
      { engineWithOneSynth with mutexLocked := true } 0
      { type := MIDI_EVENT_TYPE_CC, data1 := 123, data2 := 0 } [0, 0] [0, 0] 2 rfl).2⟩

/-! ## Selecting the current patch -/

theorem getCurrentProject_of_selectionState (w w' : MainWindow)
    (h : w'.selectionState = w.selectionState) : w'.getCurrentProject = w.getCurrentProject := by
  have h1 : w'.projectList = w.projectList := congrArg (fun t => t.1) h
  have h2 : w'.currentProject = w.currentProject := congrArg (fun t => t.2.1) h
  exact getCurrentProject_congr w w' h1 h2

theorem indicateMidiEvent_selectionState (lib : KonfytMidiH) (w : MainWindow)
    (prj : KonfytProject) (rxEvent : KfJackMidiRxEvent) (evInclBank : konfytMidiEvent) :
    (w.indicateMidiEvent lib prj rxEvent evInclBank).selectionState = w.selectionState := by
  unfold indicateMidiEvent
  simp only [MainWindow.ui, MainWindow.call, MainWindow.userMessage]
  split_ifs <;> rfl

theorem saveBankSelects_selectionState (w : MainWindow) (ev : konfytMidiEvent) :
    (w.saveBankSelects ev).selectionState = w.selectionState := by
  unfold saveBankSelects
  split_ifs <;> rfl

theorem recordLastReceived_selectionState (w : MainWindow) (ev evInclBank : konfytMidiEvent) :
    (w.recordLastReceived ev evInclBank).selectionState = w.selectionState := by
  unfold recordLastReceived
  simp only [MainWindow.ui, MainWindow.call]
  split_ifs <;> rfl

theorem recordLastReceived_lastBankSelect (w : MainWindow) (ev evInclBank : konfytMidiEvent) :
    (w.recordLastReceived ev evInclBank).lastBankSelectMSB = w.lastBankSelectMSB ∧
    (w.recordLastReceived ev evInclBank).lastBankSelectLSB = w.lastBankSelectLSB := by
  unfold recordLastReceived
  simp only [MainWindow.ui, MainWindow.call]
  split_ifs <;> exact ⟨rfl, rfl⟩

theorem getPatch_of_inRange (prj : KonfytProject) (k : Int) (h0 : 0 ≤ k)
    (h1 : k < prj.getNumPatches) : prj.patchList.get? k.toNat = some (prj.getPatch k) := by
  unfold KonfytProject.getNumPatches at h1
  have hc : k ≥ 0 ∧ k < (prj.patchList.length : Int) := ⟨h0, h1⟩
  have hlt : k.toNat < prj.patchList.length := by omega
  simp only [KonfytProject.getPatch, if_pos hc]
  simp [List.getD_eq_getElem?_getD, List.get?_eq_getElem?, List.getElem?_eq_getElem hlt]

theorem setCurrentPatch_masterPatch (w : MainWindow) (prj : KonfytProject)
    (hprj : w.getCurrentProject = some prj) (patch : Option Nat) :
    (w.setCurrentPatch patch).masterPatch = patch := by
  simp only [setCurrentPatch, hprj, MainWindow.call]
  split_ifs <;> rfl

theorem setCurrentPatchByIndex_masterPatch (w : MainWindow) (prj : KonfytProject)
    (hprj : w.getCurrentProject = some prj) (index : Int) :
    (w.setCurrentPatchByIndex index).masterPatch =
      prj.getPatch
        (if (if index = -1 then prj.getNumPatches - 1 else index) < 0 ∨
            (if index = -1 then prj.getNumPatches - 1 else index) ≥ prj.getNumPatches
          then 0 else (if index = -1 then prj.getNumPatches - 1 else index)) := by
  simp only [setCurrentPatchByIndex, hprj]
  exact setCurrentPatch_masterPatch w prj hprj _

/-! ## Removing a bus or port -/

theorem sorted_all_eq_length_le_one (l : List Int) (a : Int)
    (hs : l.Pairwise (fun x y => x < y)) (h : ∀ k ∈ l, k = a) : l.length ≤ 1 := by
  match l, hs, h with
  | [], _, _ => simp
  | [_], _, _ => simp
  | x :: y :: rest, hs, h =>
    have hx : x = a := h x (by simp)
    have hy : y = a := h y (by simp)
    have hlt : x < y := (List.pairwise_cons.1 hs).1 y (by simp)
    omega

theorem exists_other_key {V : Type} (m : QMap V) (id : Int) (hc : 1 ≤ m.count)
    (hcount : m.count ≠ 1) : ∃ k ∈ m.keys, k ≠ id := by
  by_contra hno
  have hall : ∀ k ∈ m.keys, k = id := by
    intro k hk
    by_contra hne
    exact hno ⟨k, hk, hne⟩
  have hle := sorted_all_eq_length_le_one m.keys id m.sorted hall
  have hlen : m.keys.length = m.entries.length := by simp [QMap.keys, entryKeys]
  unfold QMap.count at hc hcount
  omega

theorem audioBus_getFirstBusId_other (prj : KonfytProject) (id : Int)
    (hc : 1 ≤ prj.audioBus_count) (hcount : prj.audioBus_count ≠ 1) :
    prj.audioBusMap.contains (prj.audioBus_getFirstBusId id) = true ∧
    prj.audioBus_getFirstBusId id ≠ id := by
  have hex := exists_other_key prj.audioBusMap id hc hcount
  have h := (firstId_spec prj.audioBusMap.keys id prj.audioBusMap.sorted).1 hex
  exact ⟨(QMap.contains_iff _ _).2 h.1, h.2.1⟩

theorem midiInPort_getFirstPortId_other (prj : KonfytProject) (id : Int)
    (hc : 1 ≤ prj.midiInPort_count) (hcount : prj.midiInPort_count ≠ 1) :
    prj.midiInPortMap.contains (prj.midiInPort_getFirstPortId id) = true ∧
    prj.midiInPort_getFirstPortId id ≠ id := by
  have hex := exists_other_key prj.midiInPortMap id hc hcount
  have h := (firstId_spec prj.midiInPortMap.keys id prj.midiInPortMap.sorted).1 hex
  have h0 : ¬ prj.midiInPortMap.keys.length = 0 := by
    obtain ⟨k, hk, -⟩ := hex
    have := List.length_pos_of_mem hk
    omega
  have hr : prj.midiInPort_getFirstPortId id =
      (match prj.midiInPortMap.keys.find? (fun k => k != id) with
        | some k => k | none => -1) := by
    unfold KonfytProject.midiInPort_getFirstPortId
    rw [if_neg h0]
  rw [hr]
  exact ⟨(QMap.contains_iff _ _).2 h.1, h.2.1⟩

theorem call_calls (w : MainWindow) (c : WindowCall) : (w.call c).calls = w.calls ++ [c] := rfl

theorem ui_calls (w : MainWindow) (what : String) :
    (w.ui what).calls = w.calls ++ [WindowCall.ui what] := rfl

theorem storeCurrentProject_calls (w : MainWindow) (prj : KonfytProject) :
    (w.storeCurrentProject prj).calls = w.calls := rfl

theorem foldl_call_calls {α : Type} (f : α → WindowCall) (l : List α) (w : MainWindow) :
    (l.foldl (fun w u => w.call (f u)) w).calls = w.calls ++ l.map f := by
  induction l generalizing w with
  | nil => simp
  | cons a rest ih =>
    rw [List.foldl_cons, ih, call_calls]
    simp

theorem removeBusPort_calls (w : MainWindow) (prj : KonfytProject) (item : TreeItem) (id : Int)
    (c : WindowCall) (hc : c ∈ (w.removeBusPort prj item id).calls) :
    c ∈ w.calls ∨ ∃ what, c = WindowCall.ui what := by
  unfold removeBusPort at hc
  simp only [ui_calls, List.mem_append, List.mem_singleton] at hc
  rcases hc with (hc | hc) | hc
  · split_ifs at hc
    all_goals try simp only [ui_calls, storeCurrentProject_calls, List.mem_append,
      List.mem_singleton] at hc
    all_goals tauto
  · exact Or.inr ⟨_, hc⟩
  · exact Or.inr ⟨_, hc⟩

theorem removeBusPort_calls_mono (w : MainWindow) (prj : KonfytProject) (item : TreeItem)
    (id : Int) (c : WindowCall) (hc : c ∈ w.calls) :
    c ∈ (w.removeBusPort prj item id).calls := by
  unfold removeBusPort
  simp only [ui_calls, List.mem_append, List.mem_singleton]
  refine Or.inl (Or.inl ?_)
  split_ifs
  all_goals try simp only [ui_calls, storeCurrentProject_calls, List.mem_append,
    List.mem_singleton]
  all_goals tauto

theorem foldl_call_getCurrentProject {α : Type} (f : α → WindowCall) (l : List α)
    (w : MainWindow) :
    (l.foldl (fun w u => w.call (f u)) w).getCurrentProject = w.getCurrentProject := by
  induction l generalizing w with
  | nil => rfl
  | cons a rest ih =>
    rw [List.foldl_cons, ih]
    rfl

/-- The project that `removeBusPort` leaves as the current one. -/
theorem removeBusPort_getCurrentProject (w : MainWindow) (prj0 prj : KonfytProject)
    (item : TreeItem) (id : Int) (h : w.getCurrentProject = some prj0) :
    (w.removeBusPort prj item id).getCurrentProject = some (
      if item.parent = TreeParent.busParent then prj.audioBus_remove id
      else if item.parent = TreeParent.audioInParent then prj.audioInPort_remove id
      else if item.parent = TreeParent.midiOutParent then prj.midiOutPort_removePort id
      else if item.parent = TreeParent.midiInParent then prj.midiInPort_removePort id
      else prj0) := by
  have hui : ∀ (v : MainWindow) (what : String),
      (v.ui what).getCurrentProject = v.getCurrentProject := fun _ _ => rfl
  unfold removeBusPort
  simp only [hui]
  split_ifs
  · exact getCurrentProject_storeCurrentProject _ prj0 _ h
  · exact getCurrentProject_storeCurrentProject _ prj0 _ h
  · exact getCurrentProject_storeCurrentProject _ prj0 _ h
  · exact getCurrentProject_storeCurrentProject _ prj0 _ h
  · exact h

theorem removeEntry_length {V : Type} (k : Int) (l : List (Int × V)) :
    l.length ≤ (removeEntry k l).length + 1 := by
  induction l with
  | nil => simp [removeEntry]
  | cons e rest ih =>
    unfold removeEntry
    split_ifs
    · simp
    · simp only [List.length_cons]
      omega

theorem QMap.count_remove {V : Type} (m : QMap V) (k : Int) :
    m.count ≤ (m.remove k).count + 1 := by
  have h := removeEntry_length k m.entries
  unfold QMap.count QMap.remove
  simp only
  omega

theorem audioBus_remove_count (prj : KonfytProject) (id : Int) :
    prj.audioBus_count ≤ (prj.audioBus_remove id).audioBus_count + 1 := by
  unfold KonfytProject.audioBus_remove KonfytProject.audioBus_count
  split_ifs
  · omega
  · exact QMap.count_remove _ _

theorem midiInPort_removePort_count (prj : KonfytProject) (id : Int) :
    prj.midiInPort_count ≤ (prj.midiInPort_removePort id).midiInPort_count + 1 := by
  unfold KonfytProject.midiInPort_removePort KonfytProject.midiInPort_count
  split_ifs
  · omega
  · exact QMap.count_remove _ _

/-- The three ways in which `on_actionRemove_BusPort_triggered` ends: one of the two early
returns, the user answering No, or the removal. -/
theorem remove_BusPort_shape (layers : Option Nat → List KonfytPatchLayer) (msgboxYes : Bool)
    (w : MainWindow) (prj : KonfytProject) (item : TreeItem)
    (hprj : w.getCurrentProject = some prj) :
    on_actionRemove_BusPort_triggered layers msgboxYes w item = w ∨
    (∃ c, on_actionRemove_BusPort_triggered layers msgboxYes w item = w.call c) ∨
    (¬ (item.parent = TreeParent.busParent ∧ prj.audioBus_count = 1) ∧
      ¬ (item.parent = TreeParent.midiInParent ∧ prj.midiInPort_count = 1) ∧
      ∃ (w1 : MainWindow) (id : Int), w1.getCurrentProject = some prj ∧
        on_actionRemove_BusPort_triggered layers msgboxYes w item =
          w1.removeBusPort prj item id) := by
  generalize hres : on_actionRemove_BusPort_triggered layers msgboxYes w item = r
  unfold on_actionRemove_BusPort_triggered at hres
  rw [hprj] at hres
  dsimp only at hres
  generalize (if item.parent = TreeParent.otherParent then (0 : Int) else item.id) = id at hres
  by_cases h1 : item.parent = TreeParent.busParent ∧ prj.audioBus_count = 1
  · rw [if_pos h1] at hres
    exact Or.inl hres.symm
  rw [if_neg h1] at hres
  by_cases h2 : item.parent = TreeParent.midiInParent ∧ prj.midiInPort_count = 1
  · rw [if_pos h2] at hres
    exact Or.inl hres.symm
  rw [if_neg h2] at hres
  by_cases hu : (layersUsing layers prj item id).length ≠ 0
  swap
  · rw [if_neg hu] at hres
    exact Or.inr (Or.inr ⟨h1, h2, w, id, hprj, hres.symm⟩)
  rw [if_pos hu] at hres
  have hfold : ∀ (f : Nat × Nat → WindowCall) (c : WindowCall),
      ((layersUsing layers prj item id).foldl (fun w u => w.call (f u))
        (w.call c)).getCurrentProject = some prj :=
    fun f c => (foldl_call_getCurrentProject f _ _).trans hprj
  by_cases hb : item.parent = TreeParent.busParent
  · rw [if_pos hb] at hres
    by_cases hy : msgboxYes = true
    · rw [if_pos hy] at hres
      exact Or.inr (Or.inr ⟨h1, h2, _, id, hfold _ _, hres.symm⟩)
    · rw [if_neg hy] at hres
      exact Or.inr (Or.inl ⟨_, hres.symm⟩)
  rw [if_neg hb] at hres
  by_cases ha : item.parent = TreeParent.audioInParent
  · rw [if_pos ha] at hres
    by_cases hy : msgboxYes = true
    · rw [if_pos hy] at hres
      exact Or.inr (Or.inr ⟨h1, h2, _, id, hfold _ _, hres.symm⟩)
    · rw [if_neg hy] at hres
      exact Or.inr (Or.inl ⟨_, hres.symm⟩)
  rw [if_neg ha] at hres
  by_cases ho : item.parent = TreeParent.midiOutParent
  · rw [if_pos ho] at hres
    by_cases hy : msgboxYes = true
    · rw [if_pos hy] at hres
      exact Or.inr (Or.inr ⟨h1, h2, _, id, hfold _ _, hres.symm⟩)
    · rw [if_neg hy] at hres
      exact Or.inr (Or.inl ⟨_, hres.symm⟩)
  rw [if_neg ho] at hres
  by_cases hm : item.parent = TreeParent.midiInParent
  · rw [if_pos hm] at hres
    by_cases hy : msgboxYes = true
    · rw [if_pos hy] at hres
      exact Or.inr (Or.inr ⟨h1, h2, _, id, hfold _ _, hres.symm⟩)
    · rw [if_neg hy] at hres
      exact Or.inr (Or.inl ⟨_, hres.symm⟩)
  rw [if_neg hm] at hres
  exact Or.inr (Or.inr ⟨h1, h2, w, id, hprj, hres.symm⟩)

/-- What `on_actionRemove_BusPort_triggered` does for a bus that is not the last one. -/
theorem remove_BusPort_bus_eq (layers : Option Nat → List KonfytPatchLayer) (msgboxYes : Bool)
    (w : MainWindow) (prj : KonfytProject) (item : TreeItem)
    (hprj : w.getCurrentProject = some prj) (hb : item.parent = TreeParent.busParent)
    (h1 : prj.audioBus_count ≠ 1) :
    ∃ text, on_actionRemove_BusPort_triggered layers msgboxYes w item =
      if (layersUsing layers prj item item.id).length ≠ 0 then
        if msgboxYes = true then
          ((layersUsing layers prj item item.id).foldl (fun w u =>
            w.call (WindowCall.pengine_setLayerBus (prj.getPatch u.1) u.2
              (prj.audioBus_getFirstBusId item.id))) (w.call (WindowCall.msgbox text))).removeBusPort
            prj item item.id
        else w.call (WindowCall.msgbox text)
      else w.removeBusPort prj item item.id := by
  generalize hres : on_actionRemove_BusPort_triggered layers msgboxYes w item = r
  unfold on_actionRemove_BusPort_triggered at hres
  rw [hprj] at hres
  dsimp only at hres
  have hid : (if item.parent = TreeParent.otherParent then (0 : Int) else item.id) = item.id := by
    rw [hb]
    rfl
  rw [hid] at hres
  have h1' : ¬ (item.parent = TreeParent.busParent ∧ prj.audioBus_count = 1) := fun h => h1 h.2
  have h2' : ¬ (item.parent = TreeParent.midiInParent ∧ prj.midiInPort_count = 1) := by
    rw [hb]
    exact fun h => TreeParent.noConfusion h.1
  rw [if_neg h1', if_neg h2'] at hres
  by_cases hu : (layersUsing layers prj item item.id).length ≠ 0
  · rw [if_pos hu, if_pos hb] at hres
    apply Exists.intro
    rw [if_pos hu]
    exact hres.symm
  · rw [if_neg hu] at hres
    refine ⟨"", ?_⟩
    rw [if_neg hu]
    exact hres.symm

/-- What `on_actionRemove_BusPort_triggered` does for a MIDI input port that is not the last
one. -/
theorem remove_BusPort_midiIn_eq (layers : Option Nat → List KonfytPatchLayer)
    (msgboxYes : Bool) (w : MainWindow) (prj : KonfytProject) (item : TreeItem)
    (hprj : w.getCurrentProject = some prj) (hm : item.parent = TreeParent.midiInParent)
    (h1 : prj.midiInPort_count ≠ 1) :
    ∃ text, on_actionRemove_BusPort_triggered layers msgboxYes w item =
      if (layersUsing layers prj item item.id).length ≠ 0 then
        if msgboxYes = true then
          ((layersUsing layers prj item item.id).foldl (fun w u =>
            w.call (WindowCall.pengine_setLayerMidiInPort (prj.getPatch u.1) u.2
              (prj.midiInPort_getFirstPortId item.id)))
            (w.call (WindowCall.msgbox text))).removeBusPort prj item item.id
        else w.call (WindowCall.msgbox text)
      else w.removeBusPort prj item item.id := by
  generalize hres : on_actionRemove_BusPort_triggered layers msgboxYes w item = r
  unfold on_actionRemove_BusPort_triggered at hres
  rw [hprj] at hres
  dsimp only at hres
  have hid : (if item.parent = TreeParent.otherParent then (0 : Int) else item.id) = item.id := by
    rw [hm]
    rfl
  rw [hid] at hres
  have h1' : ¬ (item.parent = TreeParent.busParent ∧ prj.audioBus_count = 1) := by
    rw [hm]
    exact fun h => TreeParent.noConfusion h.1
  have h2' : ¬ (item.parent = TreeParent.midiInParent ∧ prj.midiInPort_count = 1) :=
    fun h => h1 h.2
  have hb : ¬ item.parent = TreeParent.busParent := by
    rw [hm]
    exact fun h => TreeParent.noConfusion h
  have ha : ¬ item.parent = TreeParent.audioInParent := by
    rw [hm]
    exact fun h => TreeParent.noConfusion h
  have ho : ¬ item.parent = TreeParent.midiOutParent := by
    rw [hm]
    exact fun h => TreeParent.noConfusion h
  rw [if_neg h1', if_neg h2'] at hres
  by_cases hu : (layersUsing layers prj item item.id).length ≠ 0
  · rw [if_pos hu, if_neg hb, if_neg ha, if_neg ho, if_pos hm] at hres
    apply Exists.intro
    rw [if_pos hu]
    exact hres.symm
  · rw [if_neg hu] at hres
    refine ⟨"", ?_⟩
    rw [if_neg hu]
    exact hres.symm

theorem remove_BusPort_last_bus (layers : Option Nat → List KonfytPatchLayer)
    (msgboxYes : Bool) (w : MainWindow) (prj : KonfytProject) (item : TreeItem)
    (hprj : w.getCurrentProject = some prj) (hb : item.parent = TreeParent.busParent)
    (h1 : prj.audioBus_count = 1) :
    on_actionRemove_BusPort_triggered layers msgboxYes w item = w := by
  unfold on_actionRemove_BusPort_triggered
  rw [hprj]
  dsimp only
  rw [if_pos ⟨hb, h1⟩]

theorem remove_BusPort_last_midiIn (layers : Option Nat → List KonfytPatchLayer)
    (msgboxYes : Bool) (w : MainWindow) (prj : KonfytProject) (item : TreeItem)
    (hprj : w.getCurrentProject = some prj) (hm : item.parent = TreeParent.midiInParent)
    (h1 : prj.midiInPort_count = 1) :
    on_actionRemove_BusPort_triggered layers msgboxYes w item = w := by
  have hb : ¬ (item.parent = TreeParent.busParent ∧ prj.audioBus_count = 1) := by
    rw [hm]
    exact fun h => TreeParent.noConfusion h.1
  unfold on_actionRemove_BusPort_triggered
  rw [hprj]
  dsimp only
  rw [if_neg hb, if_pos ⟨hm, h1⟩]

/-- After `on_actionRemove_BusPort_triggered` the current project still has a bus and a
MIDI input port if it had one before. -/
theorem remove_BusPort_counts (layers : Option Nat → List KonfytPatchLayer)
    (msgboxYes : Bool) (w : MainWindow) (prj : KonfytProject) (item : TreeItem)
    (hprj : w.getCurrentProject = some prj) :
    ∃ prj', (on_actionRemove_BusPort_triggered layers msgboxYes w item).getCurrentProject =
        some prj' ∧
      (1 ≤ prj.audioBus_count → 1 ≤ prj'.audioBus_count) ∧
      (1 ≤ prj.midiInPort_count → 1 ≤ prj'.midiInPort_count) := by
  rcases remove_BusPort_shape layers msgboxYes w prj item hprj with h | ⟨c, h⟩ |
    ⟨h1, h2, w1, id, hw1, h⟩
  · rw [h]
    exact ⟨prj, hprj, id, id⟩
  · rw [h]
    exact ⟨prj, hprj, id, id⟩
  · rw [h, removeBusPort_getCurrentProject w1 prj prj item id hw1]
    refine ⟨_, rfl, ?_, ?_⟩
    · intro hc
      split_ifs with hb ha ho hm
      · have := audioBus_remove_count prj id
        have hne : prj.audioBus_count ≠ 1 := fun e => h1 ⟨hb, e⟩
        omega
      · unfold KonfytProject.audioInPort_remove
        split_ifs <;> exact hc
      · unfold KonfytProject.midiOutPort_removePort
        split_ifs <;> exact hc
      · unfold KonfytProject.midiInPort_removePort
        split_ifs <;> exact hc
      · exact hc
    · intro hc
      split_ifs with hb ha ho hm
      · unfold KonfytProject.audioBus_remove
        split_ifs <;> exact hc
      · unfold KonfytProject.audioInPort_remove
        split_ifs <;> exact hc
      · unfold KonfytProject.midiOutPort_removePort
        split_ifs <;> exact hc
      · have := midiInPort_removePort_count prj id
        have hne : prj.midiInPort_count ≠ 1 := fun e => h2 ⟨hm, e⟩
        omega
      · exact hc

/-- The `setLayerBus` calls of `on_actionRemove_BusPort_triggered` for a bus that is not
the last one: each new one carries the first other bus id, and there is one for every layer
that uses the bus when the user answers Yes. -/
theorem remove_BusPort_bus_calls (layers : Option Nat → List KonfytPatchLayer)
    (msgboxYes : Bool) (w : MainWindow) (prj : KonfytProject) (item : TreeItem)
    (hprj : w.getCurrentProject = some prj) (hb : item.parent = TreeParent.busParent)
    (h1 : prj.audioBus_count ≠ 1) :
    (∀ patch layer bus, WindowCall.pengine_setLayerBus patch layer bus ∈
        (on_actionRemove_BusPort_triggered layers msgboxYes w item).calls →
      WindowCall.pengine_setLayerBus patch layer bus ∈ w.calls ∨
        bus = prj.audioBus_getFirstBusId item.id) ∧
    (msgboxYes = true → ∀ u ∈ layersUsing layers prj item item.id,
      WindowCall.pengine_setLayerBus (prj.getPatch u.1) u.2
        (prj.audioBus_getFirstBusId item.id) ∈
        (on_actionRemove_BusPort_triggered layers msgboxYes w item).calls) := by
  obtain ⟨text, h⟩ := remove_BusPort_bus_eq layers msgboxYes w prj item hprj hb h1
  rw [h]
  constructor
  · intro patch layer bus hc
    split_ifs at hc
    · rcases removeBusPort_calls _ _ _ _ _ hc with hc | ⟨what, hc⟩
      · rw [foldl_call_calls, call_calls] at hc
        simp only [List.mem_append, List.mem_singleton, List.mem_map] at hc
        rcases hc with (hc | hc) | ⟨u, -, hc⟩
        · exact Or.inl hc
        · exact WindowCall.noConfusion hc
        · injection hc with _ _ hbus
          exact Or.inr hbus.symm
      · exact WindowCall.noConfusion hc
    · rw [call_calls] at hc
      simp only [List.mem_append, List.mem_singleton] at hc
      rcases hc with hc | hc
      · exact Or.inl hc
      · exact WindowCall.noConfusion hc
    · rcases removeBusPort_calls _ _ _ _ _ hc with hc | ⟨what, hc⟩
      · exact Or.inl hc
      · exact WindowCall.noConfusion hc
  · intro hy u hu
    have hlen : (layersUsing layers prj item item.id).length ≠ 0 :=
      Nat.pos_iff_ne_zero.1 (List.length_pos_of_mem hu)
    rw [if_pos hlen, if_pos hy]
    apply removeBusPort_calls_mono
    rw [foldl_call_calls]
    exact List.mem_append_right _ (List.mem_map.2 ⟨u, hu, rfl⟩)

/-- The `setLayerMidiInPort` calls of `on_actionRemove_BusPort_triggered` for a MIDI input
port that is not the last one. -/
theorem remove_BusPort_midiIn_calls (layers : Option Nat → List KonfytPatchLayer)
    (msgboxYes : Bool) (w : MainWindow) (prj : KonfytProject) (item : TreeItem)
    (hprj : w.getCurrentProject = some prj) (hm : item.parent = TreeParent.midiInParent)
    (h1 : prj.midiInPort_count ≠ 1) :
    (∀ patch layer port, WindowCall.pengine_setLayerMidiInPort patch layer port ∈
        (on_actionRemove_BusPort_triggered layers msgboxYes w item).calls →
      WindowCall.pengine_setLayerMidiInPort patch layer port ∈ w.calls ∨
        port = prj.midiInPort_getFirstPortId item.id) ∧
    (msgboxYes = true → ∀ u ∈ layersUsing layers prj item item.id,
      WindowCall.pengine_setLayerMidiInPort (prj.getPatch u.1) u.2
        (prj.midiInPort_getFirstPortId item.id) ∈
        (on_actionRemove_BusPort_triggered layers msgboxYes w item).calls) := by
  obtain ⟨text, h⟩ := remove_BusPort_midiIn_eq layers msgboxYes w prj item hprj hm h1
  rw [h]
  constructor
  · intro patch layer port hc
    split_ifs at hc
    · rcases removeBusPort_calls _ _ _ _ _ hc with hc | ⟨what, hc⟩
      · rw [foldl_call_calls, call_calls] at hc
        simp only [List.mem_append, List.mem_singleton, List.mem_map] at hc
        rcases hc with (hc | hc) | ⟨u, -, hc⟩
        · exact Or.inl hc
        · exact WindowCall.noConfusion hc
        · injection hc with _ _ hport
          exact Or.inr hport.symm
      · exact WindowCall.noConfusion hc
    · rw [call_calls] at hc
      simp only [List.mem_append, List.mem_singleton] at hc
      rcases hc with hc | hc
      · exact Or.inl hc
      · exact WindowCall.noConfusion hc
    · rcases removeBusPort_calls _ _ _ _ _ hc with hc | ⟨what, hc⟩
      · exact Or.inl hc
      · exact WindowCall.noConfusion hc
  · intro hy u hu
    have hlen : (layersUsing layers prj item item.id).length ≠ 0 :=
      Nat.pos_iff_ne_zero.1 (List.length_pos_of_mem hu)
    rw [if_pos hlen, if_pos hy]
    apply removeBusPort_calls_mono
    rw [foldl_call_calls]
    exact List.mem_append_right _ (List.mem_map.2 ⟨u, hu, rfl⟩)

/-- Claim C19: `on_actionRemove_BusPort_triggered` never removes the last audio bus or the
last MIDI input port.  With a current project, the handler returns without any effect when
the selected item is a bus and the project has one bus, or a MIDI input port and the project
has one such port; whatever is selected, a project that had a bus (a MIDI input port) still
has one afterwards.  When a bus is selected and the project has two buses or more, the
replacement id `audioBus_getFirstBusId` is the id of a bus of the project and differs
from the removed id; every `setLayerBus` call the handler adds carries that replacement id,
and there is one such call for each layer using the bus once the user confirms.  The same
holds for a MIDI input port with `midiInPort_getFirstPortId` and `setLayerMidiInPort`. -/
theorem remove_BusPort_keeps_last (layers : Option Nat → List KonfytPatchLayer)
    (msgboxYes : Bool) (w : MainWindow) (prj : KonfytProject) (item : TreeItem)
    (hprj : w.getCurrentProject = some prj) :
    (item.parent = TreeParent.busParent → prj.audioBus_count = 1 →
      on_actionRemove_BusPort_triggered layers msgboxYes w item = w) ∧
    (item.parent = TreeParent.midiInParent → prj.midiInPort_count = 1 →
      on_actionRemove_BusPort_triggered layers msgboxYes w item = w) ∧
    (∃ prj', (on_actionRemove_BusPort_triggered layers msgboxYes w item).getCurrentProject =
        some prj' ∧
      (1 ≤ prj.audioBus_count → 1 ≤ prj'.audioBus_count) ∧
      (1 ≤ prj.midiInPort_count → 1 ≤ prj'.midiInPort_count)) ∧
    (item.parent = TreeParent.busParent → prj.audioBus_count ≠ 1 →
      (1 ≤ prj.audioBus_count →
        prj.audioBusMap.contains (prj.audioBus_getFirstBusId item.id) = true ∧
        prj.audioBus_getFirstBusId item.id ≠ item.id) ∧
      (∀ patch layer bus, WindowCall.pengine_setLayerBus patch layer bus ∈
          (on_actionRemove_BusPort_triggered layers msgboxYes w item).calls →
        WindowCall.pengine_setLayerBus patch layer bus ∈ w.calls ∨
          bus = prj.audioBus_getFirstBusId item.id) ∧
      (msgboxYes = true → ∀ u ∈ layersUsing layers prj item item.id,
        WindowCall.pengine_setLayerBus (prj.getPatch u.1) u.2
          (prj.audioBus_getFirstBusId item.id) ∈
          (on_actionRemove_BusPort_triggered layers msgboxYes w item).calls)) ∧
    (item.parent = TreeParent.midiInParent → prj.midiInPort_count ≠ 1 →
      (1 ≤ prj.midiInPort_count →
        prj.midiInPortMap.contains (prj.midiInPort_getFirstPortId item.id) = true ∧
        prj.midiInPort_getFirstPortId item.id ≠ item.id) ∧
      (∀ patch layer port, WindowCall.pengine_setLayerMidiInPort patch layer port ∈
          (on_actionRemove_BusPort_triggered layers msgboxYes w item).calls →
        WindowCall.pengine_setLayerMidiInPort patch layer port ∈ w.calls ∨
          port = prj.midiInPort_getFirstPortId item.id) ∧
      (msgboxYes = true → ∀ u ∈ layersUsing layers prj item item.id,
        WindowCall.pengine_setLayerMidiInPort (prj.getPatch u.1) u.2
          (prj.midiInPort_getFirstPortId item.id) ∈
          (on_actionRemove_BusPort_triggered layers msgboxYes w item).calls)) :=
  ⟨remove_BusPort_last_bus layers msgboxYes w prj item hprj,
   remove_BusPort_last_midiIn layers msgboxYes w prj item hprj,
   remove_BusPort_counts layers msgboxYes w prj item hprj,
   fun hb h1 =>
     ⟨fun hc => audioBus_getFirstBusId_other prj item.id hc h1,
      remove_BusPort_bus_calls layers msgboxYes w prj item hprj hb h1⟩,
   fun hm h1 =>
     ⟨fun hc => midiInPort_getFirstPortId_other prj item.id hc h1,
      remove_BusPort_midiIn_calls layers msgboxYes w prj item hprj hm h1⟩⟩

/-- In the project with the buses 0, 1, 2 the replacement for bus 0 is the existing bus 1,
and the only bus of a new project is not removed. -/
theorem remove_BusPort_keeps_last_witness :
    windowWithThreePatches.getCurrentProject = some projectWithThreeBuses ∧
    projectWithThreeBuses.audioBus_count ≠ 1 ∧
    (projectWithThreeBuses.audioBusMap.contains
        (projectWithThreeBuses.audioBus_getFirstBusId busItemZero.id) = true ∧
      projectWithThreeBuses.audioBus_getFirstBusId busItemZero.id ≠ busItemZero.id) ∧
    windowWithNewProject.getCurrentProject = some KonfytProject.new ∧
    KonfytProject.new.audioBus_count = 1 ∧
    on_actionRemove_BusPort_triggered layersOnBusZero true windowWithNewProject busItemZero =
      windowWithNewProject :=
  ⟨rfl, by decide,
   ((remove_BusPort_keeps_last layersOnBusZero true windowWithThreePatches
      projectWithThreeBuses busItemZero rfl).2.2.2.1 rfl (by decide)).1 (by decide),
   rfl, by decide,
   (remove_BusPort_keeps_last layersOnBusZero true windowWithNewProject KonfytProject.new
      busItemZero rfl).1 rfl (by decide)⟩

/-! ## Panic -/

/-- The filter keeps the type of an event. -/
theorem KonfytMidiFilter.apply_type (f : KonfytMidiFilter) (ev ev' : konfytMidiEvent)
    (h : f.apply ev = some ev') : ev'.type = ev.type := by
  unfold KonfytMidiFilter.apply at h
  dsimp only at h
  split_ifs at h
  all_goals try simp only [Option.map_some', Option.map_none', Option.some.injEq,
    reduceCtorEq] at h
  all_goals try split_ifs at h
  all_goals subst h
  all_goals rfl

/-- The property of an engine step in panic mode: the panic flag stays set and no NoteOn is
among the events the step delivers. -/
theorem dispatchToRoute_in_panic (j : KonfytJackEngine) (src : Option Nat)
    (ev : konfytMidiEvent) (r : KfJackMidiRoute) (hp : j.panicFlag = true) :
    (j.dispatchToRoute src ev r).panicFlag = true ∧
    ∃ rest, (j.dispatchToRoute src ev r).delivered = j.delivered ++ rest ∧
      ∀ d ∈ rest, d.event.type ≠ MIDI_EVENT_TYPE_NOTEON := by
  have hsame : j.panicFlag = true ∧ ∃ rest, j.delivered = j.delivered ++ rest ∧
      ∀ d ∈ rest, d.event.type ≠ MIDI_EVENT_TYPE_NOTEON :=
    ⟨hp, [], by simp, by simp⟩
  unfold KonfytJackEngine.dispatchToRoute
  split_ifs with h1
  · exact hsame
  · split
    · exact hsame
    · rename_i ev' hev
      split_ifs with h2
      · exact hsame
      · refine ⟨hp, [_], rfl, ?_⟩
        intro d hd
        rw [List.mem_singleton] at hd
        rw [hd]
        exact h2

theorem releaseOf_type (record : KonfytJackNoteOnRecord) (src : Option Nat)
    (ev : konfytMidiEvent) (d : MidiDelivery)
    (h : KonfytJackEngine.releaseOf record src ev = some d) : d.event.type = ev.type := by
  unfold KonfytJackEngine.releaseOf at h
  split_ifs at h
  split at h
  · exact Option.noConfusion h
  · rename_i ev' hev
    split_ifs at h
    injection h with h
    rw [← h]
    exact KonfytMidiFilter.apply_type _ _ ev' hev

theorem processMidiEvent_in_panic (j : KonfytJackEngine) (src : Option Nat)
    (ev : konfytMidiEvent) (hp : j.panicFlag = true) :
    (j.processMidiEvent src ev).panicFlag = true ∧
    ∃ rest, (j.processMidiEvent src ev).delivered = j.delivered ++ rest ∧
      ∀ d ∈ rest, d.event.type ≠ MIDI_EVENT_TYPE_NOTEON := by
  unfold KonfytJackEngine.processMidiEvent
  split_ifs with hoff
  · refine ⟨hp, _, rfl, ?_⟩
    intro d hd
    obtain ⟨record, -, hrel⟩ := List.mem_filterMap.1 hd
    rw [releaseOf_type record src ev d hrel, hoff]
    decide
  · generalize j.midiRoutes = routes
    induction routes generalizing j with
    | nil => exact ⟨hp, [], by simp, by simp⟩
    | cons r rest ih =>
      rw [List.foldl_cons]
      obtain ⟨hp1, rest1, hd1, hn1⟩ := dispatchToRoute_in_panic j src ev r hp
      obtain ⟨hp2, rest2, hd2, hn2⟩ := ih (j.dispatchToRoute src ev r) hp1
      refine ⟨hp2, rest1 ++ rest2, ?_, ?_⟩
      · rw [hd2, hd1, List.append_assoc]
      · intro d hd
        rcases List.mem_append.1 hd with hd | hd
        · exact hn1 d hd
        · exact hn2 d hd

/-- While the panic flag is set, no sequence of incoming events makes the engine deliver a
NoteOn. -/
theorem processMidiEvents_in_panic (events : List (Option Nat × konfytMidiEvent))
    (j : KonfytJackEngine) (hp : j.panicFlag = true) :
    (events.foldl (fun j e => j.processMidiEvent e.1 e.2) j).panicFlag = true ∧
    ∃ rest, (events.foldl (fun j e => j.processMidiEvent e.1 e.2) j).delivered =
        j.delivered ++ rest ∧
      ∀ d ∈ rest, d.event.type ≠ MIDI_EVENT_TYPE_NOTEON := by
  induction events generalizing j with
  | nil => exact ⟨hp, [], by simp, by simp⟩
  | cons e rest ih =>
    rw [List.foldl_cons]
    obtain ⟨hp1, rest1, hd1, hn1⟩ := processMidiEvent_in_panic j e.1 e.2 hp
    obtain ⟨hp2, rest2, hd2, hn2⟩ := ih (j.processMidiEvent e.1 e.2) hp1
    refine ⟨hp2, rest1 ++ rest2, ?_, ?_⟩
    · rw [hd2, hd1, List.append_assoc]
    · intro d hd
      rcases List.mem_append.1 hd with hd | hd
      · exact hn1 d hd
      · exact hn2 d hd

/-- Claim C18: for every window state and boolean p, `triggerPanic p` sets `panicState` to
p and makes exactly one patch-engine call, `pengine->panic(p)`, followed by GUI updates only;
the patch engine hands p to the engine.  After `triggerPanic true` a note-off has been
delivered to the destination of every note-on record, an all-notes-off controller to the
destination of every active route, no record is left, and whatever events arrive afterwards
the engine stays in panic and delivers no NoteOn; `triggerPanic false` clears the panic flag.
Two consecutive Panic-Toggle actions restore `panicState`, and the momentary Panic action
sets it. -/
theorem triggerPanic_spec (w : MainWindow) (p : Bool) :
    (w.triggerPanic p).panicState = p ∧
    (∃ rest, (w.triggerPanic p).calls = w.calls ++ WindowCall.pengine_panic p :: rest ∧
      ∀ c ∈ rest, ∃ what, c = WindowCall.ui what) ∧
    (w.triggerPanic p).jack = w.jack.panic p ∧
    (∀ record ∈ w.jack.noteOnList,
      ({ toJackPort := record.jackPortNotFluidsynth, port := record.port,
         fluidSynth := record.fluidSynth,
         event := { type := MIDI_EVENT_TYPE_NOTEOFF, data1 := record.note } } : MidiDelivery) ∈
        (w.triggerPanic true).jack.delivered) ∧
    (∀ r ∈ w.jack.midiRoutes, r.active = true →
      ({ toJackPort := r.destIsJackPort, port := r.destPort, fluidSynth := r.destFluidsynthID,
         event := { type := MIDI_EVENT_TYPE_CC, data1 := MIDI_CC_ALL_NOTES_OFF } } :
          MidiDelivery) ∈ (w.triggerPanic true).jack.delivered) ∧
    (w.triggerPanic true).jack.noteOnList = [] ∧
    (∀ events : List (Option Nat × konfytMidiEvent),
      (events.foldl (fun j e => j.processMidiEvent e.1 e.2)
        (w.triggerPanic true).jack).panicFlag = true ∧
      ∃ rest, (events.foldl (fun j e => j.processMidiEvent e.1 e.2)
          (w.triggerPanic true).jack).delivered = (w.triggerPanic true).jack.delivered ++ rest ∧
        ∀ d ∈ rest, d.event.type ≠ MIDI_EVENT_TYPE_NOTEON) ∧
    (w.triggerPanic false).jack.panicFlag = false ∧
    (w.triggerPanic false).jack.delivered = w.jack.delivered ∧
    w.on_actionPanicToggle_triggered.on_actionPanicToggle_triggered.panicState = w.panicState ∧
    w.on_actionPanic_triggered.panicState = true := by
  have hjack : ∀ q, (w.triggerPanic q).jack = w.jack.panic q := fun _ => rfl
  have hcalls : (w.triggerPanic p).calls = w.calls ++ WindowCall.pengine_panic p ::
      [WindowCall.ui "pushButton_Panic.setChecked(panicState)",
       WindowCall.ui "layer widgets: indicateSustain(false), indicatePitchbend(false)",
       WindowCall.ui "portIndicatorHandler.clearSustain, updateGlobalSustainIndicator",
       WindowCall.ui "portIndicatorHandler.clearPitchbend, updateGlobalPitchbendIndicator"] := by
    show w.calls ++ [_] ++ [_] ++ [_] ++ [_] ++ [_] = _
    simp only [List.append_assoc, List.singleton_append]
    rfl
  refine ⟨rfl, ⟨_, hcalls, ?_⟩, rfl, ?_, ?_, rfl, ?_, rfl, rfl, ?_, rfl⟩
  · intro c hc
    simp only [List.mem_cons, List.mem_singleton, List.not_mem_nil, or_false] at hc
    rcases hc with hc | hc | hc | hc
    all_goals exact ⟨_, hc⟩
  · intro record hrec
    rw [hjack]
    unfold KonfytJackEngine.panic
    simp only [if_true, List.mem_append, List.mem_map]
    exact Or.inl (Or.inr ⟨record, hrec, rfl⟩)
  · intro r hr hact
    rw [hjack]
    unfold KonfytJackEngine.panic
    simp only [if_true, List.mem_append, List.mem_map, List.mem_filter]
    exact Or.inr ⟨r, ⟨hr, hact⟩, rfl⟩
  · intro events
    exact processMidiEvents_in_panic events _ rfl
  · show (!(!w.panicState)) = w.panicState
    cases w.panicState <;> rfl

/-- With note 62 sounding on port 2, panic delivers the note-off of note 62 and the
all-notes-off controller to port 2, and a NoteOn arriving in panic mode is not delivered. -/
theorem triggerPanic_spec_witness :
    engineHoldingNote.noteOnList =
      [{ note := 62, jackPortNotFluidsynth := true, fluidSynth := none, port := some 2,
         sourcePort := some 1, filter := { zone := { transposeAdd := 2 } },
         globalTranspose := 0 }] ∧
    (windowHoldingNote.triggerPanic true).panicState = true ∧
    (windowHoldingNote.triggerPanic true).jack.delivered =
      [{ toJackPort := true, port := some 2, fluidSynth := none,
         event := { type := MIDI_EVENT_TYPE_NOTEON, data1 := 62, data2 := 100 } },
       { toJackPort := true, port := some 2, fluidSynth := none,
         event := { type := MIDI_EVENT_TYPE_NOTEOFF, data1 := 62 } },
       { toJackPort := true, port := some 2, fluidSynth := none,
         event := { type := MIDI_EVENT_TYPE_CC, data1 := MIDI_CC_ALL_NOTES_OFF } }] ∧
    ((windowHoldingNote.triggerPanic true).jack.processMidiEvent (some 1) noteOn60).delivered =
      (windowHoldingNote.triggerPanic true).jack.delivered ∧
    windowHoldingNote.on_actionPanicToggle_triggered.on_actionPanicToggle_triggered.panicState =
      windowHoldingNote.panicState :=
  ⟨by decide, (triggerPanic_spec windowHoldingNote true).1, by decide, by decide,
   (triggerPanic_spec windowHoldingNote true).2.2.2.2.2.2.2.2.2.1⟩

/-! ## Note-evOn records -/

/-- A NoteOn that passes a filter has its note inside the zone, on the input channel, and
comes out transposed. -/
theorem KonfytMidiFilter.apply_noteon (f : KonfytMidiFilter) (evOn ev' : konfytMidiEvent)
    (hon : evOn.type = MIDI_EVENT_TYPE_NOTEON) (h : f.apply evOn = some ev') :
    ¬ (f.inputChannel ≠ -1 ∧ evOn.channel ≠ f.inputChannel) ∧
    ¬ (evOn.data1 < f.zone.lowNote ∨ evOn.data1 > f.zone.highNote) ∧
    ¬ (evOn.data1 + f.zone.transposeAdd < 0 ∨ evOn.data1 + f.zone.transposeAdd > 127) ∧
    ev'.data1 = evOn.data1 + f.zone.transposeAdd := by
  unfold KonfytMidiFilter.apply at h
  dsimp only at h
  have ht : evOn.type = MIDI_EVENT_TYPE_NOTEON ∨ evOn.type = MIDI_EVENT_TYPE_NOTEOFF := Or.inl hon
  by_cases h1 : f.inputChannel ≠ -1 ∧ evOn.channel ≠ f.inputChannel
  · rw [if_pos h1] at h
    exact Option.noConfusion h
  rw [if_neg h1, if_pos ht] at h
  by_cases h2 : evOn.data1 < f.zone.lowNote ∨ evOn.data1 > f.zone.highNote
  · rw [if_pos h2] at h
    exact Option.noConfusion h
  rw [if_neg h2] at h
  by_cases h3 : evOn.type = MIDI_EVENT_TYPE_NOTEON ∧
      (evOn.data2 < f.zone.lowVel ∨ evOn.data2 > f.zone.highVel)
  · rw [if_pos h3] at h
    exact Option.noConfusion h
  rw [if_neg h3] at h
  by_cases h4 : evOn.data1 + f.zone.transposeAdd < 0 ∨ evOn.data1 + f.zone.transposeAdd > 127
  · rw [if_pos h4] at h
    exact Option.noConfusion h
  rw [if_neg h4] at h
  refine ⟨h1, h2, h4, ?_⟩
  simp only [Option.map_some', Option.some.injEq] at h
  split_ifs at h
  all_goals subst h
  all_goals rfl

/-- A NoteOff on the input channel with its note inside the zone passes the filter and comes
out transposed. -/
theorem KonfytMidiFilter.apply_noteoff (f : KonfytMidiFilter) (evOff : konfytMidiEvent)
    (hoff : evOff.type = MIDI_EVENT_TYPE_NOTEOFF)
    (h1 : ¬ (f.inputChannel ≠ -1 ∧ evOff.channel ≠ f.inputChannel))
    (h2 : ¬ (evOff.data1 < f.zone.lowNote ∨ evOff.data1 > f.zone.highNote))
    (h4 : ¬ (evOff.data1 + f.zone.transposeAdd < 0 ∨ evOff.data1 + f.zone.transposeAdd > 127)) :
    ∃ ev'', f.apply evOff = some ev'' ∧ ev''.data1 = evOff.data1 + f.zone.transposeAdd ∧
      ev''.type = MIDI_EVENT_TYPE_NOTEOFF := by
  have ht : evOff.type = MIDI_EVENT_TYPE_NOTEON ∨ evOff.type = MIDI_EVENT_TYPE_NOTEOFF := Or.inr hoff
  have h3 : ¬ (evOff.type = MIDI_EVENT_TYPE_NOTEON ∧
      (evOff.data2 < f.zone.lowVel ∨ evOff.data2 > f.zone.highVel)) := by
    rw [hoff]
    exact fun h => absurd h.1 (by decide)
  unfold KonfytMidiFilter.apply
  dsimp only
  rw [if_neg h1, if_pos ht, if_neg h2, if_neg h3, if_neg h4]
  simp only [Option.map_some']
  split_ifs
  · exact ⟨_, rfl, rfl, hoff⟩
  · exact ⟨_, rfl, rfl, hoff⟩

/-- A release goes to the destination of the record and carries the note of the record. -/
theorem releaseOf_dest (record : KonfytJackNoteOnRecord) (src : Option Nat)
    (ev : konfytMidiEvent) (d : MidiDelivery)
    (h : KonfytJackEngine.releaseOf record src ev = some d) :
    d.toJackPort = record.jackPortNotFluidsynth ∧ d.port = record.port ∧
    d.fluidSynth = record.fluidSynth ∧ d.event.data1 = record.note := by
  unfold KonfytJackEngine.releaseOf at h
  split_ifs at h
  split at h
  · exact Option.noConfusion h
  · split_ifs at h
    injection h with h
    rw [← h]
    exact ⟨rfl, rfl, rfl, rfl⟩

/-- A NoteOn that `dispatchToRoute` records: what is recorded and delivered. -/
theorem dispatchToRoute_recorded (jack : KonfytJackEngine) (src : Option Nat)
    (r : KfJackMidiRoute) (evOn : konfytMidiEvent)
    (hon : evOn.type = MIDI_EVENT_TYPE_NOTEON)
    (hdisp : (jack.dispatchToRoute src evOn r).noteOnList ≠ jack.noteOnList) :
    ∃ ev', r.filter.apply evOn = some ev' ∧
      jack.dispatchToRoute src evOn r =
        KonfytJackEngine.deliverToRoute
          { jack with noteOnList := jack.noteOnList ++
              [{ note := ev'.data1 + jack.globalTranspose,
                 jackPortNotFluidsynth := r.destIsJackPort,
                 fluidSynth := r.destFluidsynthID, port := r.destPort, sourcePort := src,
                 filter := r.filter, globalTranspose := jack.globalTranspose }] } r
          { ev' with data1 := ev'.data1 + jack.globalTranspose } := by
  by_cases h1 : (!r.active || r.source != src) = true
  · have hsame : jack.dispatchToRoute src evOn r = jack := by
      unfold KonfytJackEngine.dispatchToRoute
      rw [if_pos h1]
    rw [hsame] at hdisp
    exact absurd rfl hdisp
  cases hf : r.filter.apply evOn with
  | none =>
    have hsame : jack.dispatchToRoute src evOn r = jack := by
      unfold KonfytJackEngine.dispatchToRoute
      rw [if_neg h1, hf]
    rw [hsame] at hdisp
    exact absurd rfl hdisp
  | some ev' =>
    have htype : ev'.type = MIDI_EVENT_TYPE_NOTEON :=
      (KonfytMidiFilter.apply_type _ _ _ hf).trans hon
    by_cases hp : jack.panicFlag = true
    · have hsame : jack.dispatchToRoute src evOn r = jack := by
        unfold KonfytJackEngine.dispatchToRoute
        rw [if_neg h1, hf]
        dsimp only
        rw [if_pos htype, if_pos hp]
      rw [hsame] at hdisp
      exact absurd rfl hdisp
    by_cases hr : ev'.data1 + jack.globalTranspose < 0 ∨ ev'.data1 + jack.globalTranspose > 127
    · have hsame : jack.dispatchToRoute src evOn r = jack := by
        unfold KonfytJackEngine.dispatchToRoute
        rw [if_neg h1, hf]
        dsimp only
        rw [if_pos htype, if_neg hp, if_pos hr]
      rw [hsame] at hdisp
      exact absurd rfl hdisp
    refine ⟨ev', rfl, ?_⟩
    unfold KonfytJackEngine.dispatchToRoute
    rw [if_neg h1, hf]
    dsimp only
    rw [if_pos htype, if_neg hp, if_neg hr]

/-- Claim C17: when a NoteOn is dispatched through a route and recorded, the record holds
the filter of the route and the global transpose of that moment, and it survives every later
change of a route filter or of the global transpose.  In every later engine state that still
holds the record, whatever its live route filters and global transpose are, the NoteOff of
the same note and channel from the same source delivers a NoteOff with the note of the
record (the note that the NoteOn was delivered with) to the destination of the original
route and removes the record; every NoteOff delivered then goes to the destination and
carries the note of some record. -/
theorem noteoff_uses_record (jack : KonfytJackEngine) (src : Option Nat) (r : KfJackMidiRoute)
    (evOn evOff : konfytMidiEvent)
    (hon : evOn.type = MIDI_EVENT_TYPE_NOTEON) (hoff : evOff.type = MIDI_EVENT_TYPE_NOTEOFF)
    (hch : evOff.channel = evOn.channel) (hnote : evOff.data1 = evOn.data1)
    (hdisp : (jack.dispatchToRoute src evOn r).noteOnList ≠ jack.noteOnList) :
    ∃ record : KonfytJackNoteOnRecord,
      (jack.dispatchToRoute src evOn r).noteOnList = jack.noteOnList ++ [record] ∧
      record.filter = r.filter ∧ record.globalTranspose = jack.globalTranspose ∧
      record.note = evOn.data1 + r.filter.zone.transposeAdd + jack.globalTranspose ∧
      (∃ d, (jack.dispatchToRoute src evOn r).delivered = jack.delivered ++ [d] ∧
        d.toJackPort = r.destIsJackPort ∧ d.port = r.destPort ∧
        d.fluidSynth = r.destFluidsynthID ∧ d.event.type = MIDI_EVENT_TYPE_NOTEON ∧
        d.event.data1 = record.note) ∧
      (∀ i f t, record ∈
        (((jack.dispatchToRoute src evOn r).setRouteFilter i f).setGlobalTranspose
          t).noteOnList) ∧
      ∀ j : KonfytJackEngine, record ∈ j.noteOnList →
        ∃ rest, (j.processMidiEvent src evOff).delivered = j.delivered ++ rest ∧
          (∃ d ∈ rest, d.toJackPort = r.destIsJackPort ∧ d.port = r.destPort ∧
            d.fluidSynth = r.destFluidsynthID ∧ d.event.type = MIDI_EVENT_TYPE_NOTEOFF ∧
            d.event.data1 = record.note) ∧
          (∀ d ∈ rest, ∃ held ∈ j.noteOnList, d.toJackPort = held.jackPortNotFluidsynth ∧
            d.port = held.port ∧ d.fluidSynth = held.fluidSynth ∧
            d.event.data1 = held.note) ∧
          record ∉ (j.processMidiEvent src evOff).noteOnList := by
  obtain ⟨ev', hf, heq⟩ := dispatchToRoute_recorded jack src r evOn hon hdisp
  obtain ⟨c1, c2, c4, hdata⟩ := KonfytMidiFilter.apply_noteon r.filter evOn ev' hon hf
  have htype : ev'.type = MIDI_EVENT_TYPE_NOTEON :=
    (KonfytMidiFilter.apply_type _ _ _ hf).trans hon
  rw [← hch] at c1
  rw [← hnote] at c2 c4
  obtain ⟨ev'', hap, hd1, ht⟩ := KonfytMidiFilter.apply_noteoff r.filter evOff hoff c1 c2 c4
  rw [heq]
  refine ⟨{ note := ev'.data1 + jack.globalTranspose,
            jackPortNotFluidsynth := r.destIsJackPort,
            fluidSynth := r.destFluidsynthID, port := r.destPort, sourcePort := src,
            filter := r.filter, globalTranspose := jack.globalTranspose },
          rfl, rfl, rfl, ?_, ⟨_, rfl, rfl, rfl, rfl, htype, rfl⟩, ?_, ?_⟩
  · show ev'.data1 + jack.globalTranspose = _
    rw [hdata]
  · intro i f t
    show _ ∈ jack.noteOnList ++ [_]
    simp
  · intro j hrec
    have hproc : j.processMidiEvent src evOff = j.handleNoteoff src evOff := by
      unfold KonfytJackEngine.processMidiEvent
      rw [if_pos hoff]
    have hsrc : ¬ ((src != src) = true) := by simp
    have hrel : KonfytJackEngine.releaseOf
        { note := ev'.data1 + jack.globalTranspose,
          jackPortNotFluidsynth := r.destIsJackPort,
          fluidSynth := r.destFluidsynthID, port := r.destPort, sourcePort := src,
          filter := r.filter, globalTranspose := jack.globalTranspose } src evOff =
        some { toJackPort := r.destIsJackPort, port := r.destPort,
               fluidSynth := r.destFluidsynthID,
               event := { ev'' with data1 := ev'.data1 + jack.globalTranspose } } := by
      unfold KonfytJackEngine.releaseOf
      dsimp only
      rw [if_neg hsrc, hap]
      dsimp only
      rw [if_pos (by rw [hd1, hdata, hnote])]
    rw [hproc]
    refine ⟨j.noteOnList.filterMap (fun record => KonfytJackEngine.releaseOf record src evOff),
      rfl, ⟨_, List.mem_filterMap.2 ⟨_, hrec, hrel⟩, rfl, rfl, rfl, ht, rfl⟩, ?_, ?_⟩
    · intro d hd
      obtain ⟨held, hheld, hd⟩ := List.mem_filterMap.1 hd
      exact ⟨held, hheld, releaseOf_dest held src evOff d hd⟩
    · intro hmem
      have hnone := (List.mem_filter.1 hmem).2
      rw [hrel] at hnone
      exact Bool.noConfusion hnone

/-- NoteOn 60 through the route that transposes by +2, then the filter of the route is
changed to +5 (or the global transpose to 3), then NoteOff 60: the engine delivers NoteOn 62
and NoteOff 62 to port 2. -/
theorem noteoff_uses_record_witness :
    (engineWithTransposeRoute.dispatchToRoute (some 1) noteOn60 routeTransposeTwo).noteOnList ≠
      engineWithTransposeRoute.noteOnList ∧
    (((engineWithTransposeRoute.processMidiEvent (some 1) noteOn60).setRouteFilter 0
        { zone := { transposeAdd := 5 } }).processMidiEvent (some 1) noteOff60).delivered =
      [{ toJackPort := true, port := some 2, fluidSynth := none,
         event := { type := MIDI_EVENT_TYPE_NOTEON, data1 := 62, data2 := 100 } },
       { toJackPort := true, port := some 2, fluidSynth := none,
         event := { type := MIDI_EVENT_TYPE_NOTEOFF, data1 := 62 } }] ∧
    (((engineWithTransposeRoute.processMidiEvent (some 1) noteOn60).setGlobalTranspose
        3).processMidiEvent (some 1) noteOff60).delivered =
      [{ toJackPort := true, port := some 2, fluidSynth := none,
         event := { type := MIDI_EVENT_TYPE_NOTEON, data1 := 62, data2 := 100 } },
       { toJackPort := true, port := some 2, fluidSynth := none,
         event := { type := MIDI_EVENT_TYPE_NOTEOFF, data1 := 62 } }] ∧
    ∃ record : KonfytJackNoteOnRecord,
      record.note = noteOn60.data1 + routeTransposeTwo.filter.zone.transposeAdd +
        engineWithTransposeRoute.globalTranspose ∧
      record.filter = routeTransposeTwo.filter :=
  ⟨by decide, by decide, by decide,
   (noteoff_uses_record engineWithTransposeRoute (some 1) routeTransposeTwo noteOn60 noteOff60
      rfl rfl rfl rfl (by decide)).imp (fun _ h => ⟨h.2.2.2.1, h.2.1⟩)⟩

/-! ## Pitchbend and controllers in `processJackMidi` -/

/-- Claim C24: for every Pitchbend event whose signed pitchbend value is v, with the mutex
free and the id registered, `processJackMidi` returns and issues exactly one backend call,
`fluid_synth_pitch_bend` on channel 0 with the value v + 8192; for -8192 ≤ v ≤ 8191 that
value lies in [0, 16383], and v = 0 gives the centre 8192. -/
theorem processJackMidi_pitchbend (pb : konfytMidiEvent → Int) (e : konfytFluidsynthEngine)
    (ID : Int) (ev : konfytMidiEvent) (v : Int)
    (hfree : e.mutexLocked = false) (hreg : e.synthDataMap.contains ID = true)
    (htype : ev.type = MIDI_EVENT_TYPE_PITCHBEND) (hv : pb ev = v) :
    ∃ x, e.processJackMidi pb ID ev = some { e with calls := e.calls ++
        [FluidCall.fluid_synth_pitch_bend (e.synthDataMap.value ID).synth MIDI_CHANNEL_0 x] } ∧
      x = v + 8192 ∧ (-8192 ≤ v → v ≤ 8191 → 0 ≤ x ∧ x ≤ 16383) ∧ (v = 0 → x = 8192) := by
  have h1 : ¬ ev.type = MIDI_EVENT_TYPE_NOTEON := by rw [htype]; decide
  have h2 : ¬ ev.type = MIDI_EVENT_TYPE_NOTEOFF := by rw [htype]; decide
  have h3 : ¬ ev.type = MIDI_EVENT_TYPE_CC := by rw [htype]; decide
  refine ⟨v + 8192, ?_, rfl, fun hlo hhi => ⟨by omega, by omega⟩, fun h0 => by omega⟩
  rw [processJackMidi_of_free pb e ID ev hfree hreg, if_neg h1, if_neg h2, if_neg h3,
    if_pos htype, hv]
  rfl

/-- The centre position of the pitchbend wheel reaches the synth as 8192. -/
theorem processJackMidi_pitchbend_witness :
    pitchbendFromData pitchbendCentre = 0 ∧
    ∃ x, engineWithOneSynth.processJackMidi pitchbendFromData 0 pitchbendCentre =
        some { engineWithOneSynth with calls := engineWithOneSynth.calls ++
          [FluidCall.fluid_synth_pitch_bend (engineWithOneSynth.synthDataMap.value 0).synth
            MIDI_CHANNEL_0 x] } ∧
      x = 0 + 8192 ∧ (-8192 ≤ (0 : Int) → (0 : Int) ≤ 8191 → 0 ≤ x ∧ x ≤ 16383) ∧
      ((0 : Int) = 0 → x = 8192) :=
  ⟨by decide,
   processJackMidi_pitchbend pitchbendFromData engineWithOneSynth 0 pitchbendCentre 0
     (by decide) (by decide) rfl (by decide)⟩

/-- Claim C25: for every CC event, with the mutex free and the id registered,
`processJackMidi` returns and the backend receives `fluid_synth_cc` on channel 0 with the two
data bytes; if the controller is MIDI_CC_ALL_NOTES_OFF (CC 123) exactly one
`fluid_synth_all_sounds_off` on channel 0 follows and these are the only two calls; for every
other controller number the `fluid_synth_cc` call is the only call, so no
`fluid_synth_all_sounds_off` is issued. -/
theorem processJackMidi_cc (pb : konfytMidiEvent → Int) (e : konfytFluidsynthEngine)
    (ID : Int) (ev : konfytMidiEvent)
    (hfree : e.mutexLocked = false) (hreg : e.synthDataMap.contains ID = true)
    (htype : ev.type = MIDI_EVENT_TYPE_CC) :
    MIDI_CC_ALL_NOTES_OFF = 123 ∧
    (ev.data1 = MIDI_CC_ALL_NOTES_OFF →
      e.processJackMidi pb ID ev = some { e with calls := e.calls ++
        [FluidCall.fluid_synth_cc (e.synthDataMap.value ID).synth MIDI_CHANNEL_0 ev.data1
           ev.data2,
         FluidCall.fluid_synth_all_sounds_off (e.synthDataMap.value ID).synth
           MIDI_CHANNEL_0] }) ∧
    (ev.data1 ≠ MIDI_CC_ALL_NOTES_OFF →
      e.processJackMidi pb ID ev = some { e with calls := e.calls ++
        [FluidCall.fluid_synth_cc (e.synthDataMap.value ID).synth MIDI_CHANNEL_0 ev.data1
           ev.data2] }) := by
  have h1 : ¬ ev.type = MIDI_EVENT_TYPE_NOTEON := by rw [htype]; decide
  have h2 : ¬ ev.type = MIDI_EVENT_TYPE_NOTEOFF := by rw [htype]; decide
  refine ⟨rfl, fun h => ?_, fun h => ?_⟩
  · rw [processJackMidi_of_free pb e ID ev hfree hreg, if_neg h1, if_neg h2, if_pos htype,
      if_pos h]
    rfl
  · rw [processJackMidi_of_free pb e ID ev hfree hreg, if_neg h1, if_neg h2, if_pos htype,
      if_neg h]
    rfl

/-- CC 123 reaches the synth followed by all-sounds-off; CC 7 reaches it alone. -/
theorem processJackMidi_cc_witness :
    (engineWithOneSynth.processJackMidi pitchbendFromData 0 ccAllNotesOff).map
        (fun e => e.calls.drop engineWithOneSynth.calls.length) =
      some [FluidCall.fluid_synth_cc (engineWithOneSynth.synthDataMap.value 0).synth 0 123 0,
            FluidCall.fluid_synth_all_sounds_off
              (engineWithOneSynth.synthDataMap.value 0).synth 0] ∧
    engineWithOneSynth.processJackMidi pitchbendFromData 0 ccVolume =
      some { engineWithOneSynth with calls := engineWithOneSynth.calls ++
        [FluidCall.fluid_synth_cc (engineWithOneSynth.synthDataMap.value 0).synth
           MIDI_CHANNEL_0 ccVolume.data1 ccVolume.data2] } :=
  ⟨by decide,
   (processJackMidi_cc pitchbendFromData engineWithOneSynth 0 ccVolume (by decide)
     (by decide) rfl).2.2 (by decide)⟩

/-! ## Bank selects and program changes in `handleMidiEvent` -/

theorem getCurrentProject_of_receiveState (w w' : MainWindow)
    (h : w'.receiveState = w.receiveState) : w'.getCurrentProject = w.getCurrentProject := by
  have h1 : w'.projectList = w.projectList := congrArg (fun t => t.1) h
  have h2 : w'.currentProject = w.currentProject := congrArg (fun t => t.2.1) h
  exact getCurrentProject_congr w w' h1 h2

theorem indicateMidiEvent_receiveState (lib : KonfytMidiH) (w : MainWindow)
    (prj : KonfytProject) (rxEvent : KfJackMidiRxEvent) (evInclBank : konfytMidiEvent) :
    (w.indicateMidiEvent lib prj rxEvent evInclBank).receiveState = w.receiveState := by
  unfold indicateMidiEvent
  simp only [MainWindow.ui, MainWindow.call, MainWindow.userMessage]
  split_ifs <;> rfl

theorem recordLastReceived_receiveState (w : MainWindow) (ev evInclBank : konfytMidiEvent) :
    (w.recordLastReceived ev evInclBank).receiveState = w.receiveState := by
  unfold recordLastReceived
  simp only [MainWindow.ui, MainWindow.call]
  split_ifs <;> rfl

theorem recordOnTriggersPage_receiveState (w : MainWindow) (ev evInclBank : konfytMidiEvent) :
    (w.recordOnTriggersPage ev evInclBank).receiveState = w.receiveState := by
  unfold recordOnTriggersPage
  simp only [MainWindow.ui, MainWindow.call]
  split_ifs <;> rfl

theorem setCurrentPatch_receiveState (w : MainWindow) (patch : Option Nat) :
    (w.setCurrentPatch patch).receiveState = w.receiveState := by
  unfold setCurrentPatch
  split
  · rfl
  · simp only [MainWindow.call]
    split_ifs <;> rfl

theorem setCurrentPatchByIndex_receiveState (w : MainWindow) (index : Int) :
    (w.setCurrentPatchByIndex index).receiveState = w.receiveState := by
  unfold setCurrentPatchByIndex
  split
  · rfl
  · exact setCurrentPatch_receiveState w _

theorem switchPatchOnProgram_receiveState (lib : KonfytMidiH) (w : MainWindow)
    (ev : konfytMidiEvent) : (w.switchPatchOnProgram lib ev).receiveState = w.receiveState := by
  unfold switchPatchOnProgram
  split_ifs
  · split
    · rfl
    · split_ifs
      · exact setCurrentPatchByIndex_receiveState w _
      · rfl
  · rfl
  · rfl

theorem performAction_receiveState (w : MainWindow) (ev : konfytMidiEvent) (action : Action)
    (buttonPass : Bool) : (w.performAction ev action buttonPass).receiveState = w.receiveState := by
  have hbp : ∀ (a b : MainWindow), a.receiveState = w.receiveState →
      b.receiveState = w.receiveState →
      (if buttonPass = true then a else b).receiveState = w.receiveState := by
    intro a b ha hb
    cases buttonPass
    · exact hb
    · exact ha
  unfold performAction
  by_cases h0 : action = Action.actionPanic
  · rw [if_pos h0]
    exact hbp _ _ rfl rfl
  rw [if_neg h0]
  by_cases h1 : action = Action.actionPanicToggle
  · rw [if_pos h1]
    exact hbp _ _ rfl rfl
  rw [if_neg h1]
  by_cases h2 : action = Action.actionNext_Patch
  · rw [if_pos h2]
    exact hbp _ _ (setCurrentPatchByIndex_receiveState w _) rfl
  rw [if_neg h2]
  by_cases h3 : action = Action.actionPrevious_Patch
  · rw [if_pos h3]
    exact hbp _ _ (setCurrentPatchByIndex_receiveState w _) rfl
  rw [if_neg h3]
  by_cases h4 : action = Action.actionMaster_Volume_Slider
  · rw [if_pos h4]
    rfl
  rw [if_neg h4]
  by_cases h5 : action = Action.actionMaster_Volume_Up
  · rw [if_pos h5]
    exact hbp _ _ rfl rfl
  rw [if_neg h5]
  by_cases h6 : action = Action.actionMaster_Volume_Down
  · rw [if_pos h6]
    exact hbp _ _ rfl rfl
  rw [if_neg h6]
  by_cases h7 : action = Action.actionProject_save
  · rw [if_pos h7]
    exact hbp _ _ rfl rfl
  rw [if_neg h7]
  by_cases h8 : w.channelGainActions.contains action = true
  · rw [if_pos h8]
    rfl
  rw [if_neg h8]
  by_cases h9 : w.channelSoloActions.contains action = true
  · rw [if_pos h9]
    rfl
  rw [if_neg h9]
  by_cases h10 : w.channelMuteActions.contains action = true
  · rw [if_pos h10]
    rfl
  rw [if_neg h10]
  by_cases h11 : w.patchActions.contains action = true
  · rw [if_pos h11]
    exact setCurrentPatchByIndex_receiveState w _
  rw [if_neg h11]
  by_cases h12 : action = Action.actionGlobal_Transpose_12_Down
  · rw [if_pos h12]
    exact hbp _ _ rfl rfl
  rw [if_neg h12]
  by_cases h13 : action = Action.actionGlobal_Transpose_12_Up
  · rw [if_pos h13]
    exact hbp _ _ rfl rfl
  rw [if_neg h13]
  by_cases h14 : action = Action.actionGlobal_Transpose_1_Down
  · rw [if_pos h14]
    exact hbp _ _ rfl rfl
  rw [if_neg h14]
  by_cases h15 : action = Action.actionGlobal_Transpose_1_Up
  · rw [if_pos h15]
    exact hbp _ _ rfl rfl
  rw [if_neg h15]
  by_cases h16 : action = Action.actionGlobal_Transpose_Zero
  · rw [if_pos h16]
    exact hbp _ _ rfl rfl
  rw [if_neg h16]

theorem saveBankSelects_receiveState (v w : MainWindow) (ev : konfytMidiEvent)
    (h : v.receiveState = w.receiveState) :
    (v.saveBankSelects ev).receiveState = (w.saveBankSelects ev).receiveState := by
  have h1 : v.projectList = w.projectList := congrArg (fun t => t.1) h
  have h2 : v.currentProject = w.currentProject := congrArg (fun t => t.2.1) h
  have h3 : v.lastBankSelectMSB = w.lastBankSelectMSB := congrArg (fun t => t.2.2.1) h
  have h4 : v.lastBankSelectLSB = w.lastBankSelectLSB := congrArg (fun t => t.2.2.2.1) h
  have h5 : v.currentWidget = w.currentWidget := congrArg (fun t => t.2.2.2.2) h
  unfold saveBankSelects
  split_ifs
  all_goals simp only [receiveState, h1, h2, h3, h4, h5]

theorem triggersMidiActionHash_index_receiveState (w : MainWindow) (key : Int) :
    (w.triggersMidiActionHash_index key).2.receiveState = w.receiveState := by
  unfold triggersMidiActionHash_index
  split <;> rfl

/-- Apart from "Save bank selects", `handleMidiEvent` leaves the projects, the last bank
select and the page shown as they are. -/
theorem handleMidiEvent_receiveState (lib : KonfytMidiH) (w : MainWindow)
    (prj : KonfytProject) (rxEvent : KfJackMidiRxEvent)
    (hprj : w.getCurrentProject = some prj) :
    (w.handleMidiEvent lib rxEvent).receiveState =
      (w.saveBankSelects rxEvent.midiEvent).receiveState := by
  unfold handleMidiEvent
  rw [hprj]
  dsimp only
  split
  · rw [recordOnTriggersPage_receiveState, recordLastReceived_receiveState]
    exact saveBankSelects_receiveState _ _ _ (indicateMidiEvent_receiveState _ _ _ _ _)
  · rw [performAction_receiveState, triggersMidiActionHash_index_receiveState,
      switchPatchOnProgram_receiveState, recordLastReceived_receiveState]
    exact saveBankSelects_receiveState _ _ _ (indicateMidiEvent_receiveState _ _ _ _ _)

/-- Claim C21: bank-select tracking in `handleMidiEvent`, with a current project.  After
handling an event: a CC 0 has set `lastBankSelectMSB` to its value and left
`lastBankSelectLSB`; a CC 32 has set `lastBankSelectLSB` to its value and left
`lastBankSelectMSB`; a Program event has left both; every other event has set both to -1.
The current project stays, so for the event handled next after a CC 0: a Program event
still finds the value of the CC 0, and an event that is neither a Program event nor a CC 0
or CC 32 clears it. -/
theorem handleMidiEvent_bankSelect (lib : KonfytMidiH) (w : MainWindow) (prj : KonfytProject)
    (rxEvent : KfJackMidiRxEvent) (hprj : w.getCurrentProject = some prj) :
    (rxEvent.midiEvent.type = MIDI_EVENT_TYPE_CC → rxEvent.midiEvent.data1 = 0 →
      (w.handleMidiEvent lib rxEvent).lastBankSelectMSB = rxEvent.midiEvent.data2 ∧
      (w.handleMidiEvent lib rxEvent).lastBankSelectLSB = w.lastBankSelectLSB) ∧
    (rxEvent.midiEvent.type = MIDI_EVENT_TYPE_CC → rxEvent.midiEvent.data1 = 32 →
      (w.handleMidiEvent lib rxEvent).lastBankSelectLSB = rxEvent.midiEvent.data2 ∧
      (w.handleMidiEvent lib rxEvent).lastBankSelectMSB = w.lastBankSelectMSB) ∧
    (rxEvent.midiEvent.type = MIDI_EVENT_TYPE_PROGRAM →
      (w.handleMidiEvent lib rxEvent).lastBankSelectMSB = w.lastBankSelectMSB ∧
      (w.handleMidiEvent lib rxEvent).lastBankSelectLSB = w.lastBankSelectLSB) ∧
    (rxEvent.midiEvent.type ≠ MIDI_EVENT_TYPE_PROGRAM →
      ¬ (rxEvent.midiEvent.type = MIDI_EVENT_TYPE_CC ∧
          (rxEvent.midiEvent.data1 = 0 ∨ rxEvent.midiEvent.data1 = 32)) →
      (w.handleMidiEvent lib rxEvent).lastBankSelectMSB = -1 ∧
      (w.handleMidiEvent lib rxEvent).lastBankSelectLSB = -1) ∧
    (w.handleMidiEvent lib rxEvent).getCurrentProject = some prj ∧
    (rxEvent.midiEvent.type = MIDI_EVENT_TYPE_CC → rxEvent.midiEvent.data1 = 0 →
      ∀ next : KfJackMidiRxEvent,
        (next.midiEvent.type = MIDI_EVENT_TYPE_PROGRAM →
          ((w.handleMidiEvent lib rxEvent).handleMidiEvent lib next).lastBankSelectMSB =
            rxEvent.midiEvent.data2) ∧
        (next.midiEvent.type ≠ MIDI_EVENT_TYPE_PROGRAM →
          ¬ (next.midiEvent.type = MIDI_EVENT_TYPE_CC ∧
              (next.midiEvent.data1 = 0 ∨ next.midiEvent.data1 = 32)) →
          ((w.handleMidiEvent lib rxEvent).handleMidiEvent lib next).lastBankSelectMSB = -1 ∧
          ((w.handleMidiEvent lib rxEvent).handleMidiEvent lib next).lastBankSelectLSB =
            -1)) := by
  have hstep : ∀ (v : MainWindow) (rx : KfJackMidiRxEvent), v.getCurrentProject = some prj →
      ((v.handleMidiEvent lib rx).lastBankSelectMSB =
          (v.saveBankSelects rx.midiEvent).lastBankSelectMSB ∧
        (v.handleMidiEvent lib rx).lastBankSelectLSB =
          (v.saveBankSelects rx.midiEvent).lastBankSelectLSB) ∧
      (v.handleMidiEvent lib rx).getCurrentProject = some prj := by
    intro v rx hv
    have h := handleMidiEvent_receiveState lib v prj rx hv
    refine ⟨⟨congrArg (fun t => t.2.2.1) h, congrArg (fun t => t.2.2.2.1) h⟩, ?_⟩
    rw [getCurrentProject_of_receiveState _ _ h]
    have hs : (v.saveBankSelects rx.midiEvent).receiveState.1 = v.receiveState.1 ∧
        (v.saveBankSelects rx.midiEvent).receiveState.2.1 = v.receiveState.2.1 := by
      unfold saveBankSelects
      split_ifs <;> exact ⟨rfl, rfl⟩
    rw [getCurrentProject_congr v _ hs.1 hs.2]
    exact hv
  have hcc0 : ∀ (v : MainWindow) (ev : konfytMidiEvent), ev.type = MIDI_EVENT_TYPE_CC →
      ev.data1 = 0 → v.saveBankSelects ev = { v with lastBankSelectMSB := ev.data2 } := by
    intro v ev h1 h2
    unfold saveBankSelects
    rw [if_pos h1, if_pos h2]
  have hcc32 : ∀ (v : MainWindow) (ev : konfytMidiEvent), ev.type = MIDI_EVENT_TYPE_CC →
      ev.data1 = 32 → v.saveBankSelects ev = { v with lastBankSelectLSB := ev.data2 } := by
    intro v ev h1 h2
    have h0 : ¬ ev.data1 = 0 := by omega
    unfold saveBankSelects
    rw [if_pos h1, if_neg h0, if_pos h2]
  have hprog : ∀ (v : MainWindow) (ev : konfytMidiEvent), ev.type = MIDI_EVENT_TYPE_PROGRAM →
      v.saveBankSelects ev = v := by
    intro v ev h1
    have h0 : ¬ ev.type = MIDI_EVENT_TYPE_CC := by rw [h1]; decide
    have h2 : ¬ ev.type ≠ MIDI_EVENT_TYPE_PROGRAM := fun h => h h1
    unfold saveBankSelects
    rw [if_neg h0, if_neg h2]
  have hother : ∀ (v : MainWindow) (ev : konfytMidiEvent), ev.type ≠ MIDI_EVENT_TYPE_PROGRAM →
      ¬ (ev.type = MIDI_EVENT_TYPE_CC ∧ (ev.data1 = 0 ∨ ev.data1 = 32)) →
      v.saveBankSelects ev = { v with lastBankSelectMSB := -1, lastBankSelectLSB := -1 } := by
    intro v ev h1 h2
    unfold saveBankSelects
    by_cases hc : ev.type = MIDI_EVENT_TYPE_CC
    · have h0 : ¬ ev.data1 = 0 := fun h => h2 ⟨hc, Or.inl h⟩
      have h32 : ¬ ev.data1 = 32 := fun h => h2 ⟨hc, Or.inr h⟩
      rw [if_pos hc, if_neg h0, if_neg h32]
    · rw [if_neg hc, if_pos h1]
  obtain ⟨⟨hm, hl⟩, hp⟩ := hstep w rxEvent hprj
  refine ⟨fun h1 h2 => ?_, fun h1 h2 => ?_, fun h1 => ?_, fun h1 h2 => ?_, hp,
    fun h1 h2 next => ⟨fun hn => ?_, fun hn1 hn2 => ?_⟩⟩
  · rw [hm, hl, hcc0 w _ h1 h2]
    exact ⟨rfl, rfl⟩
  · rw [hm, hl, hcc32 w _ h1 h2]
    exact ⟨rfl, rfl⟩
  · rw [hm, hl, hprog w _ h1]
    exact ⟨rfl, rfl⟩
  · rw [hm, hl, hother w _ h1 h2]
    exact ⟨rfl, rfl⟩
  · rw [(hstep _ next hp).1.1, hprog _ _ hn, hm, hcc0 w _ h1 h2]
  · rw [(hstep _ next hp).1.1, (hstep _ next hp).1.2, hother _ _ hn1 hn2]
    exact ⟨rfl, rfl⟩

/-- In the window with three patches a CC 0 with value 5 sets the MSB to 5; the Program
event that follows finds it, a NoteOn that follows clears it. -/
theorem handleMidiEvent_bankSelect_witness :
    windowWithThreePatches.getCurrentProject = some projectWithThreeBuses ∧
    ((windowWithThreePatches.handleMidiEvent midiHForExamples rxBankSelectMSB).lastBankSelectMSB
        = 5 ∧
      (windowWithThreePatches.handleMidiEvent midiHForExamples rxBankSelectMSB).lastBankSelectLSB
        = -1) ∧
    ((windowWithThreePatches.handleMidiEvent midiHForExamples rxBankSelectMSB).handleMidiEvent
        midiHForExamples rxProgramOne).lastBankSelectMSB = 5 ∧
    ((windowWithThreePatches.handleMidiEvent midiHForExamples rxBankSelectMSB).handleMidiEvent
        midiHForExamples rxNoteOn).lastBankSelectMSB = -1 :=
  ⟨rfl,
   (handleMidiEvent_bankSelect midiHForExamples windowWithThreePatches projectWithThreeBuses
      rxBankSelectMSB rfl).1 rfl rfl,
   by decide, by decide⟩

theorem saveBankSelects_of_program (v : MainWindow) (ev : konfytMidiEvent)
    (h : ev.type = MIDI_EVENT_TYPE_PROGRAM) : v.saveBankSelects ev = v := by
  have h0 : ¬ ev.type = MIDI_EVENT_TYPE_CC := by rw [h]; decide
  have h2 : ¬ ev.type ≠ MIDI_EVENT_TYPE_PROGRAM := fun hne => hne h
  unfold saveBankSelects
  rw [if_neg h0, if_neg h2]

theorem saveBankSelects_keeps (v : MainWindow) (ev : konfytMidiEvent) :
    (v.saveBankSelects ev).projectList = v.projectList ∧
    (v.saveBankSelects ev).currentProject = v.currentProject ∧
    (v.saveBankSelects ev).currentWidget = v.currentWidget ∧
    (v.saveBankSelects ev).triggersMidiActionHash = v.triggersMidiActionHash := by
  unfold saveBankSelects
  split_ifs <;> exact ⟨rfl, rfl, rfl, rfl⟩

theorem setCurrentPatch_table (w : MainWindow) (patch : Option Nat) :
    (w.setCurrentPatch patch).triggersMidiActionHash = w.triggersMidiActionHash := by
  unfold setCurrentPatch
  split
  · rfl
  · simp only [MainWindow.call]
    split_ifs <;> rfl

theorem setCurrentPatchByIndex_table (w : MainWindow) (index : Int) :
    (w.setCurrentPatchByIndex index).triggersMidiActionHash = w.triggersMidiActionHash := by
  unfold setCurrentPatchByIndex
  split
  · rfl
  · exact setCurrentPatch_table w _

theorem switchPatchOnProgram_table (lib : KonfytMidiH) (w : MainWindow)
    (ev : konfytMidiEvent) :
    (w.switchPatchOnProgram lib ev).triggersMidiActionHash = w.triggersMidiActionHash := by
  unfold switchPatchOnProgram
  split_ifs
  · split
    · rfl
    · split_ifs
      · exact setCurrentPatchByIndex_table w _
      · rfl
  · rfl
  · rfl

theorem triggersMidiActionHash_index_value (v w : MainWindow)
    (h : v.triggersMidiActionHash = w.triggersMidiActionHash) (key : Int) :
    (v.triggersMidiActionHash_index key).1 = (w.triggersMidiActionHash_index key).1 := by
  unfold triggersMidiActionHash_index
  rw [h]
  split <;> rfl

/-- The patch switch on a program change, the trigger key and the action found, in terms of
the state in which the event arrived. -/
theorem switchPatchOnProgram_of_received (lib : KonfytMidiH) (w w2 : MainWindow)
    (prj : KonfytProject) (ev : konfytMidiEvent) (hprj2 : w2.getCurrentProject = some prj)
    (hrs : w2.receiveState = (w.saveBankSelects ev).receiveState)
    (htab : w2.triggersMidiActionHash = w.triggersMidiActionHash) :
    w2.switchPatchOnProgram lib ev =
      (if ev.type = MIDI_EVENT_TYPE_PROGRAM ∧ w.lastBankSelectMSB = -1 ∧
          w.lastBankSelectLSB = -1 ∧ prj.isProgramChangeSwitchPatches = true
        then w2.setCurrentPatchByIndex (lib.program ev) else w2) ∧
    (w2.switchPatchOnProgram lib ev).triggerKey lib ev =
      (if ev.type = MIDI_EVENT_TYPE_PROGRAM then
        lib.hashMidiEventToInt ev.type ev.channel ev.data1 w.lastBankSelectMSB
          w.lastBankSelectLSB
      else lib.hashMidiEventToInt ev.type ev.channel ev.data1 (-1) (-1)) ∧
    ∀ key, ((w2.switchPatchOnProgram lib ev).triggersMidiActionHash_index key).1 =
      (w.triggersMidiActionHash_index key).1 := by
  have hsw := switchPatchOnProgram_receiveState lib w2 ev
  have hm2 : ev.type = MIDI_EVENT_TYPE_PROGRAM → w2.lastBankSelectMSB = w.lastBankSelectMSB := by
    intro h
    rw [saveBankSelects_of_program w ev h] at hrs
    exact congrArg (fun t => t.2.2.1) hrs
  have hl2 : ev.type = MIDI_EVENT_TYPE_PROGRAM → w2.lastBankSelectLSB = w.lastBankSelectLSB := by
    intro h
    rw [saveBankSelects_of_program w ev h] at hrs
    exact congrArg (fun t => t.2.2.2.1) hrs
  refine ⟨?_, ?_, ?_⟩
  · unfold switchPatchOnProgram
    by_cases ht : ev.type = MIDI_EVENT_TYPE_PROGRAM
    · rw [if_pos ht, hprj2, hm2 ht, hl2 ht]
      dsimp only
      by_cases hb : w.lastBankSelectLSB = -1 ∧ w.lastBankSelectMSB = -1
      · rw [if_pos hb]
        by_cases hs : prj.isProgramChangeSwitchPatches = true
        · rw [if_pos hs, if_pos ⟨ht, hb.2, hb.1, hs⟩]
        · rw [if_neg hs, if_neg (fun h => hs h.2.2.2)]
      · rw [if_neg hb, if_neg (fun h => hb ⟨h.2.2.1, h.2.1⟩)]
    · rw [if_neg ht, if_neg (fun h => ht h.1)]
  · unfold triggerKey
    by_cases ht : ev.type = MIDI_EVENT_TYPE_PROGRAM
    · have h3 : (w2.switchPatchOnProgram lib ev).lastBankSelectMSB = w2.lastBankSelectMSB :=
        congrArg (fun t => t.2.2.1) hsw
      have h4 : (w2.switchPatchOnProgram lib ev).lastBankSelectLSB = w2.lastBankSelectLSB :=
        congrArg (fun t => t.2.2.2.1) hsw
      rw [if_pos ht, if_pos ht, h3, h4, hm2 ht, hl2 ht]
    · rw [if_neg ht, if_neg ht]
  · intro key
    exact triggersMidiActionHash_index_value _ _
      ((switchPatchOnProgram_table lib w2 ev).trans htab) key

/-- Away from the triggers page `handleMidiEvent` is: the indicating and recording parts, the
patch switch on a program change, the lookup in the trigger table and the action found. -/
theorem handleMidiEvent_off_triggersPage (lib : KonfytMidiH) (w : MainWindow)
    (prj : KonfytProject) (rxEvent : KfJackMidiRxEvent)
    (hprj : w.getCurrentProject = some prj) (hpage : w.currentWidget ≠ Page.triggersPage) :
    ∃ w2 : MainWindow, w2.selectionState = w.selectionState ∧
      w.handleMidiEvent lib rxEvent =
        ((if rxEvent.midiEvent.type = MIDI_EVENT_TYPE_PROGRAM ∧ w.lastBankSelectMSB = -1 ∧
            w.lastBankSelectLSB = -1 ∧ prj.isProgramChangeSwitchPatches = true
          then w2.setCurrentPatchByIndex (lib.program rxEvent.midiEvent)
          else w2).triggersMidiActionHash_index
          (if rxEvent.midiEvent.type = MIDI_EVENT_TYPE_PROGRAM then
            lib.hashMidiEventToInt rxEvent.midiEvent.type rxEvent.midiEvent.channel
              rxEvent.midiEvent.data1 w.lastBankSelectMSB w.lastBankSelectLSB
          else
            lib.hashMidiEventToInt rxEvent.midiEvent.type rxEvent.midiEvent.channel
              rxEvent.midiEvent.data1 (-1) (-1))).2.performAction rxEvent.midiEvent
          (w.triggersMidiActionHash_index
            (if rxEvent.midiEvent.type = MIDI_EVENT_TYPE_PROGRAM then
              lib.hashMidiEventToInt rxEvent.midiEvent.type rxEvent.midiEvent.channel
                rxEvent.midiEvent.data1 w.lastBankSelectMSB w.lastBankSelectLSB
            else
              lib.hashMidiEventToInt rxEvent.midiEvent.type rxEvent.midiEvent.channel
                rxEvent.midiEvent.data1 (-1) (-1))).1
          (if rxEvent.midiEvent.type = MIDI_EVENT_TYPE_PROGRAM then true
            else decide (rxEvent.midiEvent.data2 > 0)) := by
  have hsel : (((w.indicateMidiEvent lib prj rxEvent
        { rxEvent.midiEvent with bankMSB := w.lastBankSelectMSB,
                                 bankLSB := w.lastBankSelectLSB }).saveBankSelects
        rxEvent.midiEvent).recordLastReceived rxEvent.midiEvent
        { rxEvent.midiEvent with bankMSB := w.lastBankSelectMSB,
                                 bankLSB := w.lastBankSelectLSB }).selectionState =
      w.selectionState := by
    rw [recordLastReceived_selectionState, saveBankSelects_selectionState,
      indicateMidiEvent_selectionState]
  have hrs : (((w.indicateMidiEvent lib prj rxEvent
        { rxEvent.midiEvent with bankMSB := w.lastBankSelectMSB,
                                 bankLSB := w.lastBankSelectLSB }).saveBankSelects
        rxEvent.midiEvent).recordLastReceived rxEvent.midiEvent
        { rxEvent.midiEvent with bankMSB := w.lastBankSelectMSB,
                                 bankLSB := w.lastBankSelectLSB }).receiveState =
      (w.saveBankSelects rxEvent.midiEvent).receiveState := by
    rw [recordLastReceived_receiveState]
    exact saveBankSelects_receiveState _ _ _ (indicateMidiEvent_receiveState _ _ _ _ _)
  have hprj2 := (getCurrentProject_of_selectionState w _ hsel).trans hprj
  have hw : (((w.indicateMidiEvent lib prj rxEvent
        { rxEvent.midiEvent with bankMSB := w.lastBankSelectMSB,
                                 bankLSB := w.lastBankSelectLSB }).saveBankSelects
        rxEvent.midiEvent).recordLastReceived rxEvent.midiEvent
        { rxEvent.midiEvent with bankMSB := w.lastBankSelectMSB,
                                 bankLSB := w.lastBankSelectLSB }).currentWidget =
      w.currentWidget := congrArg (fun t => t.2.2.2.2.2.2.1) hsel
  have htab : (((w.indicateMidiEvent lib prj rxEvent
        { rxEvent.midiEvent with bankMSB := w.lastBankSelectMSB,
                                 bankLSB := w.lastBankSelectLSB }).saveBankSelects
        rxEvent.midiEvent).recordLastReceived rxEvent.midiEvent
        { rxEvent.midiEvent with bankMSB := w.lastBankSelectMSB,
                                 bankLSB := w.lastBankSelectLSB }).triggersMidiActionHash =
      w.triggersMidiActionHash := congrArg (fun t => t.2.2.2.2.2.2.2.1) hsel
  obtain ⟨h1, h2, h3⟩ := switchPatchOnProgram_of_received lib w _ prj rxEvent.midiEvent
    hprj2 hrs htab
  refine ⟨_, hsel, ?_⟩
  unfold handleMidiEvent
  rw [hprj]
  dsimp only
  rw [if_neg (by rw [hw]; exact hpage), h2, h3, h1]

/-- Claim C22: for every event received with a current project and the triggers page not
shown, `handleMidiEvent` is: the indicating and recording parts (which leave the projects,
the current patch and the trigger table alone), then `setCurrentPatchByIndex(ev.program())`
exactly if the event is a Program event, `lastBankSelectMSB` and `lastBankSelectLSB` were both
-1 when it arrived and `isProgramChangeSwitchPatches()` holds, then the lookup
`triggersMidiActionHash[key]`, which enters a null action under a key that is not bound, and
the action found; the key is, for a Program event, the hash with the last bank select values
and, for every other event, the hash with -1, -1. -/
theorem handleMidiEvent_program_switch (lib : KonfytMidiH) (w : MainWindow)
    (prj : KonfytProject) (rxEvent : KfJackMidiRxEvent)
    (hprj : w.getCurrentProject = some prj) (hpage : w.currentWidget ≠ Page.triggersPage) :
    ∃ w2 : MainWindow, w2.selectionState = w.selectionState ∧
      w.handleMidiEvent lib rxEvent =
        ((if rxEvent.midiEvent.type = MIDI_EVENT_TYPE_PROGRAM ∧ w.lastBankSelectMSB = -1 ∧
            w.lastBankSelectLSB = -1 ∧ prj.isProgramChangeSwitchPatches = true
          then w2.setCurrentPatchByIndex (lib.program rxEvent.midiEvent)
          else w2).triggersMidiActionHash_index
          (if rxEvent.midiEvent.type = MIDI_EVENT_TYPE_PROGRAM then
            lib.hashMidiEventToInt rxEvent.midiEvent.type rxEvent.midiEvent.channel
              rxEvent.midiEvent.data1 w.lastBankSelectMSB w.lastBankSelectLSB
          else
            lib.hashMidiEventToInt rxEvent.midiEvent.type rxEvent.midiEvent.channel
              rxEvent.midiEvent.data1 (-1) (-1))).2.performAction rxEvent.midiEvent
          (w.triggersMidiActionHash_index
            (if rxEvent.midiEvent.type = MIDI_EVENT_TYPE_PROGRAM then
              lib.hashMidiEventToInt rxEvent.midiEvent.type rxEvent.midiEvent.channel
                rxEvent.midiEvent.data1 w.lastBankSelectMSB w.lastBankSelectLSB
            else
              lib.hashMidiEventToInt rxEvent.midiEvent.type rxEvent.midiEvent.channel
                rxEvent.midiEvent.data1 (-1) (-1))).1
          (if rxEvent.midiEvent.type = MIDI_EVENT_TYPE_PROGRAM then true
            else decide (rxEvent.midiEvent.data2 > 0)) :=
  handleMidiEvent_off_triggersPage lib w prj rxEvent hprj hpage

/-- In the window with three patches (patch 13 current, no bank select received) the Program
event of program 1 selects patch 12 and leaves a null action under its key, which was not
bound; directly after a bank select it selects nothing. -/
theorem handleMidiEvent_program_switch_witness :
    windowWithThreePatches.getCurrentProject = some projectWithThreeBuses ∧
    windowWithThreePatches.currentWidget ≠ Page.triggersPage ∧
    (windowWithThreePatches.handleMidiEvent midiHForExamples rxProgramOne).masterPatch =
      some 12 ∧
    (windowWithThreePatches.handleMidiEvent midiHForExamples
      rxProgramOne).triggersMidiActionHash =
      [(20, Action.actionNext_Patch), (21, Action.actionPrevious_Patch), (1, Action.null)] ∧
    ((windowWithThreePatches.handleMidiEvent midiHForExamples rxBankSelectMSB).handleMidiEvent
      midiHForExamples rxProgramOne).masterPatch = some 13 ∧
    ∃ w2 : MainWindow, w2.selectionState = windowWithThreePatches.selectionState ∧
      windowWithThreePatches.handleMidiEvent midiHForExamples rxNoteOn =
        (w2.triggersMidiActionHash_index
          (midiHForExamples.hashMidiEventToInt rxNoteOn.midiEvent.type
            rxNoteOn.midiEvent.channel rxNoteOn.midiEvent.data1 (-1) (-1))).2.performAction
          rxNoteOn.midiEvent
          (windowWithThreePatches.triggersMidiActionHash_index
            (midiHForExamples.hashMidiEventToInt rxNoteOn.midiEvent.type
              rxNoteOn.midiEvent.channel rxNoteOn.midiEvent.data1 (-1) (-1))).1
          (decide (rxNoteOn.midiEvent.data2 > 0)) :=
  ⟨rfl, by decide, by decide, by decide, by decide,
   (handleMidiEvent_program_switch midiHForExamples windowWithThreePatches
      projectWithThreeBuses rxNoteOn rfl (by decide)).imp (fun _ h => ⟨h.1, h.2⟩)⟩

/-! ## Triggers -/

theorem qhashValue_of_mem {V : Type} [Inhabited V] (h : List (String × V))
    (hnd : (qhashKeys h).Nodup) (e : String × V) (he : e ∈ h) : qhashValue h e.1 = e.2 := by
  induction h with
  | nil => exact absurd he (List.not_mem_nil e)
  | cons a rest ih =>
    have hnd' : a.1 ∉ qhashKeys rest ∧ (qhashKeys rest).Nodup := List.nodup_cons.1 hnd
    by_cases hk : a.1 = e.1
    · have hae : e = a := by
        rcases List.mem_cons.1 he with h1 | h1
        · exact h1
        · exact absurd (hk ▸ List.mem_map_of_mem (fun x => x.1) h1) hnd'.1
      have hb : (a.1 == e.1) = true := by simp [hk]
      unfold qhashValue
      rw [List.find?_cons, hb, hae]
    · have he' : e ∈ rest := by
        rcases List.mem_cons.1 he with h1 | h1
        · exact absurd (congrArg (fun x => x.1) h1).symm hk
        · exact h1
      have hb : (a.1 == e.1) = false := by simp [hk]
      have hstep : qhashValue (a :: rest) e.1 = qhashValue rest e.1 := by
        unfold qhashValue
        rw [List.find?_cons, hb]
      rw [hstep]
      exact ih hnd'.2 he'

theorem qhashKeys_filter_nodup {V : Type} (h : List (String × V)) (q : String × V → Bool)
    (hnd : (qhashKeys h).Nodup) : (qhashKeys (h.filter q)).Nodup := by
  show ((h.filter q).map (fun e => e.1)).Nodup
  exact List.Nodup.sublist (List.Sublist.map _ (List.filter_sublist _)) hnd

/-- One step of the loop of `addAndReplaceTrigger` drops the entry of the key if its trigger
has the given hash. -/
theorem removeSameTrigger_step (hash : Int → Int → Int → Int → Int → Int)
    (h : List (String × KonfytTrigger)) (hnd : (qhashKeys h).Nodup) (key : String)
    (trigint : Int) :
    (if (qhashValue h key).toInt hash = trigint then qhashRemove h key else h) =
      h.filter (fun e => !(e.1 == key && decide (e.2.toInt hash = trigint))) := by
  have hval : ∀ e ∈ h, e.1 = key → e.2 = qhashValue h key := by
    intro e he hk
    rw [← hk]
    exact (qhashValue_of_mem h hnd e he).symm
  split_ifs with hc
  · unfold qhashRemove
    apply List.filter_congr
    intro e he
    by_cases hk : e.1 = key
    · have := hval e he hk
      simp [hk, this, hc]
    · have hb : (e.1 == key) = false := by simp [hk]
      simp [bne, hb]
  · symm
    apply List.filter_eq_self.2
    intro e he
    by_cases hk : e.1 = key
    · have := hval e he hk
      simp [hk, this, hc]
    · simp [hk]

/-- The loop of `addAndReplaceTrigger` over a list of keys drops the entries of those keys
whose trigger has the given hash. -/
theorem removeSameTrigger_loop (hash : Int → Int → Int → Int → Int → Int) (trigint : Int)
    (keys : List String) (h : List (String × KonfytTrigger)) (hnd : (qhashKeys h).Nodup) :
    keys.foldl (fun h key =>
        if (qhashValue h key).toInt hash = trigint then qhashRemove h key else h) h =
      h.filter (fun e => !(keys.contains e.1 && decide (e.2.toInt hash = trigint))) := by
  induction keys generalizing h with
  | nil => simp
  | cons k rest ih =>
    rw [List.foldl_cons, removeSameTrigger_step hash h hnd k trigint,
      ih _ (qhashKeys_filter_nodup h _ hnd), List.filter_filter]
    apply List.filter_congr
    intro e _
    by_cases hk : e.1 = k
    · by_cases ht : e.2.toInt hash = trigint <;> simp [hk, ht]
    · by_cases ht : e.2.toInt hash = trigint <;>
        by_cases hr : e.1 ∈ rest <;> simp [hk, ht, hr, List.contains_cons]

/-- The trigger hash after `addAndReplaceTrigger`. -/
theorem addAndReplaceTrigger_triggerHash (hash : Int → Int → Int → Int → Int → Int)
    (p : KonfytProject) (t : KonfytTrigger) (hnd : (qhashKeys p.triggerHash).Nodup) :
    (p.addAndReplaceTrigger hash t).triggerHash =
      (p.triggerHash.filter (fun e =>
        !decide (e.2.toInt hash = t.toInt hash) && e.1 != t.actionText)) ++
        [(t.actionText, t)] := by
  have hloop := removeSameTrigger_loop hash (t.toInt hash) (qhashKeys p.triggerHash)
    p.triggerHash hnd
  have hfil : p.triggerHash.filter (fun e =>
      !((qhashKeys p.triggerHash).contains e.1 && decide (e.2.toInt hash = t.toInt hash))) =
      p.triggerHash.filter (fun e => !decide (e.2.toInt hash = t.toInt hash)) := by
    apply List.filter_congr
    intro e he
    have hmem : e.1 ∈ qhashKeys p.triggerHash := List.mem_map_of_mem (fun x => x.1) he
    simp [hmem]
  show qhashInsert _ t.actionText t = _
  rw [hloop, hfil]
  unfold qhashInsert qhashRemove
  rw [List.filter_filter]
  congr 1
  apply List.filter_congr
  intro e _
  exact Bool.and_comm _ _

/-- Claim C23: for every project (its trigger hash holding each key once) and every trigger
t, after `addAndReplaceTrigger(t)` the hash still holds each key once, it holds t under
`t.actionText` (so the trigger list contains t), no other entry has the hash value
`t.toInt()` and no other entry has the key `t.actionText`; every entry stored before under
another key with another `toInt()` is still there, and nothing else was added; the project is
marked modified.  Hence, the triggers being stored under their action text: if the stored
triggers had pairwise distinct `toInt()` values before the call, then after it they are still
stored under their action text and have pairwise distinct `toInt()` values and pairwise
distinct action texts. -/
theorem addAndReplaceTrigger_spec (hash : Int → Int → Int → Int → Int → Int)
    (p : KonfytProject) (t : KonfytTrigger) (hnd : (qhashKeys p.triggerHash).Nodup) :
    (qhashKeys (p.addAndReplaceTrigger hash t).triggerHash).Nodup ∧
    (t.actionText, t) ∈ (p.addAndReplaceTrigger hash t).triggerHash ∧
    t ∈ (p.addAndReplaceTrigger hash t).getTriggerList ∧
    (∀ e ∈ (p.addAndReplaceTrigger hash t).triggerHash,
      e.2.toInt hash = t.toInt hash → e = (t.actionText, t)) ∧
    (∀ e ∈ (p.addAndReplaceTrigger hash t).triggerHash,
      e.1 = t.actionText → e = (t.actionText, t)) ∧
    (∀ e ∈ p.triggerHash, e.2.toInt hash ≠ t.toInt hash → e.1 ≠ t.actionText →
      e ∈ (p.addAndReplaceTrigger hash t).triggerHash) ∧
    (∀ e ∈ (p.addAndReplaceTrigger hash t).triggerHash,
      e = (t.actionText, t) ∨ e ∈ p.triggerHash) ∧
    ((∀ e ∈ p.triggerHash, e.2.actionText = e.1) →
      (p.getTriggerList.map (fun x => x.toInt hash)).Nodup →
      (∀ e ∈ (p.addAndReplaceTrigger hash t).triggerHash, e.2.actionText = e.1) ∧
      ((p.addAndReplaceTrigger hash t).getTriggerList.map (fun x => x.toInt hash)).Nodup ∧
      ((p.addAndReplaceTrigger hash t).getTriggerList.map (fun x => x.actionText)).Nodup) ∧
    (p.addAndReplaceTrigger hash t).modified = true := by
  have hh := addAndReplaceTrigger_triggerHash hash p t hnd
  have hmemF : ∀ e, e ∈ p.triggerHash.filter (fun e =>
      !decide (e.2.toInt hash = t.toInt hash) && e.1 != t.actionText) ↔
      e ∈ p.triggerHash ∧ e.2.toInt hash ≠ t.toInt hash ∧ e.1 ≠ t.actionText := by
    intro e
    simp [List.mem_filter]
  have hmem : ∀ e, e ∈ (p.addAndReplaceTrigger hash t).triggerHash ↔
      (e ∈ p.triggerHash ∧ e.2.toInt hash ≠ t.toInt hash ∧ e.1 ≠ t.actionText) ∨
        e = (t.actionText, t) := by
    intro e
    rw [hh, List.mem_append, hmemF, List.mem_singleton]
  have hkeys : (qhashKeys (p.addAndReplaceTrigger hash t).triggerHash).Nodup := by
    rw [hh]
    show (List.map (fun e => e.1) (_ ++ [(t.actionText, t)])).Nodup
    rw [List.map_append, List.nodup_append]
    refine ⟨qhashKeys_filter_nodup _ _ hnd, List.nodup_singleton _, ?_⟩
    intro k hk1 hk2
    obtain ⟨e, he, rfl⟩ := List.mem_map.1 hk1
    have hk3 : e.1 = t.actionText := by simpa using hk2
    exact ((hmemF e).1 he).2.2 hk3
  refine ⟨hkeys, (hmem _).2 (Or.inr rfl), ?_, ?_, ?_, ?_, ?_, ?_, rfl⟩
  · exact List.mem_map.2 ⟨(t.actionText, t), (hmem _).2 (Or.inr rfl), rfl⟩
  · intro e he hint
    rcases (hmem e).1 he with h1 | h1
    · exact absurd hint h1.2.1
    · exact h1
  · intro e he hkey
    rcases (hmem e).1 he with h1 | h1
    · exact absurd hkey h1.2.2
    · exact h1
  · intro e he h1 h2
    exact (hmem e).2 (Or.inl ⟨he, h1, h2⟩)
  · intro e he
    rcases (hmem e).1 he with h1 | h1
    · exact Or.inr h1.1
    · exact Or.inl h1
  · intro hwf hints
    have hwf' : ∀ e ∈ (p.addAndReplaceTrigger hash t).triggerHash, e.2.actionText = e.1 := by
      intro e he
      rcases (hmem e).1 he with h1 | h1
      · exact hwf e h1.1
      · rw [h1]
    refine ⟨hwf', ?_, ?_⟩
    · unfold KonfytProject.getTriggerList at hints ⊢
      rw [List.map_map] at hints ⊢
      rw [hh, List.map_append, List.nodup_append]
      refine ⟨List.Nodup.sublist (List.Sublist.map _ (List.filter_sublist _)) hints,
        List.nodup_singleton _, ?_⟩
      intro k hk1 hk2
      obtain ⟨e, he, rfl⟩ := List.mem_map.1 hk1
      have hk3 : e.2.toInt hash = t.toInt hash := by simpa using hk2
      exact ((hmemF e).1 he).2.1 hk3
    · unfold KonfytProject.getTriggerList
      rw [List.map_map]
      have hsame : List.map ((fun x => x.actionText) ∘ fun e => e.2)
          (p.addAndReplaceTrigger hash t).triggerHash =
          qhashKeys (p.addAndReplaceTrigger hash t).triggerHash := by
        unfold qhashKeys
        apply List.map_congr_left
        intro e he
        exact hwf' e he
      rw [hsame]
      exact hkeys

/-- With "Panic" on CC 20 and "Next Patch" on CC 21 stored, assigning CC 20 to "Previous
Patch" drops the trigger of "Panic" and keeps the one of "Next Patch". -/
theorem addAndReplaceTrigger_spec_witness :
    (qhashKeys projectWithTwoTriggers.triggerHash).Nodup ∧
    projectWithTwoTriggers.getTriggerList = [triggerPanicOnCC20, triggerNextOnCC21] ∧
    (projectWithTwoTriggers.addAndReplaceTrigger midiHForExamples.hashMidiEventToInt
      triggerPreviousOnCC20).getTriggerList = [triggerNextOnCC21, triggerPreviousOnCC20] ∧
    triggerPreviousOnCC20 ∈
      (projectWithTwoTriggers.addAndReplaceTrigger midiHForExamples.hashMidiEventToInt
        triggerPreviousOnCC20).getTriggerList :=
  ⟨by decide, by decide, by decide,
   (addAndReplaceTrigger_spec midiHForExamples.hashMidiEventToInt projectWithTwoTriggers
      triggerPreviousOnCC20 (by decide)).2.2.1⟩

/-! ## Selecting a patch by index and by trigger -/

theorem triggersMidiActionHash_index_keeps (w : MainWindow) (key : Int) :
    (w.triggersMidiActionHash_index key).2.projectList = w.projectList ∧
    (w.triggersMidiActionHash_index key).2.currentProject = w.currentProject ∧
    (w.triggersMidiActionHash_index key).2.mCurrentPatchIndex = w.mCurrentPatchIndex := by
  unfold triggersMidiActionHash_index
  split <;> exact ⟨rfl, rfl, rfl⟩

/-- The claim C13 as stated fails for a trigger that is a Program event: with the patches
11, 12, 13, the last one current, no bank select received and the Program event of program
20 bound to Next Patch, the event first switches to the patch of index 20, which is the
first patch, and Next Patch then selects patch 12, not the first patch.  It also fails for
an event that does not pass as a button press: the CC 20 bound to Next Patch, received with
the value 0, leaves patch 13 current. -/
theorem nextPatch_trigger_by_program_selects_second :
    windowWithThreePatches.getCurrentProject = some projectWithThreeBuses ∧
    windowWithThreePatches.currentWidget ≠ Page.triggersPage ∧
    windowWithThreePatches.mCurrentPatchIndex = projectWithThreeBuses.getNumPatches - 1 ∧
    (windowWithThreePatches.triggersMidiActionHash_index
      (midiHForExamples.hashMidiEventToInt rxProgramTwenty.midiEvent.type
        rxProgramTwenty.midiEvent.channel rxProgramTwenty.midiEvent.data1
        windowWithThreePatches.lastBankSelectMSB windowWithThreePatches.lastBankSelectLSB)).1 =
      Action.actionNext_Patch ∧
    projectWithThreeBuses.patchList.get? 0 = some (some 11) ∧
    (windowWithThreePatches.handleMidiEvent midiHForExamples rxProgramTwenty).masterPatch =
      some 12 ∧
    ¬ (projectWithThreeBuses.patchList.get? 0 =
      some (windowWithThreePatches.handleMidiEvent midiHForExamples rxProgramTwenty).masterPatch) ∧
    (windowWithThreePatches.triggersMidiActionHash_index
      (midiHForExamples.hashMidiEventToInt rxControlTwentyReleased.midiEvent.type
        rxControlTwentyReleased.midiEvent.channel rxControlTwentyReleased.midiEvent.data1
        (-1) (-1))).1 = Action.actionNext_Patch ∧
    (windowWithThreePatches.handleMidiEvent midiHForExamples
      rxControlTwentyReleased).masterPatch = some 13 :=
  ⟨rfl, by decide, by decide, by decide, by decide, by decide, by decide, by decide, by decide⟩

/-- Claim C13, amended: for every project with n patches and every integer index,
`setCurrentPatchByIndex` selects the patch at position n-1 when the index is -1 and n > 0,
the patch at position `index` when 0 <= index < n, and the patch at position 0 for every
other index with n > 0; when n = 0 the current patch becomes null.  Hence, the triggers page
not being shown, an event that passes as a button press (a Program event, or data2 > 0) and
is bound to Next Patch selects the first patch when the last patch is current, and one bound
to Previous Patch selects the last patch when the first patch is current, unless the event
is a Program event that switches the patch itself (no bank select received and
`isProgramChangeSwitchPatches()` set). -/
theorem setCurrentPatchByIndex_selects (w : MainWindow) (prj : KonfytProject) (index : Int)
    (hprj : w.getCurrentProject = some prj) :
    (index = -1 → 0 < prj.getNumPatches →
      prj.patchList.get? (prj.getNumPatches - 1).toNat =
        some (w.setCurrentPatchByIndex index).masterPatch) ∧
    (0 ≤ index ∧ index < prj.getNumPatches →
      prj.patchList.get? index.toNat = some (w.setCurrentPatchByIndex index).masterPatch) ∧
    (index ≠ -1 → (index < 0 ∨ prj.getNumPatches ≤ index) → 0 < prj.getNumPatches →
      prj.patchList.get? 0 = some (w.setCurrentPatchByIndex index).masterPatch) ∧
    (prj.getNumPatches = 0 → (w.setCurrentPatchByIndex index).masterPatch = none) ∧
    (∀ (lib : KonfytMidiH) (rxEvent : KfJackMidiRxEvent),
      w.currentWidget ≠ Page.triggersPage →
      ¬ (rxEvent.midiEvent.type = MIDI_EVENT_TYPE_PROGRAM ∧ w.lastBankSelectMSB = -1 ∧
          w.lastBankSelectLSB = -1 ∧ prj.isProgramChangeSwitchPatches = true) →
      (rxEvent.midiEvent.type = MIDI_EVENT_TYPE_PROGRAM ∨ rxEvent.midiEvent.data2 > 0) →
      0 < prj.getNumPatches →
      ((w.triggersMidiActionHash_index
          (if rxEvent.midiEvent.type = MIDI_EVENT_TYPE_PROGRAM then
            lib.hashMidiEventToInt rxEvent.midiEvent.type rxEvent.midiEvent.channel
              rxEvent.midiEvent.data1 w.lastBankSelectMSB w.lastBankSelectLSB
          else
            lib.hashMidiEventToInt rxEvent.midiEvent.type rxEvent.midiEvent.channel
              rxEvent.midiEvent.data1 (-1) (-1))).1 = Action.actionNext_Patch →
        w.mCurrentPatchIndex = prj.getNumPatches - 1 →
        prj.patchList.get? 0 = some (w.handleMidiEvent lib rxEvent).masterPatch) ∧
      ((w.triggersMidiActionHash_index
          (if rxEvent.midiEvent.type = MIDI_EVENT_TYPE_PROGRAM then
            lib.hashMidiEventToInt rxEvent.midiEvent.type rxEvent.midiEvent.channel
              rxEvent.midiEvent.data1 w.lastBankSelectMSB w.lastBankSelectLSB
          else
            lib.hashMidiEventToInt rxEvent.midiEvent.type rxEvent.midiEvent.channel
              rxEvent.midiEvent.data1 (-1) (-1))).1 = Action.actionPrevious_Patch →
        w.mCurrentPatchIndex = 0 →
        prj.patchList.get? (prj.getNumPatches - 1).toNat =
          some (w.handleMidiEvent lib rxEvent).masterPatch)) := by
  have hsel := setCurrentPatchByIndex_masterPatch w prj hprj index
  refine ⟨?_, ?_, ?_, ?_, ?_⟩
  · intro hi hn
    have hnorm : (if (if index = -1 then prj.getNumPatches - 1 else index) < 0 ∨
          (if index = -1 then prj.getNumPatches - 1 else index) ≥ prj.getNumPatches
        then 0 else (if index = -1 then prj.getNumPatches - 1 else index)) =
        prj.getNumPatches - 1 := by
      split_ifs <;> omega
    rw [hsel, hnorm]
    exact getPatch_of_inRange prj _ (by omega) (by omega)
  · intro hi
    have hnorm : (if (if index = -1 then prj.getNumPatches - 1 else index) < 0 ∨
          (if index = -1 then prj.getNumPatches - 1 else index) ≥ prj.getNumPatches
        then 0 else (if index = -1 then prj.getNumPatches - 1 else index)) = index := by
      split_ifs <;> omega
    rw [hsel, hnorm]
    exact getPatch_of_inRange prj _ hi.1 hi.2
  · intro hi hout hn
    have hnorm : (if (if index = -1 then prj.getNumPatches - 1 else index) < 0 ∨
          (if index = -1 then prj.getNumPatches - 1 else index) ≥ prj.getNumPatches
        then 0 else (if index = -1 then prj.getNumPatches - 1 else index)) = 0 := by
      split_ifs <;> omega
    rw [hsel, hnorm]
    exact getPatch_of_inRange prj 0 (le_refl _) hn
  · intro hn
    rw [hsel]
    have hlen : (prj.patchList.length : Int) = 0 := hn
    simp only [KonfytProject.getPatch]
    split_ifs <;> first | rfl | omega
  · intro lib rxEvent hpage hnoswitch hpass hn
    obtain ⟨w2, hw2, hres⟩ := handleMidiEvent_off_triggersPage lib w prj rxEvent hprj hpage
    rw [if_neg hnoswitch] at hres
    have hbp : (if rxEvent.midiEvent.type = MIDI_EVENT_TYPE_PROGRAM then true
        else decide (rxEvent.midiEvent.data2 > 0)) = true := by
      by_cases ht : rxEvent.midiEvent.type = MIDI_EVENT_TYPE_PROGRAM
      · rw [if_pos ht]
      · rw [if_neg ht]
        rcases hpass with h | h
        · exact absurd h ht
        · exact decide_eq_true h
    rw [hbp] at hres
    generalize (if rxEvent.midiEvent.type = MIDI_EVENT_TYPE_PROGRAM then
        lib.hashMidiEventToInt rxEvent.midiEvent.type rxEvent.midiEvent.channel
          rxEvent.midiEvent.data1 w.lastBankSelectMSB w.lastBankSelectLSB
      else
        lib.hashMidiEventToInt rxEvent.midiEvent.type rxEvent.midiEvent.channel
          rxEvent.midiEvent.data1 (-1) (-1)) = key at hres ⊢
    obtain ⟨hk1, hk2, hk3⟩ := triggersMidiActionHash_index_keeps w2 key
    have hprj2 : w2.getCurrentProject = some prj :=
      (getCurrentProject_of_selectionState w w2 hw2).trans hprj
    have hprj4 : (w2.triggersMidiActionHash_index key).2.getCurrentProject = some prj :=
      (getCurrentProject_congr w2 _ hk1 hk2).trans hprj2
    have hidx : (w2.triggersMidiActionHash_index key).2.mCurrentPatchIndex =
        w.mCurrentPatchIndex :=
      hk3.trans (congrArg (fun t => t.2.2.2.2.1) hw2)
    constructor
    · intro hact hlast
      have hp : (w2.triggersMidiActionHash_index key).2.performAction rxEvent.midiEvent
          Action.actionNext_Patch true =
          (w2.triggersMidiActionHash_index key).2.setCurrentPatchByIndex
            ((w2.triggersMidiActionHash_index key).2.mCurrentPatchIndex + 1) := rfl
      rw [hres, hact, hp]
      rw [setCurrentPatchByIndex_masterPatch _ prj hprj4, hidx, hlast]
      have hnorm : (if (if prj.getNumPatches - 1 + 1 = -1 then prj.getNumPatches - 1
              else prj.getNumPatches - 1 + 1) < 0 ∨
            (if prj.getNumPatches - 1 + 1 = -1 then prj.getNumPatches - 1
              else prj.getNumPatches - 1 + 1) ≥ prj.getNumPatches
          then 0 else (if prj.getNumPatches - 1 + 1 = -1 then prj.getNumPatches - 1
              else prj.getNumPatches - 1 + 1)) = 0 := by
        split_ifs <;> omega
      rw [hnorm]
      exact getPatch_of_inRange prj 0 (le_refl _) hn
    · intro hact hfirst
      have hp : (w2.triggersMidiActionHash_index key).2.performAction rxEvent.midiEvent
          Action.actionPrevious_Patch true =
          (w2.triggersMidiActionHash_index key).2.setCurrentPatchByIndex
            ((w2.triggersMidiActionHash_index key).2.mCurrentPatchIndex - 1) := rfl
      rw [hres, hact, hp]
      rw [setCurrentPatchByIndex_masterPatch _ prj hprj4, hidx, hfirst]
      have hnorm : (if (if (0 : Int) - 1 = -1 then prj.getNumPatches - 1 else 0 - 1) < 0 ∨
            (if (0 : Int) - 1 = -1 then prj.getNumPatches - 1 else 0 - 1) ≥ prj.getNumPatches
          then 0 else (if (0 : Int) - 1 = -1 then prj.getNumPatches - 1 else 0 - 1)) =
          prj.getNumPatches - 1 := by
        split_ifs <;> omega
      rw [hnorm]
      exact getPatch_of_inRange prj _ (by omega) (by omega)

/-- Witness of `setCurrentPatchByIndex_selects`: with the patches 11, 12, 13 and patch 13
current, index -1 selects the last patch, index 7 the first, and the CC 20 event that
triggers Next Patch selects the first patch. -/
theorem setCurrentPatchByIndex_selects_witness :
    windowWithThreePatches.getCurrentProject = some projectWithThreeBuses ∧
    projectWithThreeBuses.patchList.get? (projectWithThreeBuses.getNumPatches - 1).toNat =
      some (windowWithThreePatches.setCurrentPatchByIndex (-1)).masterPatch ∧
    projectWithThreeBuses.patchList.get? 0 =
      some (windowWithThreePatches.setCurrentPatchByIndex 7).masterPatch ∧
    projectWithThreeBuses.patchList.get? 0 =
      some (windowWithThreePatches.handleMidiEvent midiHForExamples
        { midiEvent := { type := MIDI_EVENT_TYPE_CC, data1 := 20, data2 := 127 } }).masterPatch :=
  ⟨rfl,
   (setCurrentPatchByIndex_selects windowWithThreePatches projectWithThreeBuses (-1) rfl).1
      rfl (by decide),
   (setCurrentPatchByIndex_selects windowWithThreePatches projectWithThreeBuses 7 rfl).2.2.1
      (by decide) (by decide) (by decide),
   ((setCurrentPatchByIndex_selects windowWithThreePatches projectWithThreeBuses 0 rfl).2.2.2.2
      midiHForExamples
      { midiEvent := { type := MIDI_EVENT_TYPE_CC, data1 := 20, data2 := 127 } }
      (by decide) (by decide) (by decide) (by decide)).1 (by decide) (by decide)⟩

end Konfyt
